import Mathlib

/-!
# ESP32-S3 EMS: fuel and spark scheduling

A shallow embedding of the fuel-math, dwell and angle-scheduling code of the
engine-management firmware, together with the properties stated about it.

Conventions of the embedding:

* C `float` values are embedded as exact rationals (`ℚ`); every statement
  below is therefore a statement about the arithmetic the code writes down,
  not about IEEE-754 rounding.
* Unsigned machine integers are natural numbers; a conversion from `float`
  to an unsigned integer truncates toward zero and is reduced modulo the
  width of the target type.
* A pointer that may be `NULL` and a read that may fail are an `Option`.
-/

namespace EMS

/-! ## Configuration constants (`s3_control_config.h`, `p4_control_config.h`) -/

def REQ_FUEL_US : ℕ := 7730
def WARMUP_TEMP_MAX : ℤ := 70
def WARMUP_TEMP_MIN : ℤ := 0
def WARMUP_ENRICH_MAX : ℕ := 140
def PW_MAX_US : ℕ := 18000
def PW_MIN_US : ℕ := 500

/-! ## Scalar conversions -/

/-- C conversion `(uint32_t)x` of a float: truncation, reduced to 32 bits. -/
def f32_to_u32 (x : ℚ) : ℕ := Int.toNat ⌊x⌋ % 4294967296

/-- C conversion `(uint16_t)x` of a float: truncation, reduced to 16 bits. -/
def f32_to_u16 (x : ℚ) : ℕ := Int.toNat ⌊x⌋ % 65536

/-- Modelled from the spec: the fields of `sensor_data_t` (declared in
`sensor_processing.h`, which is not part of the sources) that the control code
reads: `map_kpa10 : u16`, `clt_c : i16`, `vbat_dv : u16`, `o2_mv : u16`. -/
structure sensor_data_t where
  map_kpa10 : ℕ
  clt_c : ℤ
  vbat_dv : ℕ
  o2_mv : ℕ
deriving DecidableEq, Repr

/-! ## `fuel_calc.c`

The S3 file and the P4 copy under `legacy/firmware/p4` define
`fuel_calc_warmup_enrichment` and `fuel_calc_pulsewidth_us` with the same text. -/

/-- Translation of `fuel_calc_warmup_enrichment`; `none` is the `NULL` snapshot. -/
def fuel_calc_warmup_enrichment (sensors : Option sensor_data_t) : ℕ :=
  match sensors with
  | none => 100
  | some s =>
    if s.clt_c ≤ WARMUP_TEMP_MIN then WARMUP_ENRICH_MAX
    else if s.clt_c ≥ WARMUP_TEMP_MAX then 100
    else
      let range : ℚ := ((WARMUP_TEMP_MAX - WARMUP_TEMP_MIN : ℤ) : ℚ)
      let pos : ℚ := ((s.clt_c - WARMUP_TEMP_MIN : ℤ) : ℚ) / range
      let enrich : ℚ := (WARMUP_ENRICH_MAX : ℚ) - ((WARMUP_ENRICH_MAX : ℚ) - 100) * pos
      f32_to_u16 (enrich + 1 / 2)

/-- Translation of `fuel_calc_pulsewidth_us`. -/
def fuel_calc_pulsewidth_us (sensors : Option sensor_data_t) (rpm : ℕ) (ve_x10 : ℕ)
    (lambda_correction : ℚ) : ℕ :=
  match sensors with
  | none => PW_MIN_US
  | some s =>
    if rpm = 0 then PW_MIN_US
    else
      let ve : ℚ := (ve_x10 : ℚ) / 10
      let map_kpa : ℚ := (s.map_kpa10 : ℚ) / 10
      let load_factor : ℚ := map_kpa / 100
      let base_pw : ℚ := (REQ_FUEL_US : ℚ) * (ve / 100) * load_factor
      let warmup : ℕ := fuel_calc_warmup_enrichment (some s)
      let warmup_factor : ℚ := (warmup : ℚ) / 100
      let lambda_factor0 : ℚ := 1 + lambda_correction
      let lambda_factor : ℚ :=
        if lambda_factor0 < 3 / 4 then 3 / 4
        else if lambda_factor0 > 5 / 4 then 5 / 4
        else lambda_factor0
      let pw0 : ℚ := base_pw * warmup_factor * lambda_factor
      let pw : ℚ :=
        if pw0 < (PW_MIN_US : ℚ) then (PW_MIN_US : ℚ)
        else if pw0 > (PW_MAX_US : ℚ) then (PW_MAX_US : ℚ)
        else pw0
      f32_to_u32 (pw + 1 / 2)

/-- The `clamp(x, lo, hi)` of the specification text. -/
def spec_clamp (x lo hi : ℚ) : ℚ := max lo (min x hi)

/-! ## `mcpwm_ignition.c` and `mcpwm_ignition_hp.c`: dwell schedule -/

/-- Translation of `calculate_dwell_time` (milliseconds from battery volts). -/
def calculate_dwell_time (battery_voltage : ℚ) : ℚ :=
  if battery_voltage < 11 then 9 / 2
  else if battery_voltage < 25 / 2 then 7 / 2
  else if battery_voltage < 14 then 3
  else 14 / 5

/-- Translation of `adjust_dwell_for_rpm`. -/
def adjust_dwell_for_rpm (base_dwell : ℚ) (rpm : ℕ) : ℚ :=
  if rpm > 8000 then base_dwell * (17 / 20)
  else if rpm < 1000 then base_dwell * (23 / 20)
  else base_dwell

/-- Translation of `calculate_dwell_time_hp`. -/
def calculate_dwell_time_hp (battery_voltage : ℚ) : ℚ :=
  if battery_voltage < 11 then 9 / 2
  else if battery_voltage < 25 / 2 then 7 / 2
  else if battery_voltage < 14 then 3
  else 14 / 5

/-- Translation of `adjust_dwell_for_rpm_hp`. -/
def adjust_dwell_for_rpm_hp (base_dwell : ℚ) (rpm : ℕ) : ℚ :=
  if rpm > 8000 then base_dwell * (17 / 20)
  else if rpm < 1000 then base_dwell * (23 / 20)
  else base_dwell

def UINT32_MAX : ℕ := 4294967295

/-- What a successful `mcpwm_ignition_schedule_one_shot` leaves behind: the
dwell stored in the channel and the three values written to the timer. -/
structure ign_one_shot_t where
  current_dwell_ms : ℚ
  period : ℕ
  cmp_dwell : ℕ
  cmp_spark : ℕ
deriving DecidableEq, Repr

/-- Translation of `mcpwm_ignition_schedule_one_shot` with every MCPWM driver
call succeeding; `none` is the `false` return. -/
def mcpwm_ignition_schedule_one_shot (g_initialized : Bool) (cylinder_id spark_delay_us rpm : ℕ)
    (battery_voltage : ℚ) : Option ign_one_shot_t :=
  if g_initialized = false ∨ cylinder_id < 1 ∨ cylinder_id > 4 ∨ rpm = 0 then none
  else
    let dwell_time_ms0 : ℚ := calculate_dwell_time battery_voltage
    let dwell_time_ms : ℚ := adjust_dwell_for_rpm dwell_time_ms0 rpm
    let dwell_ticks : ℕ := f32_to_u32 (dwell_time_ms * 1000)
    let dwell_start_delay : ℕ :=
      if spark_delay_us > dwell_ticks then spark_delay_us - dwell_ticks else 0
    if spark_delay_us ≥ UINT32_MAX - 1 then none
    else
      let period : ℕ := spark_delay_us + 1
      some (ign_one_shot_t.mk dwell_time_ms period dwell_start_delay spark_delay_us)

/-- What a successful `mcpwm_ignition_hp_schedule_one_shot_absolute` leaves
behind: the stored dwell, the two compare values and the recorded counter. -/
structure ign_hp_abs_t where
  current_dwell_ms : ℚ
  cmp_dwell : ℕ
  cmp_spark : ℕ
  last_counter_value : ℕ
deriving DecidableEq, Repr

/-- Translation of `mcpwm_ignition_hp_schedule_one_shot_absolute` with every
MCPWM driver call succeeding; `none` is the `false` return. -/
def mcpwm_ignition_hp_schedule_one_shot_absolute (g_initialized_hp : Bool)
    (cylinder_id target_us rpm : ℕ) (battery_voltage : ℚ) (current_counter : ℕ) :
    Option ign_hp_abs_t :=
  if g_initialized_hp = false ∨ cylinder_id < 1 ∨ cylinder_id > 4 ∨ rpm = 0 then none
  else
    let dwell_time_ms0 : ℚ := calculate_dwell_time_hp battery_voltage
    let dwell_time_ms : ℚ := adjust_dwell_for_rpm_hp dwell_time_ms0 rpm
    let dwell_ticks : ℕ := f32_to_u32 (dwell_time_ms * 1000)
    let dwell_start_ticks : ℕ := if target_us > dwell_ticks then target_us - dwell_ticks else 0
    if target_us ≤ current_counter then none
    else some (ign_hp_abs_t.mk dwell_time_ms dwell_start_ticks target_us current_counter)

/-- The coarse dwell schedule as the glossary words it (milliseconds). -/
def spec_dwell_base (v : ℚ) : ℚ :=
  if v < 11 then 9 / 2 else if v < 25 / 2 then 7 / 2 else if v < 14 then 3 else 14 / 5

/-- The rpm multiplier as the glossary words it. -/
def spec_dwell_rpm_bias (rpm : ℕ) : ℚ :=
  if rpm > 8000 then 17 / 20 else if rpm < 1000 then 23 / 20 else 1

/-! ## Angle wrapping (`wrap_angle_720`, `wrap_angle_360`) -/

/-- First loop of `wrap_angle_720`: `while (angle_deg >= 720.0f) angle_deg -= 720.0f;`. -/
def wrap_angle_720_sub (angle_deg : ℚ) : ℚ :=
  if angle_deg ≥ 720 then wrap_angle_720_sub (angle_deg - 720) else angle_deg
termination_by Int.toNat ⌊angle_deg / 720⌋
decreasing_by
  rename_i h
  have e : (angle_deg - 720) / 720 = angle_deg / 720 - 1 := by ring
  have h1 : (1 : ℤ) ≤ ⌊angle_deg / 720⌋ := by
    apply Int.le_floor.mpr
    push_cast
    rw [le_div_iff₀ (by norm_num)]
    linarith
  rw [e, Int.floor_sub_one]
  omega

/-- Second loop of `wrap_angle_720`: `while (angle_deg < 0.0f) angle_deg += 720.0f;`. -/
def wrap_angle_720_add (angle_deg : ℚ) : ℚ :=
  if angle_deg < 0 then wrap_angle_720_add (angle_deg + 720) else angle_deg
termination_by Int.toNat ⌈-angle_deg / 720⌉
decreasing_by
  rename_i h
  have e : -(angle_deg + 720) / 720 = -angle_deg / 720 - 1 := by ring
  have h1 : (1 : ℤ) ≤ ⌈-angle_deg / 720⌉ := by
    apply Int.one_le_ceil_iff.mpr
    apply div_pos <;> linarith
  rw [e, Int.ceil_sub_one]
  omega

/-- Translation of `wrap_angle_720` (both loops in sequence). -/
def wrap_angle_720 (angle_deg : ℚ) : ℚ :=
  wrap_angle_720_add (wrap_angle_720_sub angle_deg)

/-- First loop of `wrap_angle_360`: `while (angle_deg >= 360.0f) angle_deg -= 360.0f;`. -/
def wrap_angle_360_sub (angle_deg : ℚ) : ℚ :=
  if angle_deg ≥ 360 then wrap_angle_360_sub (angle_deg - 360) else angle_deg
termination_by Int.toNat ⌊angle_deg / 360⌋
decreasing_by
  rename_i h
  have e : (angle_deg - 360) / 360 = angle_deg / 360 - 1 := by ring
  have h1 : (1 : ℤ) ≤ ⌊angle_deg / 360⌋ := by
    apply Int.le_floor.mpr
    push_cast
    rw [le_div_iff₀ (by norm_num)]
    linarith
  rw [e, Int.floor_sub_one]
  omega

/-- Second loop of `wrap_angle_360`: `while (angle_deg < 0.0f) angle_deg += 360.0f;`. -/
def wrap_angle_360_add (angle_deg : ℚ) : ℚ :=
  if angle_deg < 0 then wrap_angle_360_add (angle_deg + 360) else angle_deg
termination_by Int.toNat ⌈-angle_deg / 360⌉
decreasing_by
  rename_i h
  have e : -(angle_deg + 360) / 360 = -angle_deg / 360 - 1 := by ring
  have h1 : (1 : ℤ) ≤ ⌈-angle_deg / 360⌉ := by
    apply Int.one_le_ceil_iff.mpr
    apply div_pos <;> linarith
  rw [e, Int.ceil_sub_one]
  omega

/-- Translation of `wrap_angle_360` (both loops in sequence). -/
def wrap_angle_360 (angle_deg : ℚ) : ℚ :=
  wrap_angle_360_add (wrap_angle_360_sub angle_deg)

/-! ## Crank synchronisation data (`sync.h`) -/

/-- Modelled from the spec: the fields of `sync_data_t` (declared in `sync.h`,
which is not part of the sources) that the schedulers read. The spec gives
`tooth_index`, `revolution_index`, `tooth_period` as unsigned integers and
`time_per_degree` as a float; `sync_valid` and `sync_acquired` are the flags
the control code tests. -/
structure sync_data_t where
  tooth_index : ℕ
  revolution_index : ℕ
  tooth_period : ℕ
  time_per_degree : ℚ
  rpm : ℕ
  sync_valid : Bool
  sync_acquired : Bool
deriving DecidableEq, Repr

/-- Modelled from the spec: the one field of `sync_config_t` (declared in
`sync.h`) that the schedulers read, the number of physical teeth. -/
structure sync_config_t where
  tooth_count : ℕ
deriving DecidableEq, Repr

/-- The zero-initialised `sync_data_t sync_data = {0}`. -/
def sync_data_zero : sync_data_t := sync_data_t.mk 0 0 0 0 0 false false

/-- The zero-initialised `sync_config_t sync_cfg = {0}`. -/
def sync_config_zero : sync_config_t := sync_config_t.mk 0

/-- A call issued to one of the output drivers. -/
inductive hw_call where
  | ignition_schedule_one_shot (cylinder_id spark_delay_us rpm : ℕ) (battery_voltage : ℚ)
  | ignition_start_cylinder (cylinder_id rpm : ℕ) (advance_degrees battery_voltage : ℚ)
  | injection_schedule_one_shot (channel delay_us pulsewidth_us : ℕ)
deriving DecidableEq, Repr

/-! ## `ignition_timing.c` (S3) -/

/-- The table `g_cyl_tdc_deg[4] = {0, 180, 360, 540}`, by array index. -/
def g_cyl_tdc_deg (i : ℕ) : ℚ :=
  match i with
  | 0 => 0
  | 1 => 180
  | 2 => 360
  | 3 => 540
  | _ => 0

/-- Translation of `clampf_local`. -/
def clampf_local (v min_v max_v : ℚ) : ℚ :=
  if v < min_v then min_v else if v > max_v then max_v else v

/-- Translation of `apply_temp_dwell_bias`. -/
def apply_temp_dwell_bias (battery_voltage : ℚ) (clt_c : ℤ) : ℚ :=
  let biased : ℚ :=
    if clt_c ≥ 105 then battery_voltage + 1
    else if clt_c ≥ 95 then battery_voltage + 1 / 2
    else if clt_c ≤ 0 then battery_voltage - 7 / 10
    else if clt_c ≤ 20 then battery_voltage - 2 / 5
    else battery_voltage
  clampf_local biased 8 (33 / 2)

/-- Translation of `compute_current_angle_deg`; `tooth_count + 2` is 32-bit
unsigned arithmetic. -/
def compute_current_angle_deg (sync : sync_data_t) (tooth_count : ℕ) : ℚ :=
  let degrees_per_tooth : ℚ := 360 / (((tooth_count + 2) % 4294967296 : ℕ) : ℚ)
  let current_angle : ℚ :=
    (sync.revolution_index : ℚ) * 360 + (sync.tooth_index : ℚ) * degrees_per_tooth
  wrap_angle_720 current_angle

/-- Translation of `sync_us_per_degree`; `none` is a `NULL` pointer. -/
def sync_us_per_degree (sync : Option sync_data_t) (cfg : Option sync_config_t) : ℚ :=
  match sync, cfg with
  | some sd, some c =>
    if sd.tooth_period = 0 ∨ c.tooth_count = 0 then 0
    else
      let total_positions : ℕ := (c.tooth_count + 2) % 4294967296
      ((sd.tooth_period : ℚ) * (total_positions : ℚ)) / 360
  | _, _ => 0

/-- The battery voltage `ignition_apply_timing` hands to the drivers (the
first block of the function); `sensor_read` is what `sensor_get_data_fast`
delivered, `none` when it did not return `ESP_OK`. -/
def ignition_dwell_voltage (sensor_read : Option sensor_data_t) : ℚ :=
  let battery_voltage : ℚ := 27 / 2
  match sensor_read with
  | some sensors =>
    let battery_voltage1 : ℚ :=
      if sensors.vbat_dv > 0 then (sensors.vbat_dv : ℚ) / 10 else battery_voltage
    apply_temp_dwell_bias battery_voltage1 sensors.clt_c
  | none => clampf_local battery_voltage 8 (33 / 2)

/-- The loop body of the synchronized branch of `ignition_apply_timing` up to
the angle to spark `delta_deg` of one cylinder (1..4). -/
def spark_delta_deg (advance_degrees current_angle : ℚ) (cylinder : ℕ) : ℚ :=
  let spark_deg : ℚ := wrap_angle_720 (g_cyl_tdc_deg (cylinder - 1) - advance_degrees)
  let delta_deg : ℚ := spark_deg - current_angle
  if delta_deg < 0 then delta_deg + 720 else delta_deg

/-- Translation of `ignition_apply_timing` (S3): the driver calls it issues, in
order. `sensor_read`, `sync_read` and `cfg_read` are the results of
`sensor_get_data_fast`, `sync_get_data` and `sync_get_config`. -/
def ignition_apply_timing (advance_deg10 rpm : ℕ) (sensor_read : Option sensor_data_t)
    (sync_read : Option sync_data_t) (cfg_read : Option sync_config_t) : List hw_call :=
  let advance_degrees : ℚ := (advance_deg10 : ℚ) / 10
  let battery_voltage : ℚ := ignition_dwell_voltage sensor_read
  let sync_data : sync_data_t := sync_read.getD sync_data_zero
  let sync_cfg : sync_config_t := cfg_read.getD sync_config_zero
  let have_sync0 : Bool :=
    sync_read.isSome && cfg_read.isSome && sync_data.sync_valid && sync_data.sync_acquired
      && decide (sync_cfg.tooth_count > 0)
  let us_per_deg : ℚ :=
    if have_sync0 then sync_us_per_degree (some sync_data) (some sync_cfg) else 0
  let have_sync : Bool := have_sync0 && !decide (us_per_deg ≤ 0)
  if have_sync then
    let current_angle : ℚ := compute_current_angle_deg sync_data sync_cfg.tooth_count
    [1, 2, 3, 4].map fun cylinder =>
      let delta_deg : ℚ := spark_delta_deg advance_degrees current_angle cylinder
      let delay_us : ℕ := f32_to_u32 (delta_deg * us_per_deg + 1 / 2)
      hw_call.ignition_schedule_one_shot cylinder delay_us rpm battery_voltage
  else
    [1, 2, 3, 4].map fun cylinder =>
      hw_call.ignition_start_cylinder cylinder rpm advance_degrees battery_voltage

/-- The battery voltage carried by a coil call, if the call is one. -/
def hw_call.coil_voltage (c : hw_call) : Option ℚ :=
  match c with
  | hw_call.ignition_schedule_one_shot _ _ _ v => some v
  | hw_call.ignition_start_cylinder _ _ _ v => some v
  | hw_call.injection_schedule_one_shot _ _ _ => none

/-- The temperature bias of the dwell voltage as the claim words it (volts). -/
def spec_temp_bias (clt_c : ℤ) : ℚ :=
  if clt_c ≥ 105 then 1
  else if clt_c ≥ 95 then 1 / 2
  else if clt_c ≤ 0 then -(7 / 10)
  else if clt_c ≤ 20 then -(2 / 5)
  else 0

/-- Scenario A of the specification: a 60-2 wheel (58 teeth), tooth period
1000 us, tooth index 0 in revolution 0, full sync. -/
def scenario_a_sync : sync_data_t := sync_data_t.mk 0 0 1000 (500 / 3) 1000 true true

/-- The wheel of scenario A. -/
def scenario_a_cfg : sync_config_t := sync_config_t.mk 58

/-- A mid-cycle crank position on the same wheel: tooth 10 of revolution 1. -/
def mid_cycle_sync : sync_data_t := sync_data_t.mk 10 1 1000 (500 / 3) 1000 true true

/-! ## `fuel_injection.c` (release S3 build)

Its `wrap_angle_720`, `compute_current_angle_deg` and `sync_us_per_degree` are
textually the functions of `ignition_timing.c` above. -/

/-- The configuration `fuel_injection_config_t`: the array `cyl_tdc_deg[4]`, by
array index. -/
structure fuel_injection_config_t where
  cyl_tdc_deg : ℕ → ℚ

/-- The initial value of `g_fuel_cfg`: `{0, 180, 360, 540}`. -/
def g_fuel_cfg_default : fuel_injection_config_t := fuel_injection_config_t.mk g_cyl_tdc_deg

/-- The record `fuel_injection_schedule_info_t` filled by
`fuel_injection_schedule_eoi_ex`. -/
structure fuel_injection_schedule_info_t where
  eoi_deg : ℚ
  soi_deg : ℚ
  delay_us : ℕ
deriving DecidableEq, Repr

/-- Translation of `fuel_injection_schedule_eoi_ex` (release S3 build): the
schedule information it computes and the injector call it issues. `sync` is
the pointer argument, `cfg_read` the result of `sync_get_config`, `g_fuel_cfg`
the current configuration; `none` is an early `return false`. -/
def fuel_injection_schedule_eoi_ex (g_fuel_cfg : fuel_injection_config_t) (cylinder_id : ℕ)
    (target_eoi_deg : ℚ) (pulsewidth_us : ℕ) (sync : Option sync_data_t)
    (cfg_read : Option sync_config_t) : Option (fuel_injection_schedule_info_t × hw_call) :=
  match sync with
  | none => none
  | some sd =>
    if cylinder_id < 1 ∨ cylinder_id > 4 then none
    else
      match cfg_read with
      | none => none
      | some sync_cfg =>
        if sync_cfg.tooth_count = 0 then none
        else
          let us_per_deg : ℚ := sync_us_per_degree (some sd) (some sync_cfg)
          if us_per_deg ≤ 0 then none
          else
            let current_angle : ℚ := compute_current_angle_deg sd sync_cfg.tooth_count
            let eoi_deg : ℚ :=
              wrap_angle_720 (target_eoi_deg + g_fuel_cfg.cyl_tdc_deg (cylinder_id - 1))
            let pw_deg : ℚ := (pulsewidth_us : ℚ) / us_per_deg
            let soi_deg : ℚ := wrap_angle_720 (eoi_deg - pw_deg)
            let delta_deg0 : ℚ := soi_deg - current_angle
            let delta_deg : ℚ := if delta_deg0 < 0 then delta_deg0 + 720 else delta_deg0
            let delay_us : ℕ := f32_to_u32 (delta_deg * us_per_deg + 1 / 2)
            some (fuel_injection_schedule_info_t.mk eoi_deg soi_deg delay_us,
              hw_call.injection_schedule_one_shot (cylinder_id - 1) delay_us pulsewidth_us)

/-! ## P4 control path (`legacy/firmware/p4`) -/

namespace P4

/-- Translation of the P4 `fuel_injection_schedule_eoi`: the injector call it
issues, `none` when it returns `false` before scheduling. -/
def fuel_injection_schedule_eoi (g_fuel_cfg : fuel_injection_config_t) (cylinder_id : ℕ)
    (target_eoi_deg : ℚ) (pulsewidth_us : ℕ) (sync : Option sync_data_t)
    (cfg_read : Option sync_config_t) : Option hw_call :=
  match sync with
  | none => none
  | some sd =>
    if cylinder_id < 1 ∨ cylinder_id > 4 then none
    else
      match cfg_read with
      | none => none
      | some sync_cfg =>
        if sync_cfg.tooth_count = 0 then none
        else if sd.time_per_degree = 0 then none
        else
          let current_angle : ℚ := compute_current_angle_deg sd sync_cfg.tooth_count
          let eoi_deg : ℚ :=
            wrap_angle_720 (target_eoi_deg + g_fuel_cfg.cyl_tdc_deg (cylinder_id - 1))
          let pw_deg : ℚ := (pulsewidth_us : ℚ) / sd.time_per_degree
          let soi_deg : ℚ := wrap_angle_720 (eoi_deg + pw_deg)
          let delta_deg0 : ℚ := soi_deg - current_angle
          let delta_deg : ℚ := if delta_deg0 < 0 then delta_deg0 + 720 else delta_deg0
          let delay_us : ℕ := f32_to_u32 (delta_deg * sd.time_per_degree)
          some (hw_call.injection_schedule_one_shot (cylinder_id - 1) delay_us pulsewidth_us)

/-- Translation of `compute_current_angle_360`. -/
def compute_current_angle_360 (sync : sync_data_t) (tooth_count : ℕ) : ℚ :=
  let degrees_per_tooth : ℚ := 360 / (((tooth_count + 2) % 4294967296 : ℕ) : ℚ)
  let current_angle : ℚ := (sync.tooth_index : ℚ) * degrees_per_tooth
  wrap_angle_360 current_angle

/-- Translation of `schedule_semi_seq_injection`: the injector calls, in order. -/
def schedule_semi_seq_injection (_rpm _load pw_us : ℕ) (sync : sync_data_t)
    (eoi_base_deg : ℚ) (cfg_read : Option sync_config_t) : List hw_call :=
  match cfg_read with
  | none => []
  | some sync_cfg =>
    if sync_cfg.tooth_count = 0 then []
    else
      let current_angle : ℚ := compute_current_angle_360 sync sync_cfg.tooth_count
      let tpd : ℚ := sync.time_per_degree
      if tpd ≤ 0 then []
      else
        let pw_deg : ℚ := (pw_us : ℚ) / tpd
        let eoi0 : ℚ := wrap_angle_360 eoi_base_deg
        let soi0 : ℚ := wrap_angle_360 (eoi0 + pw_deg)
        let delta0a : ℚ := soi0 - current_angle
        let delta0 : ℚ := if delta0a < 0 then delta0a + 360 else delta0a
        let delay0 : ℕ := f32_to_u32 (delta0 * tpd)
        let eoi180 : ℚ := wrap_angle_360 (eoi_base_deg + 180)
        let soi180 : ℚ := wrap_angle_360 (eoi180 + pw_deg)
        let delta180a : ℚ := soi180 - current_angle
        let delta180 : ℚ := if delta180a < 0 then delta180a + 360 else delta180a
        let delay180 : ℕ := f32_to_u32 (delta180 * tpd)
        [hw_call.injection_schedule_one_shot 0 delay0 pw_us,
         hw_call.injection_schedule_one_shot 3 delay0 pw_us,
         hw_call.injection_schedule_one_shot 1 delay180 pw_us,
         hw_call.injection_schedule_one_shot 2 delay180 pw_us]

/-- Translation of `schedule_wasted_spark`: the coil calls, in order. -/
def schedule_wasted_spark (advance_deg10 rpm : ℕ) (sync : sync_data_t)
    (cfg_read : Option sync_config_t) : List hw_call :=
  match cfg_read with
  | none => []
  | some sync_cfg =>
    if sync_cfg.tooth_count = 0 then []
    else
      let current_angle : ℚ := compute_current_angle_360 sync sync_cfg.tooth_count
      let tpd : ℚ := sync.time_per_degree
      if tpd ≤ 0 then []
      else
        let advance_deg : ℚ := (advance_deg10 : ℚ) / 10
        let spark0 : ℚ := wrap_angle_360 (0 - advance_deg)
        let delta0a : ℚ := spark0 - current_angle
        let delta0 : ℚ := if delta0a < 0 then delta0a + 360 else delta0a
        let delay0 : ℕ := f32_to_u32 (delta0 * tpd)
        let spark180 : ℚ := wrap_angle_360 (180 - advance_deg)
        let delta180a : ℚ := spark180 - current_angle
        let delta180 : ℚ := if delta180a < 0 then delta180a + 360 else delta180a
        let delay180 : ℕ := f32_to_u32 (delta180 * tpd)
        [hw_call.ignition_schedule_one_shot 1 delay0 rpm (27 / 2),
         hw_call.ignition_schedule_one_shot 4 delay0 rpm (27 / 2),
         hw_call.ignition_schedule_one_shot 2 delay180 rpm (27 / 2),
         hw_call.ignition_schedule_one_shot 3 delay180 rpm (27 / 2)]

/-- Translation of the P4 `ignition_apply_timing`: the coil calls, in order.
`sync_read` and `cfg_read` are the results of its own `sync_get_data` and
`sync_get_config`. -/
def ignition_apply_timing (advance_deg10 rpm : ℕ) (sync_read : Option sync_data_t)
    (cfg_read : Option sync_config_t) : List hw_call :=
  let advance_degrees : ℚ := (advance_deg10 : ℚ) / 10
  let battery_voltage : ℚ := 27 / 2
  let sync_data : sync_data_t := sync_read.getD sync_data_zero
  let sync_cfg : sync_config_t := cfg_read.getD sync_config_zero
  let have_sync : Bool :=
    sync_read.isSome && cfg_read.isSome && sync_data.sync_valid && sync_data.sync_acquired
      && decide (sync_cfg.tooth_count > 0)
  if have_sync then
    let current_angle : ℚ := compute_current_angle_deg sync_data sync_cfg.tooth_count
    [1, 2, 3, 4].map fun cylinder =>
      let tdc_deg : ℚ := g_cyl_tdc_deg (cylinder - 1)
      let spark_deg : ℚ := wrap_angle_720 (tdc_deg - advance_degrees)
      let delta_deg0 : ℚ := spark_deg - current_angle
      let delta_deg : ℚ := if delta_deg0 < 0 then delta_deg0 + 720 else delta_deg0
      let delay_us : ℕ := f32_to_u32 (delta_deg * sync_data.time_per_degree)
      hw_call.ignition_schedule_one_shot cylinder delay_us rpm battery_voltage
  else
    [1, 2, 3, 4].map fun cylinder =>
      hw_call.ignition_start_cylinder cylinder rpm advance_degrees battery_voltage

/-- The arming block that ends `engine_control_run_cycle` (from
`if (sync_data.sync_acquired)` on), reached by every cycle that passed the
reads and the safety checks: the driver calls it issues, in order.
`sync_data` is the cycle's snapshot, `sync_read` what the `sync_get_data` inside
`ignition_apply_timing` delivers, `cfg_read` the result of `sync_get_config`
during the cycle. -/
def engine_control_run_cycle_arm (g_fuel_cfg : fuel_injection_config_t)
    (g_target_eoi_deg g_target_eoi_deg_fallback : ℚ)
    (params_rpm params_load params_advance_deg10 pw_us : ℕ) (sync_data : sync_data_t)
    (sync_read : Option sync_data_t) (cfg_read : Option sync_config_t) : List hw_call :=
  if sync_data.sync_acquired then
    ([1, 2, 3, 4].filterMap fun cyl =>
        fuel_injection_schedule_eoi g_fuel_cfg cyl g_target_eoi_deg pw_us (some sync_data)
          cfg_read)
      ++ ignition_apply_timing params_advance_deg10 params_rpm sync_read cfg_read
  else
    schedule_semi_seq_injection params_rpm params_load pw_us sync_data
        g_target_eoi_deg_fallback cfg_read
      ++ schedule_wasted_spark params_advance_deg10 params_rpm sync_data cfg_read

end P4

/-- A P4 crank snapshot used in the examples: tooth 0 of revolution 0, 100 us
per degree, full sync. -/
def p4_example_sync : sync_data_t := sync_data_t.mk 0 0 600 100 1666 true true

/-- The same snapshot without cam phase (`sync_acquired` false). -/
def p4_example_sync_no_phase : sync_data_t := sync_data_t.mk 0 0 600 100 1666 true false

/-! ## Reading a trace of driver calls -/

/-- Does the call arm a coil? -/
def hw_call.is_coil (c : hw_call) : Bool :=
  match c with
  | hw_call.ignition_schedule_one_shot _ _ _ _ => true
  | hw_call.ignition_start_cylinder _ _ _ _ => true
  | hw_call.injection_schedule_one_shot _ _ _ => false

/-- Does the call arm an injector? -/
def hw_call.is_injector (c : hw_call) : Bool :=
  match c with
  | hw_call.injection_schedule_one_shot _ _ _ => true
  | _ => false

/-- The zero-based cylinder index a call addresses (coil calls number the
cylinders from 1, injector calls from 0). -/
def hw_call.cyl_index (c : hw_call) : ℕ :=
  match c with
  | hw_call.ignition_schedule_one_shot cylinder_id _ _ _ => cylinder_id - 1
  | hw_call.ignition_start_cylinder cylinder_id _ _ _ => cylinder_id - 1
  | hw_call.injection_schedule_one_shot channel _ _ => channel

/-- The arming order the specification words: every coil call comes before
every injector call, and within each group the cylinder indices ascend. -/
def spec_arming_order (tr : List hw_call) : Prop :=
  (∃ coils injectors : List hw_call, tr = coils ++ injectors ∧
    (∀ c ∈ coils, c.is_coil = true) ∧ (∀ c ∈ injectors, c.is_injector = true)) ∧
  ((tr.filter hw_call.is_coil).map hw_call.cyl_index).Sorted (fun a b => a < b) ∧
  ((tr.filter hw_call.is_injector).map hw_call.cyl_index).Sorted (fun a b => a < b)

/-- The cylinder indices of the injector calls of a trace, in the order issued. -/
def injector_order (tr : List hw_call) : List ℕ :=
  (tr.filter hw_call.is_injector).map hw_call.cyl_index

/-- The cylinder indices of the coil calls of a trace, in the order issued. -/
def coil_order (tr : List hw_call) : List ℕ :=
  (tr.filter hw_call.is_coil).map hw_call.cyl_index

/-! ## `mcpwm_injection_hp.c`: absolute-compare injector arming -/

/-- The configuration `mcpwm_injection_config_t`. -/
structure mcpwm_injection_config_t where
  base_frequency_hz : ℕ
  timer_resolution_bits : ℕ
  min_pulsewidth_us : ℕ
  max_pulsewidth_us : ℕ
  deadtime_us : ℕ
deriving DecidableEq, Repr

/-- The initial value of `g_cfg` in `mcpwm_injection_hp.c`. -/
def g_cfg_hp_default : mcpwm_injection_config_t :=
  mcpwm_injection_config_t.mk 1000000 20 500 18000 200

/-- Translation of `clamp_u32_hp`. -/
def clamp_u32_hp (v min_v max_v : ℕ) : ℕ :=
  if v < min_v then min_v else if v > max_v then max_v else v

/-- What a successful `mcpwm_injection_hp_schedule_one_shot_absolute` leaves
behind: the two compare values, the stored pulse width and the recorded
counter. -/
structure inj_hp_abs_t where
  cmp_start : ℕ
  cmp_end : ℕ
  pulsewidth_us : ℕ
  last_counter_value : ℕ
deriving DecidableEq, Repr

/-- Translation of `mcpwm_injection_hp_schedule_one_shot_absolute`; `none` is
the `false` return, which leaves the channel untouched. `delay_us + pw` is
32-bit unsigned arithmetic. -/
def mcpwm_injection_hp_schedule_one_shot_absolute (g_initialized_hp : Bool)
    (g_cfg : mcpwm_injection_config_t) (cylinder_id delay_us pulsewidth_us current_counter : ℕ) :
    Option inj_hp_abs_t :=
  if g_initialized_hp = false ∨ cylinder_id ≥ 4 then none
  else
    let pw : ℕ := clamp_u32_hp pulsewidth_us g_cfg.min_pulsewidth_us g_cfg.max_pulsewidth_us
    let start_ticks : ℕ := delay_us
    let end_ticks : ℕ := (delay_us + pw) % 4294967296
    if delay_us ≤ current_counter then none
    else some (inj_hp_abs_t.mk start_ticks end_ticks pw current_counter)

/-- The minimum lead `MIN_LEAD_US` of the specification, in microseconds (the
sources define no such constant). -/
def SPEC_MIN_LEAD_US : ℕ := 50

/-- The wrap-aware test of the specification: `target` is in the future of
`current_counter` iff `(target - current_counter) mod 2^32` is non-zero and
below `2^31`. -/
def spec_is_future (target current_counter : ℕ) : Prop :=
  (target + 4294967296 - current_counter) % 4294967296 ≠ 0 ∧
    (target + 4294967296 - current_counter) % 4294967296 < 2147483648

/-- The dwell ticks `mcpwm_ignition_hp_schedule_one_shot_absolute` computes from
the battery voltage and the rpm. -/
def ignition_hp_dwell_ticks (battery_voltage : ℚ) (rpm : ℕ) : ℕ :=
  f32_to_u32 (adjust_dwell_for_rpm_hp (calculate_dwell_time_hp battery_voltage) rpm * 1000)

/-! ## 16x16 maps (`s3_control_config.h`, `p4_control_config.h`) -/

/-- The map structure `table_16x16_t`: the arrays by index (`values y x` is
`values[y][x]`) and the stored checksum. -/
structure table_16x16_t where
  rpm_bins : ℕ → ℕ
  load_bins : ℕ → ℕ
  values : ℕ → ℕ → ℕ
  checksum : ℕ

/-- The array `DEFAULT_RPM_BINS`. -/
def DEFAULT_RPM_BINS : List ℕ :=
  [500, 800, 1200, 1600, 2000, 2500, 3000, 3500, 4000, 4500, 5000, 5500, 6000, 6500, 7000, 8000]

/-- The array `DEFAULT_LOAD_BINS`. -/
def DEFAULT_LOAD_BINS : List ℕ :=
  [200, 300, 400, 500, 600, 650, 700, 750, 800, 850, 900, 950, 1000, 1020, 1050, 1100]

def INTERP_CACHE_RPM_DEADBAND : ℕ := 50
def INTERP_CACHE_LOAD_DEADBAND : ℕ := 20

/-! ## Interpolation cache (`fuel_calc.c`, S3)

`table_16x16_interpolate` is not among the sources; the functions below take it
as a parameter. -/

/-- The cache record `interp_cache_t`. -/
structure interp_cache_t where
  last_rpm : ℕ
  last_load : ℕ
  last_result : ℕ
  table_checksum : ℕ
  valid : Bool
deriving DecidableEq, Repr

/-- A cache after `fuel_calc_reset_interpolation_cache` (`memset` to zero). -/
def interp_cache_reset : interp_cache_t := interp_cache_t.mk 0 0 0 0 false

/-- Translation of `abs_u16_delta`. -/
def abs_u16_delta (a b : ℕ) : ℕ := if a > b then a - b else b - a

/-- What one call of `lookup_with_cache` does: the value returned, the cache
afterwards and the number of calls of `table_16x16_interpolate` it made. -/
structure lookup_result_t where
  value : ℕ
  cache : Option interp_cache_t
  interpolate_calls : ℕ
deriving DecidableEq, Repr

/-- Translation of `lookup_with_cache`; `none` is a `NULL` pointer. -/
def lookup_with_cache (table_16x16_interpolate : table_16x16_t → ℕ → ℕ → ℕ)
    (table : Option table_16x16_t) (cache : Option interp_cache_t) (rpm load : ℕ) :
    lookup_result_t :=
  match table, cache with
  | some t, some c =>
    if c.valid = true ∧ c.table_checksum = t.checksum ∧
        abs_u16_delta rpm c.last_rpm ≤ INTERP_CACHE_RPM_DEADBAND ∧
        abs_u16_delta load c.last_load ≤ INTERP_CACHE_LOAD_DEADBAND then
      lookup_result_t.mk c.last_result (some c) 0
    else
      let result : ℕ := table_16x16_interpolate t rpm load
      lookup_result_t.mk result (some (interp_cache_t.mk rpm load result t.checksum true)) 1
  | _, _ => lookup_result_t.mk 0 cache 0

/-- Successive lookups `(rpm, load)` on one table through one cache object
(as `fuel_calc_lookup_ve` does with `g_fuel_cache`): the result of each call,
in order. -/
def lookup_sequence (table_16x16_interpolate : table_16x16_t → ℕ → ℕ → ℕ)
    (table : table_16x16_t) (cache : interp_cache_t) : List (ℕ × ℕ) → List lookup_result_t
  | [] => []
  | q :: qs =>
    let r : lookup_result_t :=
      lookup_with_cache table_16x16_interpolate (some table) (some cache) q.1 q.2
    r :: lookup_sequence table_16x16_interpolate table (r.cache.getD cache) qs

/-- The hit condition of the specification: both deltas within the deadband
and the checksum unchanged. -/
def spec_cache_hit (c : interp_cache_t) (t : table_16x16_t) (rpm load : ℕ) : Prop :=
  |(rpm : ℤ) - (c.last_rpm : ℤ)| ≤ 50 ∧ |(load : ℤ) - (c.last_load : ℤ)| ≤ 20 ∧
    t.checksum = c.table_checksum

/-- Two queries `(rpm, load)` within the cache deadband of each other. -/
def spec_within_deadband (a b : ℕ × ℕ) : Prop :=
  |(b.1 : ℤ) - (a.1 : ℤ)| ≤ 50 ∧ |(b.2 : ℤ) - (a.2 : ℤ)| ≤ 20

/-- Translation of `find_bin_index` (`engine_control.c`): the first `i` in
`0..14` with `value < bins[i + 1]`, else 14. -/
def find_bin_index (bins : ℕ → ℕ) (value : ℕ) : ℕ :=
  ((List.range 15).find? fun i => decide (value < bins (i + 1))).getD 14

/-- A table for the examples: the default bins, cell `values[y][x] = 1000 + 10 * x`. -/
def example_table : table_16x16_t :=
  table_16x16_t.mk (fun i => DEFAULT_RPM_BINS.getD i 0) (fun i => DEFAULT_LOAD_BINS.getD i 0)
    (fun _ x => 1000 + 10 * x) 0

/-- A stand-in for `table_16x16_interpolate` in the examples: the value of the
cell the query falls in, without blending. -/
def example_interpolate (t : table_16x16_t) (rpm load : ℕ) : ℕ :=
  t.values (find_bin_index t.load_bins load) (find_bin_index t.rpm_bins rpm)

/-! ## Safety monitor (`safety_monitor.c`, P4) -/

namespace P4

def FUEL_CUTOFF_RPM : ℕ := 7500
def MAX_RPM : ℕ := 8000
def CLT_SENSOR_MAX : ℚ := 120
def VBAT_SENSOR_MIN : ℚ := 7
def VBAT_SENSOR_MAX : ℚ := 17

/-- The record `limp_mode_t` (declared in `safety_monitor.h`, which is not
among the sources): the fields of the initialiser of `g_limp_mode`. -/
structure limp_mode_t where
  active : Bool
  rpm_limit : ℕ
  ve_value : ℕ
  timing_value : ℕ
  lambda_target : ℕ
  activation_time : ℕ
deriving DecidableEq, Repr

/-- The initial value of `g_limp_mode`. -/
def g_limp_mode_init : limp_mode_t := limp_mode_t.mk false 3000 800 100 1000 0

/-- Translation of `safety_activate_limp_mode`; `now_ms` is the value of
`(uint32_t)(esp_timer_get_time() / 1000)` at the call. -/
def safety_activate_limp_mode (g : limp_mode_t) (now_ms : ℕ) : limp_mode_t :=
  if g.active = false then
    limp_mode_t.mk true g.rpm_limit g.ve_value g.timing_value g.lambda_target now_ms
  else g

/-- Translation of `safety_deactivate_limp_mode`. -/
def safety_deactivate_limp_mode (g : limp_mode_t) : limp_mode_t :=
  limp_mode_t.mk false g.rpm_limit g.ve_value g.timing_value g.lambda_target 0

/-- Translation of `safety_check_over_rev`: the value returned and `g_limp_mode`
afterwards. -/
def safety_check_over_rev (g : limp_mode_t) (rpm now_ms : ℕ) : Bool × limp_mode_t :=
  if rpm ≥ FUEL_CUTOFF_RPM ∨ rpm > MAX_RPM then (true, safety_activate_limp_mode g now_ms)
  else (false, g)

/-- Translation of `safety_check_overheat`; `(int16_t)CLT_SENSOR_MAX` is 120. -/
def safety_check_overheat (g : limp_mode_t) (temp : ℤ) (now_ms : ℕ) : Bool × limp_mode_t :=
  if temp > 120 then (true, safety_activate_limp_mode g now_ms) else (false, g)

/-- Translation of `safety_check_battery_voltage`. -/
def safety_check_battery_voltage (g : limp_mode_t) (voltage now_ms : ℕ) : Bool × limp_mode_t :=
  let v : ℚ := (voltage : ℚ) / 10
  if v < VBAT_SENSOR_MIN ∨ v > VBAT_SENSOR_MAX then (true, safety_activate_limp_mode g now_ms)
  else (false, g)

/-- A run of `safety_check_over_rev` calls `(rpm, now_ms)`: `g_limp_mode` at the end. -/
def over_rev_calls (g : limp_mode_t) : List (ℕ × ℕ) → limp_mode_t
  | [] => g
  | c :: cs => over_rev_calls (safety_check_over_rev g c.1 c.2).2 cs

/-! ## Closed-loop fuel trim (`engine_control.c`, P4)

`table_16x16_interpolate`, `table_16x16_checksum`, `lambda_pid_update` and
`map_storage_save` are not among the sources: the first two are parameters of
the functions below, the results of the last two are inputs. -/

def STFT_LIMIT : ℚ := 1 / 4
def LTFT_LIMIT : ℚ := 1 / 5
def LTFT_ALPHA : ℚ := 1 / 100
def LTFT_STABLE_MS : ℕ := 500
def LTFT_RPM_DELTA_MAX : ℕ := 50
def LTFT_LOAD_DELTA_MAX : ℕ := 50
def LTFT_APPLY_THRESHOLD : ℚ := 3 / 100
def MAP_SAVE_INTERVAL_MS : ℕ := 5000

/-- Translation of `clamp_float`. -/
def clamp_float (v min_v max_v : ℚ) : ℚ :=
  if v < min_v then min_v else if v > max_v then max_v else v

/-- The record `fuel_calc_maps_t`. -/
structure fuel_calc_maps_t where
  fuel_table : table_16x16_t
  ignition_table : table_16x16_t
  lambda_table : table_16x16_t

/-- The variables `g_last_rpm`, `g_last_load` and `g_stable_start_ms`. -/
structure ltft_window_t where
  g_last_rpm : ℕ
  g_last_load : ℕ
  g_stable_start_ms : ℕ
deriving DecidableEq, Repr

/-- The variables of `engine_control.c` that the closed loop reads and writes. -/
structure trim_state_t where
  g_maps : fuel_calc_maps_t
  g_stft : ℚ
  g_ltft : ℚ
  window : ltft_window_t
  g_last_map_save_ms : ℕ
  g_map_dirty : Bool

/-- Translation of `ltft_can_update`: the value returned and the three
variables afterwards. `now_ms - g_stable_start_ms` is 32-bit unsigned. -/
def ltft_can_update (w : ltft_window_t) (rpm load now_ms : ℕ) : Bool × ltft_window_t :=
  let drpm : ℕ := if rpm > w.g_last_rpm then rpm - w.g_last_rpm else w.g_last_rpm - rpm
  let dload : ℕ := if load > w.g_last_load then load - w.g_last_load else w.g_last_load - load
  if drpm ≤ LTFT_RPM_DELTA_MAX ∧ dload ≤ LTFT_LOAD_DELTA_MAX then
    let start : ℕ := if w.g_stable_start_ms = 0 then now_ms else w.g_stable_start_ms
    (decide ((now_ms + 4294967296 - start) % 4294967296 ≥ LTFT_STABLE_MS),
      ltft_window_t.mk rpm load start)
  else (false, ltft_window_t.mk rpm load 0)

/-- Translation of `apply_ltft_to_fuel_table`. -/
def apply_ltft_to_fuel_table (table_16x16_checksum : table_16x16_t → ℕ) (st : trim_state_t)
    (rpm load : ℕ) : trim_state_t :=
  let table : table_16x16_t := st.g_maps.fuel_table
  let x : ℕ := find_bin_index table.rpm_bins rpm
  let y : ℕ := find_bin_index table.load_bins load
  let current : ℚ := (table.values y x : ℚ)
  let updated0 : ℚ := current * (1 + st.g_ltft)
  let updated1 : ℚ := if updated0 < 0 then 0 else updated0
  let updated2 : ℚ := if updated1 > 65535 then 65535 else updated1
  let cell : ℕ := f32_to_u16 (updated2 + 1 / 2)
  let table1 : table_16x16_t :=
    table_16x16_t.mk table.rpm_bins table.load_bins
      (fun yy xx => if yy = y ∧ xx = x then cell else table.values yy xx) table.checksum
  let table2 : table_16x16_t :=
    table_16x16_t.mk table1.rpm_bins table1.load_bins table1.values (table_16x16_checksum table1)
  trim_state_t.mk
    (fuel_calc_maps_t.mk table2 st.g_maps.ignition_table st.g_maps.lambda_table)
    st.g_stft st.g_ltft st.window st.g_last_map_save_ms true

/-- Translation of `maybe_persist_maps`; `save_ok` tells whether
`map_storage_save` returns `ESP_OK` if it is called. -/
def maybe_persist_maps (st : trim_state_t) (now_ms : ℕ) (save_ok : Bool) : trim_state_t :=
  if st.g_map_dirty = false then st
  else if (now_ms + 4294967296 - st.g_last_map_save_ms) % 4294967296 < MAP_SAVE_INTERVAL_MS then st
  else if save_ok = true then
    trim_state_t.mk st.g_maps st.g_stft st.g_ltft st.window now_ms false
  else st

/-- The closed-loop block that `engine_control_get_engine_parameters` and
`engine_control_run_cycle` both contain, from the assignment of `g_stft` to the
computation of `lambda_corr`; `stft` is what `lambda_pid_update` returned.
The result is `lambda_corr` and the variables afterwards. -/
def closed_loop_update (table_16x16_checksum : table_16x16_t → ℕ) (st : trim_state_t) (stft : ℚ)
    (rpm load now_ms : ℕ) (save_ok : Bool) : ℚ × trim_state_t :=
  let st1 : trim_state_t :=
    trim_state_t.mk st.g_maps (clamp_float stft (-STFT_LIMIT) STFT_LIMIT) st.g_ltft st.window
      st.g_last_map_save_ms st.g_map_dirty
  let can : Bool × ltft_window_t := ltft_can_update st1.window rpm load now_ms
  let st2 : trim_state_t :=
    trim_state_t.mk st1.g_maps st1.g_stft st1.g_ltft can.2 st1.g_last_map_save_ms st1.g_map_dirty
  let st3 : trim_state_t :=
    if can.1 = true then
      let ltft1 : ℚ := st2.g_ltft + LTFT_ALPHA * (st2.g_stft - st2.g_ltft)
      let ltft2 : ℚ := clamp_float ltft1 (-LTFT_LIMIT) LTFT_LIMIT
      let st2a : trim_state_t :=
        trim_state_t.mk st2.g_maps st2.g_stft ltft2 st2.window st2.g_last_map_save_ms
          st2.g_map_dirty
      if |ltft2| ≥ LTFT_APPLY_THRESHOLD then
        let st2b : trim_state_t := apply_ltft_to_fuel_table table_16x16_checksum st2a rpm load
        trim_state_t.mk st2b.g_maps st2b.g_stft 0 st2b.window st2b.g_last_map_save_ms
          st2b.g_map_dirty
      else st2a
    else st2
  let st4 : trim_state_t := maybe_persist_maps st3 now_ms save_ok
  (clamp_float (st4.g_stft + st4.g_ltft) (-STFT_LIMIT) STFT_LIMIT, st4)

/-- The variables of `engine_control.c` right after boot, for given maps. -/
def trim_state_init (maps : fuel_calc_maps_t) : trim_state_t :=
  trim_state_t.mk maps 0 0 (ltft_window_t.mk 0 0 0) 0 false

/-- The bounds of the specification on the two trims. -/
def spec_trim_bounds (st : trim_state_t) : Prop :=
  (-(1 / 4 : ℚ) ≤ st.g_stft ∧ st.g_stft ≤ 1 / 4) ∧ (-(1 / 5 : ℚ) ≤ st.g_ltft ∧ st.g_ltft ≤ 1 / 5)

end P4
/-! ## The control cycle (`engine_control.c`, P4) -/

namespace P4

/-- The values of `esp_err_t` the control code returns. -/
inductive esp_err_t where
  | ESP_OK
  | ESP_FAIL
  | ESP_ERR_INVALID_ARG
  | ESP_ERR_INVALID_STATE
deriving DecidableEq, Repr

/-- The record `engine_params_t`. -/
structure engine_params_t where
  rpm : ℕ
  load : ℕ
  advance_deg10 : ℕ
  fuel_enrichment : ℕ
  is_limp_mode : Bool
deriving DecidableEq, Repr

/-- The zero-initialised `engine_params_t params = {0}`. -/
def engine_params_zero : engine_params_t := engine_params_t.mk 0 0 0 0 false

/-- The variables a control cycle reads and writes: those of
`engine_control.c`, the injection configuration `g_fuel_cfg` and the limp
state `g_limp_mode` of the safety monitor. -/
structure engine_state_t where
  trim : trim_state_t
  g_engine_math_ready : Bool
  g_closed_loop_enabled : Bool
  g_target_eoi_deg : ℚ
  g_target_eoi_deg_fallback : ℚ
  g_fuel_cfg : fuel_injection_config_t
  g_limp_mode : limp_mode_t

/-- What the environment answers while a function selects the lambda source and
runs the closed loop: `sdio_lambda` is `some v` when `sdio_get_latest_lambda`
returns true with value `v`, `sdio_age_ms` the age it reports,
`lambda_pid_update target measured` what `lambda_pid_update` returns for these
arguments (with `dt = 0.01`), `now_ms` the value of
`(uint32_t)(esp_timer_get_time() / 1000)`, `save_ok` whether `map_storage_save`
returns `ESP_OK`. -/
structure lambda_env_t where
  sdio_lambda : Option ℚ
  sdio_age_ms : ℕ
  lambda_pid_update : ℚ → ℚ → ℚ
  now_ms : ℕ
  save_ok : Bool

/-- The lambda source selection that both functions contain: the clamped
`lambda_measured` and `lambda_valid`. -/
def lambda_source (env : lambda_env_t) (o2_mv : ℕ) : ℚ × Bool :=
  let lambda_measured0 : ℚ := 1
  let lambda_measured1 : ℚ := env.sdio_lambda.getD lambda_measured0
  let sel : ℚ × Bool :=
    if env.sdio_lambda.isSome = true ∧ env.sdio_age_ms < 200 then (lambda_measured1, true)
    else if o2_mv > 0 then (((o2_mv : ℚ) / 1000) / (9 / 20), true)
    else (lambda_measured1, false)
  (clamp_float sel.1 (7 / 10) (13 / 10), sel.2)

/-- Translation of `refresh_closed_loop_from_sdio`: `g_closed_loop_enabled`
afterwards; `sdio_closed_loop` is `some b` when `sdio_get_closed_loop_enabled`
returns true with value `b`. -/
def refresh_closed_loop_from_sdio (g_closed_loop_enabled : Bool)
    (sdio_closed_loop : Option Bool) : Bool :=
  match sdio_closed_loop with
  | some remote_enabled =>
    if remote_enabled ≠ g_closed_loop_enabled then remote_enabled else g_closed_loop_enabled
  | none => g_closed_loop_enabled

/-- What the environment answers during one call of
`engine_control_get_engine_parameters`. -/
structure params_env_t where
  sdio_closed_loop : Option Bool
  sensor_read : Option sensor_data_t
  sync_read : Option sync_data_t
  lam : lambda_env_t

/-- The outcome of `engine_control_get_engine_parameters`: the value returned,
the content of `*params` afterwards (`none` for a `NULL` pointer), the
variables afterwards, and the `lambda_corr` handed to
`fuel_calc_pulsewidth_us` when that call is reached. -/
structure params_result_t where
  err : esp_err_t
  params : Option engine_params_t
  state : engine_state_t
  lambda_corr : Option ℚ

/-- Translation of `engine_control_get_engine_parameters`. -/
def engine_control_get_engine_parameters (table_16x16_interpolate : table_16x16_t → ℕ → ℕ → ℕ)
    (table_16x16_checksum : table_16x16_t → ℕ) (st : engine_state_t) (env : params_env_t)
    (params : Option engine_params_t) : params_result_t :=
  match params with
  | none => params_result_t.mk esp_err_t.ESP_ERR_INVALID_ARG none st none
  | some p =>
    let st1 : engine_state_t :=
      engine_state_t.mk st.trim st.g_engine_math_ready
        (refresh_closed_loop_from_sdio st.g_closed_loop_enabled env.sdio_closed_loop)
        st.g_target_eoi_deg st.g_target_eoi_deg_fallback st.g_fuel_cfg st.g_limp_mode
    match env.sensor_read with
    | none => params_result_t.mk esp_err_t.ESP_FAIL (some p) st1 none
    | some sensor_data =>
      match env.sync_read with
      | none => params_result_t.mk esp_err_t.ESP_FAIL (some p) st1 none
      | some sync_data =>
        let rpm : ℕ := sync_data.rpm % 65536
        let load : ℕ := sensor_data.map_kpa10
        let ve_x10 : ℕ := table_16x16_interpolate st1.trim.g_maps.fuel_table rpm load
        let ign_deg10 : ℕ := table_16x16_interpolate st1.trim.g_maps.ignition_table rpm load
        let lambda_target : ℕ := table_16x16_interpolate st1.trim.g_maps.lambda_table rpm load
        let src : ℚ × Bool := lambda_source env.lam sensor_data.o2_mv
        let lambda_target_f : ℚ := (lambda_target : ℚ) / 1000
        if st1.g_engine_math_ready = true ∧ src.2 = true ∧ st1.g_closed_loop_enabled = false then
          params_result_t.mk esp_err_t.ESP_OK (some p) st1 none
        else
          let cl : ℚ × trim_state_t :=
            if st1.g_engine_math_ready = true ∧ src.2 = true then
              closed_loop_update table_16x16_checksum st1.trim
                (env.lam.lambda_pid_update lambda_target_f src.1) rpm load env.lam.now_ms
                env.lam.save_ok
            else (0, st1.trim)
          let pw_us : ℕ := fuel_calc_pulsewidth_us (some sensor_data) rpm ve_x10 cl.1
          let st2 : engine_state_t :=
            engine_state_t.mk cl.2 st1.g_engine_math_ready st1.g_closed_loop_enabled
              st1.g_target_eoi_deg st1.g_target_eoi_deg_fallback st1.g_fuel_cfg st1.g_limp_mode
          params_result_t.mk esp_err_t.ESP_OK
            (some (engine_params_t.mk rpm load ign_deg10 ((pw_us * 100 / REQ_FUEL_US) % 65536)
              st1.g_limp_mode.active))
            st2 (some cl.1)

/-- A call to an output driver: an arming call, or one of the stop calls
`mcpwm_ignition_stop_cylinder`, `mcpwm_injection_stop`, `mcpwm_injection_stop_all`. -/
inductive out_call where
  | arm (c : hw_call)
  | ignition_stop_cylinder (cylinder_id : ℕ)
  | injection_stop (cylinder_id : ℕ)
  | injection_stop_all
deriving DecidableEq, Repr

/-- What the environment answers during one `engine_control_run_cycle`:
`params_env` inside `engine_control_get_engine_parameters`, then the cycle's own
`sync_get_data` and `sensor_get_data`, the clock at a limp activation, the
lambda source and closed loop, `sync_get_config` while arming, and the
`sync_get_data` inside `ignition_apply_timing`. -/
structure cycle_env_t where
  params_env : params_env_t
  sync_read : Option sync_data_t
  sensor_read : Option sensor_data_t
  safety_now_ms : ℕ
  lam : lambda_env_t
  cfg_read : Option sync_config_t
  ign_sync_read : Option sync_data_t

/-- The outcome of `engine_control_run_cycle`: the value returned, the driver
calls issued, in order, the variables afterwards, and the `lambda_corr` handed
to `fuel_calc_pulsewidth_us` when that call is reached. -/
structure cycle_result_t where
  err : esp_err_t
  calls : List out_call
  state : engine_state_t
  lambda_corr : Option ℚ

/-- The three safety checks of `engine_control_run_cycle`, joined by `||`:
whether one tripped, and `g_limp_mode` afterwards. -/
def run_cycle_safety_checks (g : limp_mode_t) (rpm : ℕ) (clt_c : ℤ) (vbat_dv now_ms : ℕ) :
    Bool × limp_mode_t :=
  let r1 : Bool × limp_mode_t := safety_check_over_rev g rpm now_ms
  if r1.1 = true then (true, r1.2)
  else
    let r2 : Bool × limp_mode_t := safety_check_overheat r1.2 clt_c now_ms
    if r2.1 = true then (true, r2.2)
    else safety_check_battery_voltage r2.2 vbat_dv now_ms

/-- The closed-loop part of `engine_control_run_cycle`, from
`float lambda_corr = 0.0f` to the label `compute_pw`: `lambda_corr` and the
trim variables afterwards. -/
def run_cycle_closed_loop (table_16x16_interpolate : table_16x16_t → ℕ → ℕ → ℕ)
    (table_16x16_checksum : table_16x16_t → ℕ) (st : engine_state_t) (env : lambda_env_t)
    (rpm load o2_mv : ℕ) : ℚ × trim_state_t :=
  if st.g_engine_math_ready = true then
    if st.g_closed_loop_enabled = false then (0, st.trim)
    else
      let lambda_target : ℚ :=
        (table_16x16_interpolate st.trim.g_maps.lambda_table rpm load : ℚ) / 1000
      let src : ℚ × Bool := lambda_source env o2_mv
      if src.2 = true then
        closed_loop_update table_16x16_checksum st.trim
          (env.lambda_pid_update lambda_target src.1) rpm load env.now_ms env.save_ok
      else (0, st.trim)
  else (0, st.trim)

/-- Translation of `engine_control_run_cycle`. -/
def engine_control_run_cycle (table_16x16_interpolate : table_16x16_t → ℕ → ℕ → ℕ)
    (table_16x16_checksum : table_16x16_t → ℕ) (st : engine_state_t) (env : cycle_env_t) :
    cycle_result_t :=
  let pr : params_result_t :=
    engine_control_get_engine_parameters table_16x16_interpolate table_16x16_checksum st
      env.params_env (some engine_params_zero)
  if pr.err ≠ esp_err_t.ESP_OK then cycle_result_t.mk esp_err_t.ESP_FAIL [] pr.state none
  else
    let params : engine_params_t := pr.params.getD engine_params_zero
    let st1 : engine_state_t := pr.state
    match env.sync_read with
    | none => cycle_result_t.mk esp_err_t.ESP_FAIL [] st1 none
    | some sync_data =>
      if sync_data.sync_valid = false then cycle_result_t.mk esp_err_t.ESP_FAIL [] st1 none
      else
        match env.sensor_read with
        | none => cycle_result_t.mk esp_err_t.ESP_FAIL [] st1 none
        | some sensor_data =>
          let rpm : ℕ := params.rpm % 65536
          let load : ℕ := params.load % 65536
          let chk : Bool × limp_mode_t :=
            run_cycle_safety_checks st1.g_limp_mode rpm sensor_data.clt_c sensor_data.vbat_dv
              env.safety_now_ms
          let st2 : engine_state_t :=
            engine_state_t.mk st1.trim st1.g_engine_math_ready st1.g_closed_loop_enabled
              st1.g_target_eoi_deg st1.g_target_eoi_deg_fallback st1.g_fuel_cfg chk.2
          if chk.1 = true then cycle_result_t.mk esp_err_t.ESP_FAIL [] st2 none
          else
            let ve_x10 : ℕ := table_16x16_interpolate st2.trim.g_maps.fuel_table rpm load
            let cl : ℚ × trim_state_t :=
              run_cycle_closed_loop table_16x16_interpolate table_16x16_checksum st2 env.lam
                rpm load sensor_data.o2_mv
            let pw_us : ℕ := fuel_calc_pulsewidth_us (some sensor_data) rpm ve_x10 cl.1
            let st3 : engine_state_t :=
              engine_state_t.mk cl.2 st2.g_engine_math_ready st2.g_closed_loop_enabled
                st2.g_target_eoi_deg st2.g_target_eoi_deg_fallback st2.g_fuel_cfg st2.g_limp_mode
            cycle_result_t.mk esp_err_t.ESP_OK
              ((engine_control_run_cycle_arm st3.g_fuel_cfg st3.g_target_eoi_deg
                  st3.g_target_eoi_deg_fallback rpm load params.advance_deg10 pw_us sync_data
                  env.ign_sync_read env.cfg_read).map out_call.arm)
              st3 (some cl.1)

/-- Every injector and every coil has been sent a stop call: what the
specification asks of a cycle that finds the crank sync lost. -/
def spec_all_channels_stopped (calls : List out_call) : Prop :=
  (out_call.injection_stop_all ∈ calls ∨
    ∀ ch : ℕ, ch < 4 → out_call.injection_stop ch ∈ calls) ∧
  ∀ cyl : ℕ, 1 ≤ cyl → cyl ≤ 4 → out_call.ignition_stop_cylinder cyl ∈ calls

end P4

/-! ## Runs of samples and of cycles (P4) -/

namespace P4

/-- One call `ltft_can_update(rpm, load, now_ms)`. -/
structure ltft_sample_t where
  rpm : ℕ
  load : ℕ
  now_ms : ℕ
deriving DecidableEq, Repr

/-- A run of `ltft_can_update` calls: the three variables at the end. -/
def ltft_run (w : ltft_window_t) : List ltft_sample_t → ltft_window_t
  | [] => w
  | s :: ss => ltft_run (ltft_can_update w s.rpm s.load s.now_ms).2 ss

/-- The operating point `(rpm, load)` moved by at most 50 rpm and 50 load units. -/
def spec_stable_step (prev cur : ℕ × ℕ) : Prop :=
  |(cur.1 : ℤ) - (prev.1 : ℤ)| ≤ 50 ∧ |(cur.2 : ℤ) - (prev.2 : ℤ)| ≤ 50

/-- Every sample of the run is a stable step from the one before it, the
first one from `prev`. -/
def spec_stable_run (prev : ℕ × ℕ) : List ltft_sample_t → Prop
  | [] => True
  | s :: ss => spec_stable_step prev (s.rpm, s.load) ∧ spec_stable_run (s.rpm, s.load) ss

/-- The operating point of the last sample of a run, `prev` for an empty run. -/
def last_point (prev : ℕ × ℕ) : List ltft_sample_t → ℕ × ℕ
  | [] => prev
  | s :: ss => last_point (s.rpm, s.load) ss

/-- A run of control cycles: the variables at the end. -/
def run_cycles (table_16x16_interpolate : table_16x16_t → ℕ → ℕ → ℕ)
    (table_16x16_checksum : table_16x16_t → ℕ) (st : engine_state_t) :
    List cycle_env_t → engine_state_t
  | [] => st
  | env :: envs =>
    run_cycles table_16x16_interpolate table_16x16_checksum
      (engine_control_run_cycle table_16x16_interpolate table_16x16_checksum st env).state envs

end P4

/-- Modelled from the spec: `table_16x16_checksum` (not among the sources), the
sum of the 256 values modulo `2^16`. -/
def spec_table_16x16_checksum (t : table_16x16_t) : ℕ :=
  ((List.range 16).map fun y => ((List.range 16).map fun x => t.values y x).sum).sum % 65536

/-- The three maps of the examples. -/
def example_maps : P4.fuel_calc_maps_t :=
  P4.fuel_calc_maps_t.mk example_table example_table example_table

/-- The variables right after boot, with the example maps, closed loop enabled
and both EOI targets at 360 degrees. -/
def example_engine_state : P4.engine_state_t :=
  P4.engine_state_t.mk (P4.trim_state_init example_maps) true true 360 360 g_fuel_cfg_default
    P4.g_limp_mode_init

/-! ## Example cycles (P4) -/

/-- No driver is armed by the calls: injectors cut and coils suppressed. -/
def P4.spec_outputs_cut (calls : List P4.out_call) : Prop :=
  ∀ c : hw_call, P4.out_call.arm c ∉ calls

/-- Healthy sensor readings: MAP 100.0 kPa, coolant 80 C, battery 13.5 V, no
narrow-band reading. -/
def example_sensors : sensor_data_t := sensor_data_t.mk 1000 80 135 0

/-- A lambda environment without SDIO lambda, at clock `now_ms`. -/
def example_lambda_env (now_ms : ℕ) : P4.lambda_env_t :=
  P4.lambda_env_t.mk none 0 (fun _ _ => 0) now_ms true

/-- A crank snapshot at 7600 rpm, full sync. -/
def example_sync_7600 : sync_data_t := sync_data_t.mk 0 0 131 (1250 / 57) 7600 true true

/-- A crank snapshot at 7000 rpm, full sync. -/
def example_sync_7000 : sync_data_t := sync_data_t.mk 0 0 142 (500 / 21) 7000 true true

/-- A crank snapshot with `sync_valid` false. -/
def example_sync_invalid : sync_data_t := sync_data_t.mk 0 0 0 0 0 false false

/-- A cycle in which every `sync_get_data` delivers `sync_read`, the sensors are
healthy, and the 60-2 wheel is configured. -/
def example_cycle_env (sync_read : Option sync_data_t) (now_ms : ℕ) : P4.cycle_env_t :=
  P4.cycle_env_t.mk
    (P4.params_env_t.mk none (some example_sensors) sync_read (example_lambda_env now_ms))
    sync_read (some example_sensors) now_ms (example_lambda_env now_ms) (some scenario_a_cfg)
    sync_read

/-! ## Write-back of the long-term trim (P4) -/

/-- The cell value the specification gives for a write-back:
`round(old * (1 + ltft))` clamped to `[0, 65535]`. -/
def P4.spec_writeback_cell (old : ℕ) (ltft : ℚ) : ℤ :=
  max 0 (min (round ((old : ℚ) * (1 + ltft))) 65535)

/-- The long-term trim after the integration step of a stable update:
`g_ltft += LTFT_ALPHA * (g_stft - g_ltft)` followed by the clamp to
`[-LTFT_LIMIT, LTFT_LIMIT]`, with `g_stft` the clamped PID output. -/
def P4.ltft_integrate (g_ltft stft : ℚ) : ℚ :=
  P4.clamp_float
    (g_ltft + P4.LTFT_ALPHA * (P4.clamp_float stft (-P4.STFT_LIMIT) P4.STFT_LIMIT - g_ltft))
    (-P4.LTFT_LIMIT) P4.LTFT_LIMIT

/-- Trim variables with the operating point 3000 rpm / 50.0 kPa stable since
1000 ms and a long-term trim of 0.029. -/
def example_trim_near_threshold : P4.trim_state_t :=
  P4.trim_state_t.mk example_maps 0 (29 / 1000) (P4.ltft_window_t.mk 3000 500 1000) 0 false

/-- The two conditions under which a closed-loop update writes the long-term
trim back to the fuel table: `ltft_can_update` returns true and the integrated
`g_ltft` reaches `LTFT_APPLY_THRESHOLD` in magnitude. -/
def P4.writeback_triggered (st : P4.trim_state_t) (stft : ℚ) (rpm load now_ms : ℕ) : Bool :=
  (P4.ltft_can_update st.window rpm load now_ms).1 &&
    decide (|P4.ltft_integrate st.g_ltft stft| ≥ P4.LTFT_APPLY_THRESHOLD)

/-- A run of closed-loop updates at one operating point with a constant PID
output `stft`; each entry is the clock of the update and whether a save would
succeed. The result is the variables at the end. -/
def P4.closed_loop_run (table_16x16_checksum : table_16x16_t → ℕ) (st : P4.trim_state_t)
    (stft : ℚ) (rpm load : ℕ) : List (ℕ × Bool) → P4.trim_state_t
  | [] => st
  | e :: es =>
    P4.closed_loop_run table_16x16_checksum
      (P4.closed_loop_update table_16x16_checksum st stft rpm load e.1 e.2).2 stft rpm load es

/-- The number (from 1) of the first update of such a run that triggers the
write-back, `none` when no update of the run does. -/
def P4.first_writeback (table_16x16_checksum : table_16x16_t → ℕ) (st : P4.trim_state_t)
    (stft : ℚ) (rpm load : ℕ) : List (ℕ × Bool) → Option ℕ
  | [] => none
  | e :: es =>
    if P4.writeback_triggered st stft rpm load e.1 = true then some 1
    else
      (P4.first_writeback table_16x16_checksum
        (P4.closed_loop_update table_16x16_checksum st stft rpm load e.1 e.2).2 stft rpm load
        es).map fun j => j + 1

/-- The step bound of the specification, `ceil(0.03 / (0.01 * |s|))`. -/
def P4.spec_writeback_bound (s : ℚ) : ℕ := Nat.ceil ((3 / 100 : ℚ) / ((1 / 100) * |s|))

/-- The long-term trim after `n` integration steps `ltft <- ltft + 0.01 * (s - ltft)`
from 0, in closed form. -/
def P4.spec_ltft_after (s : ℚ) (n : ℕ) : ℚ := s * (1 - (99 / 100) ^ n)

/-- Trim variables right after boot but with the operating point 3000 rpm /
50.0 kPa stable since 1000 ms. -/
def example_trim_stable : P4.trim_state_t :=
  P4.trim_state_t.mk example_maps 0 0 (P4.ltft_window_t.mk 3000 500 1000) 0 false

/-- The clocks of `n` updates 500 ms apart, from 1500 ms on, none with a
successful save. -/
def example_stable_times (n : ℕ) : List (ℕ × Bool) :=
  (List.range n).map fun i => (1500 + 500 * i, false)

/-- What `k` stable updates without write-back leave behind when the PID output
is the constant `s` and the operating point `(rpm, load)` has been stable since
`t0`: the closed-form trim, still below the threshold, and the open window. -/
def P4.stable_trim_inv (st : P4.trim_state_t) (s : ℚ) (rpm load t0 k : ℕ) : Prop :=
  st.g_ltft = P4.spec_ltft_after s k ∧ |P4.spec_ltft_after s k| < 3 / 100 ∧
    st.window = P4.ltft_window_t.mk rpm load t0

/-! ## Persistence of the maps (P4) -/

/-- Whether `maybe_persist_maps` reaches its call of `map_storage_save`: the
two early returns are passed. -/
def P4.maybe_persist_calls_save (st : P4.trim_state_t) (now_ms : ℕ) : Bool :=
  if st.g_map_dirty = false then false
  else if (now_ms + 4294967296 - st.g_last_map_save_ms) % 4294967296
      < P4.MAP_SAVE_INTERVAL_MS then false
  else true

/-- One step of a persistence history: `dirty_set` tells whether
`apply_ltft_to_fuel_table` ran (and set `g_map_dirty`) since the step before,
then `maybe_persist_maps(now_ms)` runs and `map_storage_save`, if called,
succeeds when `save_ok`. -/
structure P4.persist_event_t where
  dirty_set : Bool
  now_ms : ℕ
  save_ok : Bool
deriving DecidableEq, Repr

/-- A persistence history: the variables at the end and the clock values of the
successful saves, in order. -/
def P4.persist_run (st : P4.trim_state_t) : List P4.persist_event_t → P4.trim_state_t × List ℕ
  | [] => (st, [])
  | e :: es =>
    let st1 : P4.trim_state_t :=
      if e.dirty_set = true then
        P4.trim_state_t.mk st.g_maps st.g_stft st.g_ltft st.window st.g_last_map_save_ms true
      else st
    let saved : Bool := P4.maybe_persist_calls_save st1 e.now_ms && e.save_ok
    let r : P4.trim_state_t × List ℕ :=
      P4.persist_run (P4.maybe_persist_maps st1 e.now_ms e.save_ok) es
    (r.1, if saved = true then e.now_ms :: r.2 else r.2)

/-- A history with saves attempted at 6000, 8000 and 12000 ms. -/
def example_persist_events : List P4.persist_event_t :=
  [P4.persist_event_t.mk true 6000 true, P4.persist_event_t.mk true 8000 true,
    P4.persist_event_t.mk false 12000 true]

/-! ## `lp_core.c`: cranking rpm -/

/-- Translation of `calculate_rpm` (`lp_core.c`): the argument is a `uint64_t`
and the product `tooth_period_us * 60` is 64-bit, `rpm` is a `uint32_t` and the
result a `uint16_t`. -/
def P4.calculate_rpm (tooth_period_us : ℕ) : ℕ :=
  if tooth_period_us = 0 then 0
  else
    let rpm0 : ℕ :=
      (60000000 / ((tooth_period_us * 60) % 18446744073709551616)) % 4294967296
    let rpm1 : ℕ := if rpm0 > 15000 then 0 else rpm0
    rpm1 % 65536

/-- The rpm of the specification for a tooth period on a 60-2 wheel:
`60 * 10^6 / (T * 60)` clamped to `[0, RPM_MAX_SAFE = 12000]`. -/
def P4.spec_rpm (tooth_period_us : ℕ) : ℚ :=
  spec_clamp ((60000000 : ℚ) / ((tooth_period_us : ℚ) * 60)) 0 12000

/-! ## Example inputs: open loop with a valid lambda reading (P4) -/

/-- Healthy sensor readings with a narrow-band reading of 450 mV. -/
def example_sensors_o2 : sensor_data_t := sensor_data_t.mk 1000 80 135 450

/-- The variables right after boot with the example maps, the engine math
ready and the closed loop disabled. -/
def example_state_open_loop : P4.engine_state_t :=
  P4.engine_state_t.mk (P4.trim_state_init example_maps) true false 360 360 g_fuel_cfg_default
    P4.g_limp_mode_init

/-- What the environment answers during `engine_control_get_engine_parameters`:
no SDIO setting, the sensors with the 450 mV reading, the given crank snapshot. -/
def example_params_env_o2 (sync : sync_data_t) : P4.params_env_t :=
  P4.params_env_t.mk none (some example_sensors_o2) (some sync) (example_lambda_env 1000)

/-- A cycle with the 450 mV reading in which every `sync_get_data` delivers
`sync`. -/
def example_cycle_env_o2 (sync : sync_data_t) : P4.cycle_env_t :=
  P4.cycle_env_t.mk (example_params_env_o2 sync) (some sync) (some example_sensors_o2) 1000
    (example_lambda_env 1000) (some scenario_a_cfg) (some sync)

/-! ## `mcpwm_injection.c` (S3): one-shot injector arming -/

/-- Translation of `clamp_u32` (`mcpwm_injection.c`). -/
def clamp_u32 (v min_v max_v : ℕ) : ℕ :=
  if v < min_v then min_v else if v > max_v then max_v else v

/-- A driver call of `mcpwm_injection_schedule_one_shot`, with the value it
programs. -/
inductive inj_drv_call where
  | timer_set_period (period : ℕ)
  | set_compare_start (ticks : ℕ)
  | set_compare_end (ticks : ℕ)
  | generator_set_force_level
  | timer_start_stop
deriving DecidableEq, Repr

/-- What the five driver calls of `mcpwm_injection_schedule_one_shot` answer, in
the order of the calls (`true` for `ESP_OK`). -/
structure inj_drv_env_t where
  timer_set_period : Bool
  set_compare_start : Bool
  set_compare_end : Bool
  generator_set_force_level : Bool
  timer_start_stop : Bool
deriving DecidableEq, Repr

/-- The outcome of `mcpwm_injection_schedule_one_shot`: the value returned, the
driver calls made, in order, and the pulse width stored in the channel together
with `is_active = true` (`none` when the channel record is not written). -/
structure inj_one_shot_t where
  ret : Bool
  calls : List inj_drv_call
  pulsewidth_us : Option ℕ
deriving DecidableEq, Repr

/-- Translation of the S3 `mcpwm_injection_schedule_one_shot`.
`UINT32_MAX - pw - 2U`, `delay_us + pw` and `end_ticks + 1U` are 32-bit unsigned
arithmetic. -/
def mcpwm_injection_schedule_one_shot (g_initialized : Bool) (g_cfg : mcpwm_injection_config_t)
    (drv : inj_drv_env_t) (cylinder_id delay_us pulsewidth_us : ℕ) : inj_one_shot_t :=
  if g_initialized = false ∨ cylinder_id ≥ 4 then inj_one_shot_t.mk false [] none
  else
    let pw : ℕ := clamp_u32 pulsewidth_us g_cfg.min_pulsewidth_us g_cfg.max_pulsewidth_us
    let start_ticks : ℕ := delay_us
    if delay_us > (4294967295 + 4294967296 - pw - 2) % 4294967296 then
      inj_one_shot_t.mk false [] none
    else
      let end_ticks : ℕ := (delay_us + pw) % 4294967296
      let period : ℕ := (end_ticks + 1) % 4294967296
      if drv.timer_set_period = false then
        inj_one_shot_t.mk false [inj_drv_call.timer_set_period period] none
      else if drv.set_compare_start = false then
        inj_one_shot_t.mk false
          [inj_drv_call.timer_set_period period, inj_drv_call.set_compare_start start_ticks] none
      else if drv.set_compare_end = false then
        inj_one_shot_t.mk false
          [inj_drv_call.timer_set_period period, inj_drv_call.set_compare_start start_ticks,
            inj_drv_call.set_compare_end end_ticks] none
      else if drv.generator_set_force_level = false then
        inj_one_shot_t.mk false
          [inj_drv_call.timer_set_period period, inj_drv_call.set_compare_start start_ticks,
            inj_drv_call.set_compare_end end_ticks, inj_drv_call.generator_set_force_level] none
      else if drv.timer_start_stop = false then
        inj_one_shot_t.mk false
          [inj_drv_call.timer_set_period period, inj_drv_call.set_compare_start start_ticks,
            inj_drv_call.set_compare_end end_ticks, inj_drv_call.generator_set_force_level,
            inj_drv_call.timer_start_stop] none
      else
        inj_one_shot_t.mk true
          [inj_drv_call.timer_set_period period, inj_drv_call.set_compare_start start_ticks,
            inj_drv_call.set_compare_end end_ticks, inj_drv_call.generator_set_force_level,
            inj_drv_call.timer_start_stop] (some pw)

/-- The initial value of `g_cfg` in `mcpwm_injection.c`. -/
def g_cfg_default : mcpwm_injection_config_t :=
  mcpwm_injection_config_t.mk 1000000 20 500 18000 200

/-- A configuration, as `mcpwm_injection_configure` accepts it, whose maximum
pulse width is `UINT32_MAX`. -/
def example_cfg_wide : mcpwm_injection_config_t :=
  mcpwm_injection_config_t.mk 1000000 20 500 4294967295 200

/-- Every driver call answers `ESP_OK`. -/
def inj_drv_ok : inj_drv_env_t := inj_drv_env_t.mk true true true true true

/-! ## `safety_monitor.c`: knock retard (P4) -/

/-- The record `knock_protection_t` (declared in `safety_monitor.h`, which is
not among the sources): the three fields `safety_handle_knock` uses, the two
counters taken as 16-bit unsigned like `knock_retard_deg10`, which
`timing_retard` is copied to. -/
structure P4.knock_protection_t where
  knock_detected : Bool
  knock_count : ℕ
  timing_retard : ℕ
deriving DecidableEq, Repr

/-- Translation of `safety_handle_knock`; `none` is the `NULL` pointer. -/
def P4.safety_handle_knock (knock_prot : Option P4.knock_protection_t) :
    Option P4.knock_protection_t :=
  match knock_prot with
  | none => none
  | some k =>
    if k.knock_detected = true then
      some (P4.knock_protection_t.mk k.knock_detected ((k.knock_count + 1) % 65536)
        (if k.timing_retard < 100 then (k.timing_retard + 10) % 65536 else k.timing_retard))
    else
      some (P4.knock_protection_t.mk k.knock_detected
        (if k.knock_count > 0 then (k.knock_count + 65536 - 1) % 65536 else k.knock_count)
        (if k.timing_retard > 0 then (k.timing_retard + 65536 - 5) % 65536
          else k.timing_retard))

/-- A sequence of `safety_handle_knock` calls on one record, the caller setting
`knock_detected` before each call: the record at the end. -/
def P4.knock_run (k : P4.knock_protection_t) : List Bool → P4.knock_protection_t
  | [] => k
  | b :: bs =>
    P4.knock_run
      ((P4.safety_handle_knock
        (some (P4.knock_protection_t.mk b k.knock_count k.timing_retard))).getD k) bs

/-- The record with `timing_retard = 0` and `knock_count = 0`. -/
def P4.knock_protection_zero : P4.knock_protection_t := P4.knock_protection_t.mk false 0 0

/-- One knock, one quiet call, then ten knocks. -/
def example_knock_calls : List Bool :=
  [true, false, true, true, true, true, true, true, true, true, true, true]

/-! ## `lp_core.c`: the cranking state machine (P4) -/

namespace P4

/-- The record `lp_core_state_t` without the mutex handle. -/
structure lp_core_state_t where
  is_cranking : Bool
  is_prime_pulse_active : Bool
  is_sync_acquired : Bool
  is_handover_complete : Bool
  current_rpm : ℕ
  prime_pulse_counter : ℕ
  cranking_start_time : ℕ
  last_sync_time : ℕ
  tooth_counter : ℕ
  gap_detected : ℕ
  phase_detected : ℕ
deriving DecidableEq, Repr

/-- The record `lp_core_handover_data_t`. -/
structure lp_core_handover_data_t where
  handover_rpm : ℕ
  handover_timing_advance : ℕ
  handover_fuel_enrichment : ℕ
  handover_sync_status : ℕ
  handover_tooth_counter : ℕ
  handover_gap_detected : ℕ
  handover_phase_detected : ℕ
deriving DecidableEq, Repr

/-- The record `lp_core_config_t`. -/
structure lp_core_config_t where
  cranking_rpm_threshold : ℕ
  prime_pulse_duration_us : ℕ
  prime_pulse_voltage : ℕ
  cranking_fuel_enrichment : ℕ
  cranking_timing_advance : ℕ
  cranking_rpm_limit : ℕ
  cranking_timeout_ms : ℕ
  sync_timeout_ms : ℕ
  prime_pulse_count : ℕ
deriving DecidableEq, Repr

/-- The record `lp_core_rtc_data_t`. -/
structure lp_core_rtc_data_t where
  magic : ℕ
  version : ℕ
  data : lp_core_handover_data_t
  crc32 : ℕ
deriving DecidableEq, Repr

def LP_CORE_RTC_MAGIC : ℕ := 1280328527
def LP_CORE_RTC_VERSION : ℕ := 1

/-- The static variables of `lp_core.c`. -/
structure lp_core_vars_t where
  g_lp_config : lp_core_config_t
  g_lp_state : lp_core_state_t
  g_handover_data : lp_core_handover_data_t
  g_lp_rtc_data : lp_core_rtc_data_t
deriving DecidableEq, Repr

/-- The state every reset writes: all flags false, all counters 0. -/
def lp_core_state_reset : lp_core_state_t :=
  lp_core_state_t.mk false false false false 0 0 0 0 0 0 0

/-- Translation of `lp_core_rtc_invalidate`. -/
def lp_core_rtc_invalidate (r : lp_core_rtc_data_t) : lp_core_rtc_data_t :=
  lp_core_rtc_data_t.mk 0 0 r.data 0

/-- Translation of `lp_core_rtc_write` for a non-null argument; `lp_core_crc32`
is the CRC of the ROM, a parameter. -/
def lp_core_rtc_write (lp_core_crc32 : lp_core_handover_data_t → ℕ)
    (data : lp_core_handover_data_t) : lp_core_rtc_data_t :=
  lp_core_rtc_data_t.mk LP_CORE_RTC_MAGIC LP_CORE_RTC_VERSION data (lp_core_crc32 data)

/-- Translation of `lp_core_init`: the value returned and the variables
afterwards. `mutex_created` tells whether `xSemaphoreCreateMutex` delivers a
handle, `wakeup_err` is what `esp_sleep_enable_timer_wakeup` returns. -/
def lp_core_init (v : lp_core_vars_t) (config : Option lp_core_config_t) (mutex_created : Bool)
    (wakeup_err : esp_err_t) : esp_err_t × lp_core_vars_t :=
  match config with
  | none => (esp_err_t.ESP_ERR_INVALID_ARG, v)
  | some c =>
    let v1 : lp_core_vars_t :=
      lp_core_vars_t.mk v.g_lp_config lp_core_state_reset v.g_handover_data v.g_lp_rtc_data
    if mutex_created = false then (esp_err_t.ESP_FAIL, v1)
    else
      let v2 : lp_core_vars_t :=
        lp_core_vars_t.mk c v1.g_lp_state v1.g_handover_data v1.g_lp_rtc_data
      if wakeup_err ≠ esp_err_t.ESP_OK then (wakeup_err, v2) else (esp_err_t.ESP_OK, v2)

/-- Translation of `lp_core_start_cranking`; `take_ok` tells whether
`xSemaphoreTake` returns `pdTRUE`, `now_ms` is `esp_timer_get_time() / 1000`. -/
def lp_core_start_cranking (v : lp_core_vars_t) (take_ok : Bool) (now_ms : ℕ) :
    esp_err_t × lp_core_vars_t :=
  if take_ok = true then
    if v.g_lp_state.is_cranking = true then (esp_err_t.ESP_ERR_INVALID_STATE, v)
    else
      (esp_err_t.ESP_OK,
        lp_core_vars_t.mk v.g_lp_config
          (lp_core_state_t.mk true true false false 0 0 (now_ms % 4294967296) 0 0 0 0)
          v.g_handover_data v.g_lp_rtc_data)
  else (esp_err_t.ESP_FAIL, v)

/-- Translation of `lp_core_stop_cranking`. -/
def lp_core_stop_cranking (v : lp_core_vars_t) (take_ok : Bool) : esp_err_t × lp_core_vars_t :=
  if take_ok = true then
    if v.g_lp_state.is_cranking = false then (esp_err_t.ESP_ERR_INVALID_STATE, v)
    else
      (esp_err_t.ESP_OK,
        lp_core_vars_t.mk v.g_lp_config lp_core_state_reset v.g_handover_data
          (lp_core_rtc_invalidate v.g_lp_rtc_data))
  else (esp_err_t.ESP_FAIL, v)

/-- Translation of `lp_core_handle_sync_event`; `tooth_counter++` is 32-bit. -/
def lp_core_handle_sync_event (v : lp_core_vars_t) (take_ok : Bool) (tooth_period_us : ℕ)
    (is_gap is_phase : Bool) (now_ms : ℕ) : esp_err_t × lp_core_vars_t :=
  if take_ok = true then
    if v.g_lp_state.is_cranking = false then (esp_err_t.ESP_ERR_INVALID_STATE, v)
    else
      let s : lp_core_state_t := v.g_lp_state
      let current_rpm : ℕ := calculate_rpm tooth_period_us
      let last_sync_time : ℕ := now_ms % 4294967296
      let tooth_counter0 : ℕ := (s.tooth_counter + 1) % 4294967296
      let gap_detected : ℕ := if is_gap = true then 1 else s.gap_detected
      let tooth_counter : ℕ := if is_gap = true then 0 else tooth_counter0
      let phase_detected : ℕ := if is_phase = true then 1 else s.phase_detected
      let is_sync_acquired : Bool :=
        if tooth_counter ≥ 10 ∧ gap_detected ≠ 0 ∧ phase_detected ≠ 0 then true
        else s.is_sync_acquired
      (esp_err_t.ESP_OK,
        lp_core_vars_t.mk v.g_lp_config
          (lp_core_state_t.mk s.is_cranking s.is_prime_pulse_active is_sync_acquired
            s.is_handover_complete current_rpm s.prime_pulse_counter s.cranking_start_time
            last_sync_time tooth_counter gap_detected phase_detected)
          v.g_handover_data v.g_lp_rtc_data)
  else (esp_err_t.ESP_FAIL, v)

/-- Translation of `lp_core_perform_handover`. -/
def lp_core_perform_handover (lp_core_crc32 : lp_core_handover_data_t → ℕ) (v : lp_core_vars_t)
    (take_ok : Bool) : esp_err_t × lp_core_vars_t :=
  if take_ok = true then
    if v.g_lp_state.is_cranking = false ∨ v.g_lp_state.is_sync_acquired = false then
      (esp_err_t.ESP_ERR_INVALID_STATE, v)
    else
      let s : lp_core_state_t := v.g_lp_state
      let data : lp_core_handover_data_t :=
        lp_core_handover_data_t.mk s.current_rpm v.g_lp_config.cranking_timing_advance
          v.g_lp_config.cranking_fuel_enrichment (if s.is_sync_acquired = true then 1 else 0)
          s.tooth_counter s.gap_detected s.phase_detected
      (esp_err_t.ESP_OK,
        lp_core_vars_t.mk v.g_lp_config
          (lp_core_state_t.mk false s.is_prime_pulse_active s.is_sync_acquired true
            s.current_rpm s.prime_pulse_counter s.cranking_start_time s.last_sync_time
            s.tooth_counter s.gap_detected s.phase_detected)
          data (lp_core_rtc_write lp_core_crc32 data))
  else (esp_err_t.ESP_FAIL, v)

/-- Translation of `lp_core_reset_state`. -/
def lp_core_reset_state (v : lp_core_vars_t) (take_ok : Bool) : esp_err_t × lp_core_vars_t :=
  if take_ok = true then
    (esp_err_t.ESP_OK,
      lp_core_vars_t.mk v.g_lp_config lp_core_state_reset v.g_handover_data
        (lp_core_rtc_invalidate v.g_lp_rtc_data))
  else (esp_err_t.ESP_FAIL, v)

/-- A call of one of the five operations, with what the environment answers
during it. -/
inductive lp_core_op where
  | start_cranking (take_ok : Bool) (now_ms : ℕ)
  | stop_cranking (take_ok : Bool)
  | handle_sync_event (take_ok : Bool) (tooth_period_us : ℕ) (is_gap is_phase : Bool)
      (now_ms : ℕ)
  | perform_handover (take_ok : Bool)
  | reset_state (take_ok : Bool)
deriving DecidableEq, Repr

/-- The value returned by a call and the variables afterwards. -/
def lp_core_step (lp_core_crc32 : lp_core_handover_data_t → ℕ) (v : lp_core_vars_t) :
    lp_core_op → esp_err_t × lp_core_vars_t
  | lp_core_op.start_cranking take_ok now_ms => lp_core_start_cranking v take_ok now_ms
  | lp_core_op.stop_cranking take_ok => lp_core_stop_cranking v take_ok
  | lp_core_op.handle_sync_event take_ok tooth_period_us is_gap is_phase now_ms =>
    lp_core_handle_sync_event v take_ok tooth_period_us is_gap is_phase now_ms
  | lp_core_op.perform_handover take_ok => lp_core_perform_handover lp_core_crc32 v take_ok
  | lp_core_op.reset_state take_ok => lp_core_reset_state v take_ok

/-- The variables after a sequence of calls. -/
def lp_core_run (lp_core_crc32 : lp_core_handover_data_t → ℕ) (v : lp_core_vars_t) :
    List lp_core_op → lp_core_vars_t
  | [] => v
  | op :: ops => lp_core_run lp_core_crc32 (lp_core_step lp_core_crc32 v op).2 ops

/-- The two state properties: sync acquired only with gap and phase seen, and
cranking and handover-complete never both set. -/
def spec_lp_core_inv (s : lp_core_state_t) : Prop :=
  (s.is_sync_acquired = true → s.gap_detected ≠ 0 ∧ s.phase_detected ≠ 0) ∧
    ¬ (s.is_cranking = true ∧ s.is_handover_complete = true)

end P4

/-- The default configuration of `lp_core_config.h`. -/
def example_lp_config : P4.lp_core_config_t :=
  P4.lp_core_config_t.mk 500 2000 135 140 100 3000 5000 2000 3

/-- Variables with every field zero, as the statics are before `lp_core_init`. -/
def example_lp_vars_zero : P4.lp_core_vars_t :=
  P4.lp_core_vars_t.mk (P4.lp_core_config_t.mk 0 0 0 0 0 0 0 0 0) P4.lp_core_state_reset
    (P4.lp_core_handover_data_t.mk 0 0 0 0 0 0 0)
    (P4.lp_core_rtc_data_t.mk 0 0 (P4.lp_core_handover_data_t.mk 0 0 0 0 0 0 0) 0)

/-- A stand-in for the ROM CRC in the examples. -/
def example_crc32 (d : P4.lp_core_handover_data_t) : ℕ :=
  (d.handover_rpm + d.handover_tooth_counter) % 4294967296

/-! ## `s3_jitter_sim/main.c`: latency bookkeeping of the simulator -/

def PERF_WINDOW : ℕ := 512
def DEADLINE_US : ℕ := 700
def HARD_TARGET_US : ℕ := 600

/-- The record `sim_perf_t`; the sample arrays by index. -/
structure sim_perf_t where
  planner_samples : ℕ → ℕ
  executor_samples : ℕ → ℕ
  idx : ℕ
  count : ℕ
  planner_max : ℕ
  executor_max : ℕ
  planner_miss_700 : ℕ
  planner_miss_600 : ℕ
  executor_miss_700 : ℕ
  executor_miss_600 : ℕ
  queue_age_max : ℕ
  queue_age_miss_700 : ℕ
  queue_age_miss_600 : ℕ

/-- The zero-initialised `g_perf`. -/
def g_perf_init : sim_perf_t :=
  sim_perf_t.mk (fun _ => 0) (fun _ => 0) 0 0 0 0 0 0 0 0 0 0 0

/-- Translation of `perf_record_planner`; the miss counters are 32-bit. -/
def perf_record_planner (g : sim_perf_t) (us : ℕ) : sim_perf_t :=
  let idx : ℕ := g.idx % PERF_WINDOW
  sim_perf_t.mk (fun i => if i = idx then us else g.planner_samples i) g.executor_samples g.idx
    g.count (if us > g.planner_max then us else g.planner_max) g.executor_max
    (if us > DEADLINE_US then (g.planner_miss_700 + 1) % 4294967296 else g.planner_miss_700)
    (if us > HARD_TARGET_US then (g.planner_miss_600 + 1) % 4294967296 else g.planner_miss_600)
    g.executor_miss_700 g.executor_miss_600 g.queue_age_max g.queue_age_miss_700
    g.queue_age_miss_600

/-- Translation of `perf_record_executor`. -/
def perf_record_executor (g : sim_perf_t) (exec_us queue_age_us : ℕ) : sim_perf_t :=
  let idx : ℕ := g.idx % PERF_WINDOW
  sim_perf_t.mk g.planner_samples (fun i => if i = idx then exec_us else g.executor_samples i)
    (((g.idx + 1) % PERF_WINDOW) % 65536) (if g.count < PERF_WINDOW then g.count + 1 else g.count)
    g.planner_max (if exec_us > g.executor_max then exec_us else g.executor_max)
    g.planner_miss_700 g.planner_miss_600
    (if exec_us > DEADLINE_US then (g.executor_miss_700 + 1) % 4294967296
      else g.executor_miss_700)
    (if exec_us > HARD_TARGET_US then (g.executor_miss_600 + 1) % 4294967296
      else g.executor_miss_600)
    (if queue_age_us > g.queue_age_max then queue_age_us else g.queue_age_max)
    (if queue_age_us > DEADLINE_US then (g.queue_age_miss_700 + 1) % 4294967296
      else g.queue_age_miss_700)
    (if queue_age_us > HARD_TARGET_US then (g.queue_age_miss_600 + 1) % 4294967296
      else g.queue_age_miss_600)

/-- The verdict `pass_700` of `report_task`. -/
def pass_700 (g : sim_perf_t) : Bool :=
  decide (g.planner_miss_700 = 0) && decide (g.executor_miss_700 = 0)
    && decide (g.queue_age_miss_700 = 0)

/-- A recorded measurement: one call of `perf_record_planner` or of
`perf_record_executor`, with the microseconds measured. -/
inductive perf_sample where
  | planner (us : ℕ)
  | executor (exec_us queue_age_us : ℕ)
deriving DecidableEq, Repr

/-- The bookkeeping after a sequence of recorded measurements. -/
def perf_run (g : sim_perf_t) : List perf_sample → sim_perf_t
  | [] => g
  | perf_sample.planner us :: ss => perf_run (perf_record_planner g us) ss
  | perf_sample.executor exec_us queue_age_us :: ss =>
    perf_run (perf_record_executor g exec_us queue_age_us) ss

/-- No measurement of the sample exceeds the 700 us deadline. -/
def perf_sample.within_700 : perf_sample → Prop
  | perf_sample.planner us => us ≤ 700
  | perf_sample.executor exec_us queue_age_us => exec_us ≤ 700 ∧ queue_age_us ≤ 700

/-! ## Helper lemmas on conversions -/

theorem f32_to_u32_eq_floor (x : ℚ) (h0 : 0 ≤ x) (h1 : x < 4294967296) :
    ((f32_to_u32 x : ℕ) : ℤ) = ⌊x⌋ := by
  unfold f32_to_u32
  have hf0 : 0 ≤ ⌊x⌋ := Int.floor_nonneg.mpr h0
  have hf1 : ⌊x⌋ < 4294967296 := by
    apply Int.floor_lt.mpr
    exact_mod_cast h1
  have h2 : Int.toNat ⌊x⌋ < 4294967296 := by omega
  rw [Nat.mod_eq_of_lt h2]
  exact Int.toNat_of_nonneg hf0

theorem f32_to_u16_eq_floor (x : ℚ) (h0 : 0 ≤ x) (h1 : x < 65536) :
    ((f32_to_u16 x : ℕ) : ℤ) = ⌊x⌋ := by
  unfold f32_to_u16
  have hf0 : 0 ≤ ⌊x⌋ := Int.floor_nonneg.mpr h0
  have hf1 : ⌊x⌋ < 65536 := by
    apply Int.floor_lt.mpr
    exact_mod_cast h1
  have h2 : Int.toNat ⌊x⌋ < 65536 := by omega
  rw [Nat.mod_eq_of_lt h2]
  exact Int.toNat_of_nonneg hf0

theorem round_eq_floor_add_half (x : ℚ) : round x = ⌊x + 1 / 2⌋ := round_eq x

/-! ## Fuel math: warm-up enrichment and pulse width -/

theorem warmup_mid_floor (s : sensor_data_t) (h0 : 0 < s.clt_c) (h1 : s.clt_c < 70) :
    ((fuel_calc_warmup_enrichment (some s) : ℕ) : ℤ)
      = ⌊(140 : ℚ) - 40 * (s.clt_c : ℚ) / 70 + 1 / 2⌋ := by
  have hq0 : (0 : ℚ) < (s.clt_c : ℚ) := by exact_mod_cast h0
  have hq1 : (s.clt_c : ℚ) < 70 := by exact_mod_cast h1
  have e : fuel_calc_warmup_enrichment (some s)
      = f32_to_u16 ((140 : ℚ) - 40 * (s.clt_c : ℚ) / 70 + 1 / 2) := by
    simp only [fuel_calc_warmup_enrichment, WARMUP_TEMP_MIN, WARMUP_TEMP_MAX, WARMUP_ENRICH_MAX]
    rw [if_neg (by omega), if_neg (by omega)]
    congr 1
    push_cast
    ring
  rw [e]
  apply f32_to_u16_eq_floor
  · linarith
  · linarith

theorem warmup_mid_bounds (s : sensor_data_t) (h0 : 0 < s.clt_c) (h1 : s.clt_c < 70) :
    100 ≤ fuel_calc_warmup_enrichment (some s) ∧ fuel_calc_warmup_enrichment (some s) ≤ 140 := by
  have hq0 : (0 : ℚ) < (s.clt_c : ℚ) := by exact_mod_cast h0
  have hq1 : (s.clt_c : ℚ) < 70 := by exact_mod_cast h1
  have e := warmup_mid_floor s h0 h1
  have lo : (100 : ℤ) ≤ ⌊(140 : ℚ) - 40 * (s.clt_c : ℚ) / 70 + 1 / 2⌋ := by
    apply Int.le_floor.mpr
    push_cast
    linarith
  have hi : ⌊(140 : ℚ) - 40 * (s.clt_c : ℚ) / 70 + 1 / 2⌋ < 141 := by
    apply Int.floor_lt.mpr
    push_cast
    linarith
  omega

theorem warmup_low (s : sensor_data_t) (h : s.clt_c ≤ 0) :
    fuel_calc_warmup_enrichment (some s) = 140 := by
  simp only [fuel_calc_warmup_enrichment, WARMUP_TEMP_MIN, WARMUP_ENRICH_MAX]
  rw [if_pos h]

theorem warmup_high (s : sensor_data_t) (h : 70 ≤ s.clt_c) :
    fuel_calc_warmup_enrichment (some s) = 100 := by
  simp only [fuel_calc_warmup_enrichment, WARMUP_TEMP_MIN, WARMUP_TEMP_MAX, WARMUP_ENRICH_MAX]
  rw [if_neg (by omega), if_pos (by omega)]

theorem warmup_bounds (o : Option sensor_data_t) :
    100 ≤ fuel_calc_warmup_enrichment o ∧ fuel_calc_warmup_enrichment o ≤ 140 := by
  cases o with
  | none => simp [fuel_calc_warmup_enrichment]
  | some s =>
    rcases le_or_lt s.clt_c 0 with h | h
    · rw [warmup_low s h]; omega
    · rcases le_or_lt 70 s.clt_c with h2 | h2
      · rw [warmup_high s h2]; omega
      · exact warmup_mid_bounds s h h2

theorem warmup_antitone (s t : sensor_data_t) (h : s.clt_c ≤ t.clt_c) :
    fuel_calc_warmup_enrichment (some t) ≤ fuel_calc_warmup_enrichment (some s) := by
  rcases le_or_lt s.clt_c 0 with hs | hs
  · rw [warmup_low s hs]; exact (warmup_bounds (some t)).2
  · rcases le_or_lt 70 t.clt_c with ht | ht
    · rw [warmup_high t ht]; exact (warmup_bounds (some s)).1
    · have hs2 : s.clt_c < 70 := by omega
      have ht0 : 0 < t.clt_c := by omega
      have es := warmup_mid_floor s hs hs2
      have et := warmup_mid_floor t ht0 ht
      have hq : (s.clt_c : ℚ) ≤ (t.clt_c : ℚ) := by exact_mod_cast h
      have m : ⌊(140 : ℚ) - 40 * (t.clt_c : ℚ) / 70 + 1 / 2⌋
          ≤ ⌊(140 : ℚ) - 40 * (s.clt_c : ℚ) / 70 + 1 / 2⌋ := by
        apply Int.floor_le_floor
        linarith
      omega

/-- C3. `fuel_calc_warmup_enrichment` returns 140 for every coolant
temperature at or below 0 degrees, 100 for every temperature at or above 70
degrees, and `round(140 - 40 * clt_c / 70)` strictly in between; hence the
result always lies in `[100, 140]` and never increases with temperature. -/
theorem warmup_enrichment_piecewise :
    (∀ s : sensor_data_t, s.clt_c ≤ 0 → fuel_calc_warmup_enrichment (some s) = 140) ∧
    (∀ s : sensor_data_t, 70 ≤ s.clt_c → fuel_calc_warmup_enrichment (some s) = 100) ∧
    (∀ s : sensor_data_t, 0 < s.clt_c → s.clt_c < 70 →
      ((fuel_calc_warmup_enrichment (some s) : ℕ) : ℤ)
        = round ((140 : ℚ) - 40 * (s.clt_c : ℚ) / 70)) ∧
    (∀ o : Option sensor_data_t,
      100 ≤ fuel_calc_warmup_enrichment o ∧ fuel_calc_warmup_enrichment o ≤ 140) ∧
    (∀ s t : sensor_data_t, s.clt_c ≤ t.clt_c →
      fuel_calc_warmup_enrichment (some t) ≤ fuel_calc_warmup_enrichment (some s)) := by
  refine ⟨warmup_low, warmup_high, ?_, warmup_bounds, warmup_antitone⟩
  intro s h0 h1
  rw [round_eq_floor_add_half]
  exact warmup_mid_floor s h0 h1

/-- C3 at three temperatures: 140 at -10 degrees, 100 at 80 degrees, and
`round(140 - 40 * 35 / 70) = 120` at 35 degrees. -/
theorem warmup_enrichment_piecewise_witness :
    fuel_calc_warmup_enrichment (some (sensor_data_t.mk 1000 (-10) 135 450)) = 140 ∧
    fuel_calc_warmup_enrichment (some (sensor_data_t.mk 1000 80 135 450)) = 100 ∧
    ((fuel_calc_warmup_enrichment (some (sensor_data_t.mk 1000 35 135 450)) : ℕ) : ℤ)
      = round ((140 : ℚ) - 40 * (((sensor_data_t.mk 1000 35 135 450).clt_c : ℤ) : ℚ) / 70) ∧
    fuel_calc_warmup_enrichment (some (sensor_data_t.mk 1000 80 135 450))
      ≤ fuel_calc_warmup_enrichment (some (sensor_data_t.mk 1000 35 135 450)) :=
  ⟨warmup_enrichment_piecewise.1 (sensor_data_t.mk 1000 (-10) 135 450) (by decide),
   warmup_enrichment_piecewise.2.1 (sensor_data_t.mk 1000 80 135 450) (by decide),
   warmup_enrichment_piecewise.2.2.1 (sensor_data_t.mk 1000 35 135 450) (by decide) (by decide),
   warmup_enrichment_piecewise.2.2.2.2 (sensor_data_t.mk 1000 35 135 450)
     (sensor_data_t.mk 1000 80 135 450) (by decide)⟩

theorem ite_clamp_eq (x lo hi : ℚ) (h : lo ≤ hi) :
    (if x < lo then lo else if x > hi then hi else x) = spec_clamp x lo hi := by
  unfold spec_clamp
  split_ifs with h1 h2
  · rw [min_eq_left (by linarith), max_eq_left (by linarith)]
  · rw [min_eq_right (by linarith), max_eq_right h]
  · rw [min_eq_left (by linarith), max_eq_right (by linarith)]

theorem spec_clamp_bounds (x lo hi : ℚ) (h : lo ≤ hi) :
    lo ≤ spec_clamp x lo hi ∧ spec_clamp x lo hi ≤ hi := by
  unfold spec_clamp
  exact ⟨le_max_left _ _, max_le h (min_le_right _ _)⟩

theorem pulsewidth_unfold (s : sensor_data_t) (rpm ve_x10 : ℕ) (lam : ℚ) (h : rpm ≠ 0) :
    fuel_calc_pulsewidth_us (some s) rpm ve_x10 lam
      = f32_to_u32 (spec_clamp
          (7730 * ((ve_x10 : ℚ) / 1000) * ((s.map_kpa10 : ℚ) / 1000)
            * ((fuel_calc_warmup_enrichment (some s) : ℚ) / 100)
            * spec_clamp (1 + lam) (3 / 4) (5 / 4)) 500 18000 + 1 / 2) := by
  simp only [fuel_calc_pulsewidth_us, REQ_FUEL_US, PW_MIN_US, PW_MAX_US]
  rw [if_neg h]
  push_cast
  rw [ite_clamp_eq (1 + lam) (3 / 4) (5 / 4) (by norm_num)]
  rw [ite_clamp_eq _ 500 18000 (by norm_num)]
  congr 3
  ring

theorem pulsewidth_floor (s : sensor_data_t) (rpm ve_x10 : ℕ) (lam : ℚ) (h : rpm ≠ 0) :
    ((fuel_calc_pulsewidth_us (some s) rpm ve_x10 lam : ℕ) : ℤ)
      = ⌊spec_clamp
          (7730 * ((ve_x10 : ℚ) / 1000) * ((s.map_kpa10 : ℚ) / 1000)
            * ((fuel_calc_warmup_enrichment (some s) : ℚ) / 100)
            * spec_clamp (1 + lam) (3 / 4) (5 / 4)) 500 18000 + 1 / 2⌋ := by
  rw [pulsewidth_unfold s rpm ve_x10 lam h]
  have b := spec_clamp_bounds
    (7730 * ((ve_x10 : ℚ) / 1000) * ((s.map_kpa10 : ℚ) / 1000)
      * ((fuel_calc_warmup_enrichment (some s) : ℚ) / 100)
      * spec_clamp (1 + lam) (3 / 4) (5 / 4)) 500 18000 (by norm_num)
  apply f32_to_u32_eq_floor
  · linarith [b.1]
  · linarith [b.2]

/-- C1. For every non-null sensor snapshot and every non-zero rpm,
`fuel_calc_pulsewidth_us` returns
`round(clamp(7730 * (ve_x10/1000) * (map_kpa10/1000) * (warmup/100) * clamp(1 + lambda_correction, 0.75, 1.25), 500, 18000))`
over exact arithmetic, with `warmup = fuel_calc_warmup_enrichment(sensors)`;
scenario D (`map_kpa10 = 1000`, `ve_x10 = 1000`, `clt_c = 80`, no lambda
correction) gives 7730. -/
theorem pulsewidth_formula :
    (∀ (s : sensor_data_t) (rpm ve_x10 : ℕ) (lam : ℚ), rpm ≠ 0 →
      ((fuel_calc_pulsewidth_us (some s) rpm ve_x10 lam : ℕ) : ℤ)
        = round (spec_clamp
            (7730 * ((ve_x10 : ℚ) / 1000) * ((s.map_kpa10 : ℚ) / 1000)
              * ((fuel_calc_warmup_enrichment (some s) : ℚ) / 100)
              * spec_clamp (1 + lam) (3 / 4) (5 / 4)) 500 18000)) ∧
    (∀ (rpm vbat_dv o2_mv : ℕ), rpm ≠ 0 →
      fuel_calc_pulsewidth_us (some (sensor_data_t.mk 1000 80 vbat_dv o2_mv)) rpm 1000 0
        = 7730) := by
  constructor
  · intro s rpm ve_x10 lam h
    rw [round_eq_floor_add_half]
    exact pulsewidth_floor s rpm ve_x10 lam h
  · intro rpm vbat_dv o2_mv h
    have e := pulsewidth_floor (sensor_data_t.mk 1000 80 vbat_dv o2_mv) rpm 1000 0 h
    rw [warmup_high _ (by norm_num)] at e
    have v : spec_clamp
        (7730 * (((1000 : ℕ) : ℚ) / 1000)
          * (((sensor_data_t.mk 1000 80 vbat_dv o2_mv).map_kpa10 : ℚ) / 1000)
          * (((100 : ℕ) : ℚ) / 100) * spec_clamp (1 + 0) (3 / 4) (5 / 4)) 500 18000 + 1 / 2
        = 7730 + 1 / 2 := by
      norm_num [spec_clamp]
    rw [v] at e
    have f : ⌊(7730 : ℚ) + 1 / 2⌋ = 7730 := by
      rw [Int.floor_eq_iff]
      constructor <;> norm_num
    rw [f] at e
    exact_mod_cast e

/-- Scenario D evaluated at 3000 rpm: the formula of C1 at a concrete input. -/
theorem pulsewidth_formula_witness :
    (3000 : ℕ) ≠ 0 ∧
    ((fuel_calc_pulsewidth_us (some (sensor_data_t.mk 1000 80 135 450)) 3000 1000 0 : ℕ) : ℤ)
        = round (spec_clamp
            (7730 * (((1000 : ℕ) : ℚ) / 1000)
              * (((sensor_data_t.mk 1000 80 135 450).map_kpa10 : ℚ) / 1000)
              * ((fuel_calc_warmup_enrichment (some (sensor_data_t.mk 1000 80 135 450)) : ℚ)
                  / 100)
              * spec_clamp (1 + 0) (3 / 4) (5 / 4)) 500 18000) ∧
    fuel_calc_pulsewidth_us (some (sensor_data_t.mk 1000 80 135 450)) 3000 1000 0 = 7730 :=
  ⟨by decide,
   pulsewidth_formula.1 (sensor_data_t.mk 1000 80 135 450) 3000 1000 0 (by decide),
   pulsewidth_formula.2 3000 135 450 (by decide)⟩

/-- C2. For every input (any snapshot or a null one, any rpm, any `ve_x10`,
any lambda correction) `fuel_calc_pulsewidth_us` returns a value in
`[500, 18000]`, and it returns exactly 500 when `rpm = 0`. -/
theorem pulsewidth_range :
    (∀ (o : Option sensor_data_t) (rpm ve_x10 : ℕ) (lam : ℚ),
      500 ≤ fuel_calc_pulsewidth_us o rpm ve_x10 lam ∧
      fuel_calc_pulsewidth_us o rpm ve_x10 lam ≤ 18000) ∧
    (∀ (o : Option sensor_data_t) (ve_x10 : ℕ) (lam : ℚ),
      fuel_calc_pulsewidth_us o 0 ve_x10 lam = 500) := by
  have zero : ∀ (o : Option sensor_data_t) (ve_x10 : ℕ) (lam : ℚ),
      fuel_calc_pulsewidth_us o 0 ve_x10 lam = 500 := by
    intro o ve_x10 lam
    cases o <;> simp [fuel_calc_pulsewidth_us, PW_MIN_US]
  refine ⟨?_, zero⟩
  intro o rpm ve_x10 lam
  cases o with
  | none => simp [fuel_calc_pulsewidth_us, PW_MIN_US]
  | some s =>
    rcases Nat.eq_zero_or_pos rpm with h | h
    · subst h
      rw [zero]
      omega
    · have e := pulsewidth_floor s rpm ve_x10 lam (by omega)
      have b := spec_clamp_bounds
        (7730 * ((ve_x10 : ℚ) / 1000) * ((s.map_kpa10 : ℚ) / 1000)
          * ((fuel_calc_warmup_enrichment (some s) : ℚ) / 100)
          * spec_clamp (1 + lam) (3 / 4) (5 / 4)) 500 18000 (by norm_num)
      have lo : (500 : ℤ) ≤ ⌊spec_clamp
          (7730 * ((ve_x10 : ℚ) / 1000) * ((s.map_kpa10 : ℚ) / 1000)
            * ((fuel_calc_warmup_enrichment (some s) : ℚ) / 100)
            * spec_clamp (1 + lam) (3 / 4) (5 / 4)) 500 18000 + 1 / 2⌋ := by
        apply Int.le_floor.mpr
        push_cast
        linarith [b.1]
      have hi : ⌊spec_clamp
          (7730 * ((ve_x10 : ℚ) / 1000) * ((s.map_kpa10 : ℚ) / 1000)
            * ((fuel_calc_warmup_enrichment (some s) : ℚ) / 100)
            * spec_clamp (1 + lam) (3 / 4) (5 / 4)) 500 18000 + 1 / 2⌋ < 18001 := by
        apply Int.floor_lt.mpr
        push_cast
        linarith [b.2]
      omega

/-! ## Dwell schedule -/

theorem dwell_std_eq_spec (v : ℚ) (rpm : ℕ) :
    adjust_dwell_for_rpm (calculate_dwell_time v) rpm
      = spec_dwell_base v * spec_dwell_rpm_bias rpm := by
  unfold adjust_dwell_for_rpm calculate_dwell_time spec_dwell_base spec_dwell_rpm_bias
  split_ifs <;> ring

theorem dwell_hp_eq_std (v : ℚ) (rpm : ℕ) :
    adjust_dwell_for_rpm_hp (calculate_dwell_time_hp v) rpm
      = adjust_dwell_for_rpm (calculate_dwell_time v) rpm := rfl

/-- C4. For every battery voltage and rpm the dwell used by the ignition
drivers is `base(v) * bias(rpm)` with the coarse schedule 4.5 / 3.5 / 3.0 /
2.8 ms at the thresholds 11, 12.5 and 14 V and the bias 0.85 above 8000 rpm,
1.15 below 1000 rpm and 1 otherwise; the high-precision variants compute the
same functions as the standard ones, and both drivers store exactly this
dwell whenever they accept a command. -/
theorem dwell_schedule :
    (∀ (v : ℚ) (rpm : ℕ),
      adjust_dwell_for_rpm (calculate_dwell_time v) rpm
        = spec_dwell_base v * spec_dwell_rpm_bias rpm) ∧
    (∀ v : ℚ, calculate_dwell_time_hp v = calculate_dwell_time v) ∧
    (∀ (b : ℚ) (rpm : ℕ), adjust_dwell_for_rpm_hp b rpm = adjust_dwell_for_rpm b rpm) ∧
    (∀ (ini : Bool) (cyl delay rpm : ℕ) (v : ℚ) (r : ign_one_shot_t),
      mcpwm_ignition_schedule_one_shot ini cyl delay rpm v = some r →
        r.current_dwell_ms = spec_dwell_base v * spec_dwell_rpm_bias rpm) ∧
    (∀ (ini : Bool) (cyl target rpm : ℕ) (v : ℚ) (counter : ℕ) (r : ign_hp_abs_t),
      mcpwm_ignition_hp_schedule_one_shot_absolute ini cyl target rpm v counter = some r →
        r.current_dwell_ms = spec_dwell_base v * spec_dwell_rpm_bias rpm) := by
  refine ⟨dwell_std_eq_spec, fun _ => rfl, fun _ _ => rfl, ?_, ?_⟩
  · intro ini cyl delay rpm v r h
    unfold mcpwm_ignition_schedule_one_shot at h
    split_ifs at h
    simp only [Option.some.injEq] at h
    rw [← h]
    exact dwell_std_eq_spec v rpm
  · intro ini cyl target rpm v counter r h
    unfold mcpwm_ignition_hp_schedule_one_shot_absolute at h
    split_ifs at h
    simp only [Option.some.injEq] at h
    rw [← h]
    exact dwell_std_eq_spec v rpm

theorem ign_one_shot_example :
    mcpwm_ignition_schedule_one_shot true 1 10000 3000 (27 / 2)
      = some (ign_one_shot_t.mk 3 10001 7000 10000) := by
  norm_num [mcpwm_ignition_schedule_one_shot, calculate_dwell_time, adjust_dwell_for_rpm,
    f32_to_u32, UINT32_MAX]
  decide

theorem ign_hp_abs_example :
    mcpwm_ignition_hp_schedule_one_shot_absolute true 2 20000 500 (21 / 2) 100
      = some (ign_hp_abs_t.mk (207 / 40) 14825 20000 100) := by
  norm_num [mcpwm_ignition_hp_schedule_one_shot_absolute, calculate_dwell_time_hp,
    adjust_dwell_for_rpm_hp, f32_to_u32]
  decide

/-- The dwell of C4 at two accepted commands: 13.5 V at 3000 rpm on the
standard driver (3.0 ms) and 10.5 V at 500 rpm on the high-precision driver
(4.5 ms times 1.15). -/
theorem dwell_schedule_witness :
    (mcpwm_ignition_schedule_one_shot true 1 10000 3000 (27 / 2)
        = some (ign_one_shot_t.mk 3 10001 7000 10000) ∧
      (ign_one_shot_t.mk 3 10001 7000 10000).current_dwell_ms
        = spec_dwell_base (27 / 2) * spec_dwell_rpm_bias 3000) ∧
    (mcpwm_ignition_hp_schedule_one_shot_absolute true 2 20000 500 (21 / 2) 100
        = some (ign_hp_abs_t.mk (207 / 40) 14825 20000 100) ∧
      (ign_hp_abs_t.mk (207 / 40) 14825 20000 100).current_dwell_ms
        = spec_dwell_base (21 / 2) * spec_dwell_rpm_bias 500) :=
  ⟨⟨ign_one_shot_example,
    dwell_schedule.2.2.2.1 true 1 10000 3000 (27 / 2) _ ign_one_shot_example⟩,
   ⟨ign_hp_abs_example,
    dwell_schedule.2.2.2.2 true 2 20000 500 (21 / 2) 100 _ ign_hp_abs_example⟩⟩

/-! ## Angle wrapping -/

theorem wrap_angle_720_sub_spec (a : ℚ) :
    wrap_angle_720_sub a < 720 ∧ (0 ≤ a → 0 ≤ wrap_angle_720_sub a) ∧
      ∃ k : ℤ, wrap_angle_720_sub a = a + 720 * (k : ℚ) := by
  induction a using wrap_angle_720_sub.induct with
  | case1 x h ih =>
    rw [wrap_angle_720_sub, if_pos h]
    obtain ⟨h1, h2, k, hk⟩ := ih
    refine ⟨h1, fun _ => h2 (by linarith), k - 1, ?_⟩
    rw [hk]
    push_cast
    ring
  | case2 x h =>
    rw [wrap_angle_720_sub, if_neg h]
    exact ⟨lt_of_not_ge h, fun h0 => h0, 0, by simp⟩

theorem wrap_angle_720_add_spec (a : ℚ) :
    0 ≤ wrap_angle_720_add a ∧ (a < 720 → wrap_angle_720_add a < 720) ∧
      ∃ k : ℤ, wrap_angle_720_add a = a + 720 * (k : ℚ) := by
  induction a using wrap_angle_720_add.induct with
  | case1 x h ih =>
    rw [wrap_angle_720_add, if_pos h]
    obtain ⟨h1, h2, k, hk⟩ := ih
    refine ⟨h1, fun _ => h2 (by linarith), k + 1, ?_⟩
    rw [hk]
    push_cast
    ring
  | case2 x h =>
    rw [wrap_angle_720_add, if_neg h]
    exact ⟨le_of_not_lt h, fun h0 => h0, 0, by simp⟩

/-- `wrap_angle_720` returns the representative of its argument in `[0, 720)`. -/
theorem wrap_angle_720_spec (a : ℚ) :
    0 ≤ wrap_angle_720 a ∧ wrap_angle_720 a < 720 ∧
      ∃ k : ℤ, wrap_angle_720 a = a + 720 * (k : ℚ) := by
  unfold wrap_angle_720
  obtain ⟨s1, _, k1, e1⟩ := wrap_angle_720_sub_spec a
  obtain ⟨a1, a2, k2, e2⟩ := wrap_angle_720_add_spec (wrap_angle_720_sub a)
  refine ⟨a1, a2 s1, k1 + k2, ?_⟩
  rw [e2, e1]
  push_cast
  ring

/-- A value already in `[0, 720)` that differs from `a` by a multiple of 720
is what `wrap_angle_720 a` returns. -/
theorem wrap_angle_720_unique (a r : ℚ) (k : ℤ) (h0 : 0 ≤ r) (h1 : r < 720)
    (e : r = a + 720 * (k : ℚ)) : wrap_angle_720 a = r := by
  obtain ⟨w0, w1, j, ej⟩ := wrap_angle_720_spec a
  have d : wrap_angle_720 a - r = 720 * ((j - k : ℤ) : ℚ) := by
    rw [ej, e]
    push_cast
    ring
  have lo : (-1 : ℚ) < ((j - k : ℤ) : ℚ) := by linarith
  have hi : ((j - k : ℤ) : ℚ) < 1 := by linarith
  have lo2 : (-1 : ℤ) < j - k := by exact_mod_cast lo
  have hi2 : j - k < 1 := by exact_mod_cast hi
  have z : j - k = 0 := by omega
  rw [z] at d
  simp at d
  linarith

theorem wrap_angle_720_of_mem (a : ℚ) (h0 : 0 ≤ a) (h1 : a < 720) : wrap_angle_720 a = a :=
  wrap_angle_720_unique a a 0 h0 h1 (by simp)

theorem wrap_angle_360_sub_spec (a : ℚ) :
    wrap_angle_360_sub a < 360 ∧ (0 ≤ a → 0 ≤ wrap_angle_360_sub a) ∧
      ∃ k : ℤ, wrap_angle_360_sub a = a + 360 * (k : ℚ) := by
  induction a using wrap_angle_360_sub.induct with
  | case1 x h ih =>
    rw [wrap_angle_360_sub, if_pos h]
    obtain ⟨h1, h2, k, hk⟩ := ih
    refine ⟨h1, fun _ => h2 (by linarith), k - 1, ?_⟩
    rw [hk]
    push_cast
    ring
  | case2 x h =>
    rw [wrap_angle_360_sub, if_neg h]
    exact ⟨lt_of_not_ge h, fun h0 => h0, 0, by simp⟩

theorem wrap_angle_360_add_spec (a : ℚ) :
    0 ≤ wrap_angle_360_add a ∧ (a < 360 → wrap_angle_360_add a < 360) ∧
      ∃ k : ℤ, wrap_angle_360_add a = a + 360 * (k : ℚ) := by
  induction a using wrap_angle_360_add.induct with
  | case1 x h ih =>
    rw [wrap_angle_360_add, if_pos h]
    obtain ⟨h1, h2, k, hk⟩ := ih
    refine ⟨h1, fun _ => h2 (by linarith), k + 1, ?_⟩
    rw [hk]
    push_cast
    ring
  | case2 x h =>
    rw [wrap_angle_360_add, if_neg h]
    exact ⟨le_of_not_lt h, fun h0 => h0, 0, by simp⟩

/-- `wrap_angle_360` returns the representative of its argument in `[0, 360)`. -/
theorem wrap_angle_360_spec (a : ℚ) :
    0 ≤ wrap_angle_360 a ∧ wrap_angle_360 a < 360 ∧
      ∃ k : ℤ, wrap_angle_360 a = a + 360 * (k : ℚ) := by
  unfold wrap_angle_360
  obtain ⟨s1, _, k1, e1⟩ := wrap_angle_360_sub_spec a
  obtain ⟨a1, a2, k2, e2⟩ := wrap_angle_360_add_spec (wrap_angle_360_sub a)
  refine ⟨a1, a2 s1, k1 + k2, ?_⟩
  rw [e2, e1]
  push_cast
  ring

/-- A value already in `[0, 360)` that differs from `a` by a multiple of 360
is what `wrap_angle_360 a` returns. -/
theorem wrap_angle_360_unique (a r : ℚ) (k : ℤ) (h0 : 0 ≤ r) (h1 : r < 360)
    (e : r = a + 360 * (k : ℚ)) : wrap_angle_360 a = r := by
  obtain ⟨w0, w1, j, ej⟩ := wrap_angle_360_spec a
  have d : wrap_angle_360 a - r = 360 * ((j - k : ℤ) : ℚ) := by
    rw [ej, e]
    push_cast
    ring
  have lo : (-1 : ℚ) < ((j - k : ℤ) : ℚ) := by linarith
  have hi : ((j - k : ℤ) : ℚ) < 1 := by linarith
  have lo2 : (-1 : ℤ) < j - k := by exact_mod_cast lo
  have hi2 : j - k < 1 := by exact_mod_cast hi
  have z : j - k = 0 := by omega
  rw [z] at d
  simp at d
  linarith

theorem wrap_angle_360_of_mem (a : ℚ) (h0 : 0 ≤ a) (h1 : a < 360) : wrap_angle_360 a = a :=
  wrap_angle_360_unique a a 0 h0 h1 (by simp)


/-! ## Dwell voltage in `ignition_apply_timing` -/

theorem clampf_local_eq (v lo hi : ℚ) (h : lo ≤ hi) : clampf_local v lo hi = spec_clamp v lo hi :=
  ite_clamp_eq v lo hi h

theorem dwell_voltage_some (s : sensor_data_t) :
    ignition_dwell_voltage (some s)
      = spec_clamp ((if s.vbat_dv > 0 then (s.vbat_dv : ℚ) / 10 else 27 / 2)
          + spec_temp_bias s.clt_c) 8 (33 / 2) := by
  simp only [ignition_dwell_voltage, apply_temp_dwell_bias]
  rw [clampf_local_eq _ 8 (33 / 2) (by norm_num)]
  congr 1
  unfold spec_temp_bias
  split_ifs <;> ring

theorem apply_timing_coil_voltage (advance_deg10 rpm : ℕ) (sensor_read : Option sensor_data_t)
    (sync_read : Option sync_data_t) (cfg_read : Option sync_config_t) (c : hw_call)
    (h : c ∈ ignition_apply_timing advance_deg10 rpm sensor_read sync_read cfg_read) :
    c.coil_voltage = some (ignition_dwell_voltage sensor_read) := by
  unfold ignition_apply_timing at h
  simp only [] at h
  split_ifs at h <;>
  · rw [List.mem_map] at h
    obtain ⟨cyl, _, e⟩ := h
    rw [← e]
    rfl

/-- C5, as stated, fails on the code. Scenario C: at `vbat_dv = 105` without
temperature bias the voltage fed to the dwell schedule is 10.5 V, below the
11 V threshold, so the dwell is 4.5 ms and not 3.5 ms. And at `vbat_dv = 0`
the code substitutes the 13.5 V default, so the voltage is 13.5 V and not
`clamp(0/10 + bias, 8.0, 16.5) = 8.0`. -/
theorem dwell_voltage_claim_fails :
    (ignition_dwell_voltage (some (sensor_data_t.mk 1000 50 105 0)) = 21 / 2 ∧
      calculate_dwell_time (ignition_dwell_voltage (some (sensor_data_t.mk 1000 50 105 0)))
        ≠ 7 / 2) ∧
    ignition_dwell_voltage (some (sensor_data_t.mk 1000 50 0 0))
      ≠ spec_clamp ((((sensor_data_t.mk 1000 50 0 0).vbat_dv : ℕ) : ℚ) / 10
          + spec_temp_bias (sensor_data_t.mk 1000 50 0 0).clt_c) 8 (33 / 2) := by
  have e1 : ignition_dwell_voltage (some (sensor_data_t.mk 1000 50 105 0)) = 21 / 2 := by
    rw [dwell_voltage_some]
    norm_num [spec_clamp, spec_temp_bias]
  have e2 : ignition_dwell_voltage (some (sensor_data_t.mk 1000 50 0 0)) = 27 / 2 := by
    rw [dwell_voltage_some]
    norm_num [spec_clamp, spec_temp_bias]
  refine ⟨⟨e1, ?_⟩, ?_⟩
  · rw [e1]
    norm_num [calculate_dwell_time]
  · rw [e2]
    norm_num [spec_clamp, spec_temp_bias]

/-- C5, amended. When the sensor read succeeds, the voltage fed to the dwell
schedule by `ignition_apply_timing` is `clamp(v0 + bias(clt_c), 8.0, 16.5)`
where `v0 = vbat_dv / 10` if `vbat_dv > 0` and the 13.5 V default otherwise,
with bias +1.0 for `clt_c >= 105`, +0.5 for `95 <= clt_c < 105`, -0.7 for
`clt_c <= 0`, -0.4 for `0 < clt_c <= 20` and 0 otherwise; when the sensor read
fails it is 13.5 V; every coil call of the function carries that voltage.
Scenario C: `vbat_dv = 105` without temperature bias gives 10.5 V and dwell
4.5 ms; `vbat_dv = 105` with `clt_c = -5` gives 9.8 V and dwell 4.5 ms. -/
theorem dwell_voltage_amended :
    (∀ s : sensor_data_t,
      ignition_dwell_voltage (some s)
        = spec_clamp ((if s.vbat_dv > 0 then (s.vbat_dv : ℚ) / 10 else 27 / 2)
            + spec_temp_bias s.clt_c) 8 (33 / 2)) ∧
    ignition_dwell_voltage none = 27 / 2 ∧
    (∀ (advance_deg10 rpm : ℕ) (sensor_read : Option sensor_data_t)
        (sync_read : Option sync_data_t) (cfg_read : Option sync_config_t) (c : hw_call),
      c ∈ ignition_apply_timing advance_deg10 rpm sensor_read sync_read cfg_read →
        c.coil_voltage = some (ignition_dwell_voltage sensor_read)) ∧
    (∀ (map_kpa10 o2_mv : ℕ) (clt_c : ℤ), 20 < clt_c → clt_c < 95 →
      ignition_dwell_voltage (some (sensor_data_t.mk map_kpa10 clt_c 105 o2_mv)) = 21 / 2 ∧
      calculate_dwell_time
        (ignition_dwell_voltage (some (sensor_data_t.mk map_kpa10 clt_c 105 o2_mv))) = 9 / 2) ∧
    (∀ (map_kpa10 o2_mv : ℕ),
      ignition_dwell_voltage (some (sensor_data_t.mk map_kpa10 (-5) 105 o2_mv)) = 49 / 5 ∧
      calculate_dwell_time
        (ignition_dwell_voltage (some (sensor_data_t.mk map_kpa10 (-5) 105 o2_mv))) = 9 / 2) := by
  refine ⟨dwell_voltage_some, ?_, apply_timing_coil_voltage, ?_, ?_⟩
  · norm_num [ignition_dwell_voltage, clampf_local]
  · intro map_kpa10 o2_mv clt_c h1 h2
    have e : ignition_dwell_voltage (some (sensor_data_t.mk map_kpa10 clt_c 105 o2_mv))
        = 21 / 2 := by
      have hb : spec_temp_bias clt_c = 0 := by
        unfold spec_temp_bias
        rw [if_neg (by omega), if_neg (by omega), if_neg (by omega), if_neg (by omega)]
      rw [dwell_voltage_some]
      simp only [hb]
      norm_num [spec_clamp]
    rw [e]
    exact ⟨rfl, by norm_num [calculate_dwell_time]⟩
  · intro map_kpa10 o2_mv
    have e : ignition_dwell_voltage (some (sensor_data_t.mk map_kpa10 (-5) 105 o2_mv))
        = 49 / 5 := by
      rw [dwell_voltage_some]
      norm_num [spec_clamp, spec_temp_bias]
    rw [e]
    exact ⟨rfl, by norm_num [calculate_dwell_time]⟩

theorem apply_timing_fallback_example :
    ignition_apply_timing 150 1000 (some (sensor_data_t.mk 1000 50 105 0)) none none
      = [hw_call.ignition_start_cylinder 1 1000 15 (21 / 2),
         hw_call.ignition_start_cylinder 2 1000 15 (21 / 2),
         hw_call.ignition_start_cylinder 3 1000 15 (21 / 2),
         hw_call.ignition_start_cylinder 4 1000 15 (21 / 2)] := by
  have e1 : ignition_dwell_voltage (some (sensor_data_t.mk 1000 50 105 0)) = 21 / 2 := by
    rw [dwell_voltage_some]
    norm_num [spec_clamp, spec_temp_bias]
  simp only [ignition_apply_timing, e1]
  norm_num

/-- The amended C5 at concrete inputs: the first coil call of a cycle without
sync at `vbat_dv = 105`, `clt_c = 50` carries 10.5 V, and the scenario values
at `clt_c = 50`. -/
theorem dwell_voltage_amended_witness :
    (hw_call.ignition_start_cylinder 1 1000 15 (21 / 2)
        ∈ ignition_apply_timing 150 1000 (some (sensor_data_t.mk 1000 50 105 0)) none none ∧
      (hw_call.ignition_start_cylinder 1 1000 15 (21 / 2)).coil_voltage
        = some (ignition_dwell_voltage (some (sensor_data_t.mk 1000 50 105 0)))) ∧
    ((20 : ℤ) < 50 ∧ (50 : ℤ) < 95 ∧
      ignition_dwell_voltage (some (sensor_data_t.mk 1000 50 105 0)) = 21 / 2 ∧
      calculate_dwell_time
        (ignition_dwell_voltage (some (sensor_data_t.mk 1000 50 105 0))) = 9 / 2) :=
  have m : hw_call.ignition_start_cylinder 1 1000 15 (21 / 2)
      ∈ ignition_apply_timing 150 1000 (some (sensor_data_t.mk 1000 50 105 0)) none none := by
    rw [apply_timing_fallback_example]
    exact List.mem_cons_self _ _
  ⟨⟨m, dwell_voltage_amended.2.2.1 150 1000 _ none none _ m⟩,
   ⟨by decide, by decide, dwell_voltage_amended.2.2.2.1 1000 0 50 (by decide) (by decide)⟩⟩

/-! ## Synchronized spark scheduling (S3) -/

theorem f32_to_u32_round (x : ℚ) (h0 : 0 ≤ x) (h1 : x + 1 / 2 < 4294967296) :
    f32_to_u32 (x + 1 / 2) = Int.toNat (round x) := by
  have e := f32_to_u32_eq_floor (x + 1 / 2) (by linarith) h1
  rw [round_eq_floor_add_half, ← e]
  simp

theorem current_angle_range (sd : sync_data_t) (tooth_count : ℕ) :
    0 ≤ compute_current_angle_deg sd tooth_count ∧
      compute_current_angle_deg sd tooth_count < 720 := by
  unfold compute_current_angle_deg
  exact ⟨(wrap_angle_720_spec _).1, (wrap_angle_720_spec _).2.1⟩

theorem spark_delta_deg_spec (adv cur : ℚ) (c : ℕ) (h0 : 0 ≤ cur) (h1 : cur < 720) :
    0 ≤ spark_delta_deg adv cur c ∧ spark_delta_deg adv cur c < 720 ∧
      ∃ k : ℤ, spark_delta_deg adv cur c = g_cyl_tdc_deg (c - 1) - adv - cur + 720 * (k : ℚ) := by
  obtain ⟨w0, w1, k, e⟩ := wrap_angle_720_spec (g_cyl_tdc_deg (c - 1) - adv)
  unfold spark_delta_deg
  simp only []
  split_ifs with h
  · refine ⟨by linarith, by linarith, k + 1, ?_⟩
    rw [e]
    push_cast
    ring
  · refine ⟨by linarith, by linarith, k, ?_⟩
    rw [e]
    ring

theorem sync_us_per_degree_eq (sd : sync_data_t) (cfg : sync_config_t)
    (htc : 0 < cfg.tooth_count) (hw : cfg.tooth_count + 2 < 4294967296)
    (htp : 0 < sd.tooth_period) :
    sync_us_per_degree (some sd) (some cfg)
      = (sd.tooth_period : ℚ) * ((cfg.tooth_count : ℚ) + 2) / 360 := by
  simp only [sync_us_per_degree]
  rw [if_neg (by omega), Nat.mod_eq_of_lt hw]
  push_cast
  ring

theorem apply_timing_sync_eq (advance_deg10 rpm : ℕ) (sensor_read : Option sensor_data_t)
    (sd : sync_data_t) (cfg : sync_config_t)
    (hv : sd.sync_valid = true) (ha : sd.sync_acquired = true)
    (htc : 0 < cfg.tooth_count) (hw : cfg.tooth_count + 2 < 4294967296)
    (htp : 0 < sd.tooth_period) :
    ignition_apply_timing advance_deg10 rpm sensor_read (some sd) (some cfg)
      = [1, 2, 3, 4].map fun cylinder =>
          hw_call.ignition_schedule_one_shot cylinder
            (f32_to_u32
              (spark_delta_deg ((advance_deg10 : ℚ) / 10)
                  (compute_current_angle_deg sd cfg.tooth_count) cylinder
                * ((sd.tooth_period : ℚ) * ((cfg.tooth_count : ℚ) + 2) / 360) + 1 / 2))
            rpm (ignition_dwell_voltage sensor_read) := by
  have hus := sync_us_per_degree_eq sd cfg htc hw htp
  have hpos : 0 < (sd.tooth_period : ℚ) * ((cfg.tooth_count : ℚ) + 2) / 360 := by
    have h1 : (0 : ℚ) < (sd.tooth_period : ℚ) := by exact_mod_cast htp
    have h2 : (0 : ℚ) ≤ (cfg.tooth_count : ℚ) := Nat.cast_nonneg _
    positivity
  unfold ignition_apply_timing
  simp only [Option.getD_some, Option.isSome_some, hv, ha, Bool.and_self, Bool.true_and,
    decide_eq_true htc, if_true, hus, not_le.mpr hpos, decide_False, Bool.not_false]

/-- C6. In the synchronized branch of `ignition_apply_timing`, for every
cylinder `c` in 1..4, every advance and every crank position, the angle to
spark `delta_deg` lies in `[0, 720)`, is congruent to
`cyl_tdc_deg[c] - advance_deg - current_angle` modulo 720, and the delay
handed to `mcpwm_ignition_schedule_one_shot` for that cylinder is
`round(delta_deg * us_per_deg)` with
`us_per_deg = tooth_period * (tooth_count + 2) / 360` (the delay fitting the
32-bit argument). -/
theorem sync_spark_delay (advance_deg10 rpm : ℕ) (sensor_read : Option sensor_data_t)
    (sd : sync_data_t) (cfg : sync_config_t) (c : ℕ)
    (hv : sd.sync_valid = true) (ha : sd.sync_acquired = true)
    (htc : 0 < cfg.tooth_count) (hw : cfg.tooth_count + 2 < 4294967296)
    (htp : 0 < sd.tooth_period) (hc1 : 1 ≤ c) (hc4 : c ≤ 4)
    (hfit : spark_delta_deg ((advance_deg10 : ℚ) / 10)
          (compute_current_angle_deg sd cfg.tooth_count) c
        * ((sd.tooth_period : ℚ) * ((cfg.tooth_count : ℚ) + 2) / 360) + 1 / 2 < 4294967296) :
    (0 ≤ spark_delta_deg ((advance_deg10 : ℚ) / 10)
          (compute_current_angle_deg sd cfg.tooth_count) c ∧
      spark_delta_deg ((advance_deg10 : ℚ) / 10)
          (compute_current_angle_deg sd cfg.tooth_count) c < 720) ∧
    (∃ k : ℤ,
      spark_delta_deg ((advance_deg10 : ℚ) / 10)
          (compute_current_angle_deg sd cfg.tooth_count) c
        = g_cyl_tdc_deg (c - 1) - (advance_deg10 : ℚ) / 10
            - compute_current_angle_deg sd cfg.tooth_count + 720 * (k : ℚ)) ∧
    sync_us_per_degree (some sd) (some cfg)
      = (sd.tooth_period : ℚ) * ((cfg.tooth_count : ℚ) + 2) / 360 ∧
    (ignition_apply_timing advance_deg10 rpm sensor_read (some sd) (some cfg))[c - 1]?
      = some (hw_call.ignition_schedule_one_shot c
          (Int.toNat (round
            (spark_delta_deg ((advance_deg10 : ℚ) / 10)
                (compute_current_angle_deg sd cfg.tooth_count) c
              * ((sd.tooth_period : ℚ) * ((cfg.tooth_count : ℚ) + 2) / 360))))
          rpm (ignition_dwell_voltage sensor_read)) := by
  obtain ⟨a0, a1⟩ := current_angle_range sd cfg.tooth_count
  obtain ⟨d0, d1, dk⟩ := spark_delta_deg_spec ((advance_deg10 : ℚ) / 10)
    (compute_current_angle_deg sd cfg.tooth_count) c a0 a1
  have hpos : 0 ≤ (sd.tooth_period : ℚ) * ((cfg.tooth_count : ℚ) + 2) / 360 := by positivity
  refine ⟨⟨d0, d1⟩, dk, sync_us_per_degree_eq sd cfg htc hw htp, ?_⟩
  rw [apply_timing_sync_eq advance_deg10 rpm sensor_read sd cfg hv ha htc hw htp]
  rw [← f32_to_u32_round _ (mul_nonneg d0 hpos) hfit]
  have hc : c = 1 ∨ c = 2 ∨ c = 3 ∨ c = 4 := by omega
  rcases hc with h | h | h | h <;> subst h <;> rfl

theorem mid_cycle_current_angle : compute_current_angle_deg mid_cycle_sync 58 = 420 := by
  unfold compute_current_angle_deg mid_cycle_sync
  norm_num
  exact wrap_angle_720_of_mem 420 (by norm_num) (by norm_num)

theorem mid_cycle_delta : spark_delta_deg ((100 : ℕ) / 10) 420 3 = 650 := by
  unfold spark_delta_deg
  have e : wrap_angle_720 (g_cyl_tdc_deg (3 - 1) - ((100 : ℕ) : ℚ) / 10) = 350 :=
    wrap_angle_720_unique _ 350 0 (by norm_num) (by norm_num) (by norm_num [g_cyl_tdc_deg])
  rw [e]
  norm_num

/-- C6 at a concrete crank position: tooth 10 of revolution 1 (420 degrees) on
a 58-tooth wheel with a 1000 us tooth period and 10 degrees of advance; for
cylinder 3 the angle to spark is 650 degrees and the delay 108333 us. -/
theorem sync_spark_delay_witness :
    spark_delta_deg ((100 : ℕ) / 10) (compute_current_angle_deg mid_cycle_sync 58) 3 = 650 ∧
    (ignition_apply_timing 100 1000 none (some mid_cycle_sync) (some scenario_a_cfg))[3 - 1]?
      = some (hw_call.ignition_schedule_one_shot 3 108333 1000 (27 / 2)) := by
  have hd : spark_delta_deg ((100 : ℕ) / 10) (compute_current_angle_deg mid_cycle_sync 58) 3
      = 650 := by
    rw [mid_cycle_current_angle]
    exact mid_cycle_delta
  have h := sync_spark_delay 100 1000 none mid_cycle_sync scenario_a_cfg 3 rfl rfl
    (by decide) (by decide) (by decide) (by decide) (by decide)
    (by
      simp only [scenario_a_cfg]
      rw [hd]
      norm_num [mid_cycle_sync])
  refine ⟨hd, ?_⟩
  rw [h.2.2.2]
  simp only [scenario_a_cfg]
  rw [hd]
  have r : round ((650 : ℚ) * (((mid_cycle_sync.tooth_period : ℕ) : ℚ)
      * ((((sync_config_t.mk 58).tooth_count : ℕ) : ℚ) + 2) / 360)) = 108333 := by
    rw [round_eq_floor_add_half, Int.floor_eq_iff]
    norm_num [mid_cycle_sync]
  rw [r]
  norm_num [ignition_dwell_voltage, clampf_local]
  rfl

/-! ## Scenario A -/

theorem scenario_a_current_angle : compute_current_angle_deg scenario_a_sync 58 = 0 := by
  unfold compute_current_angle_deg scenario_a_sync
  norm_num
  exact wrap_angle_720_of_mem 0 (by norm_num) (by norm_num)

theorem scenario_a_delta_cyl1 : spark_delta_deg ((150 : ℕ) / 10) 0 1 = 705 := by
  unfold spark_delta_deg
  have e : wrap_angle_720 (g_cyl_tdc_deg (1 - 1) - ((150 : ℕ) : ℚ) / 10) = 705 :=
    wrap_angle_720_unique _ 705 1 (by norm_num) (by norm_num) (by norm_num [g_cyl_tdc_deg])
  rw [e]
  norm_num

theorem scenario_a_us_per_deg :
    sync_us_per_degree (some scenario_a_sync) (some scenario_a_cfg) = 500 / 3 := by
  rw [sync_us_per_degree_eq scenario_a_sync scenario_a_cfg (by decide) (by decide) (by decide)]
  norm_num [scenario_a_sync, scenario_a_cfg]

theorem scenario_a_first_call (sensor_read : Option sensor_data_t) :
    (ignition_apply_timing 150 1000 sensor_read (some scenario_a_sync) (some scenario_a_cfg))[0]?
      = some (hw_call.ignition_schedule_one_shot 1 117500 1000
          (ignition_dwell_voltage sensor_read)) := by
  rw [apply_timing_sync_eq 150 1000 sensor_read scenario_a_sync scenario_a_cfg rfl rfl
    (by decide) (by decide) (by decide)]
  simp only [scenario_a_cfg, List.map_cons, List.getElem?_cons_zero]
  rw [scenario_a_current_angle, scenario_a_delta_cyl1]
  have v : f32_to_u32 ((705 : ℚ) * (((scenario_a_sync.tooth_period : ℕ) : ℚ)
      * ((58 : ℕ) + 2) / 360) + 1 / 2) = 117500 := by
    norm_num [f32_to_u32, scenario_a_sync]
    rfl
  rw [v]

/-- C7, as stated, fails on the code. In scenario A the code computes
`us_per_deg = 1000 * 60 / 360`, about 166.667 us, not about 2.778 us, and the
delay it hands over for cylinder 1 is not within 1 us of 1959 us. -/
theorem scenario_a_claim_fails :
    ¬ (|sync_us_per_degree (some scenario_a_sync) (some scenario_a_cfg) - 2778 / 1000|
        ≤ 1 / 1000) ∧
    ¬ (∃ (d : ℕ) (v : ℚ),
        (ignition_apply_timing 150 1000 none (some scenario_a_sync) (some scenario_a_cfg))[0]?
          = some (hw_call.ignition_schedule_one_shot 1 d 1000 v) ∧ 1958 ≤ d ∧ d ≤ 1960) := by
  constructor
  · rw [scenario_a_us_per_deg]
    norm_num [abs_le]
  · rintro ⟨d, v, h, h1, h2⟩
    rw [scenario_a_first_call] at h
    simp only [Option.some.injEq, hw_call.ignition_schedule_one_shot.injEq] at h
    omega

/-- C7, amended. Scenario A: with a 58-tooth (60-2) wheel, tooth period
1000 us, tooth index 0, revolution 0 and `advance_deg10 = 150`, the scheduler
computes `us_per_deg = 1000 * 60 / 360 = 500/3` (about 166.667 us) and, for
cylinder 1 (TDC 0 degrees, angle to spark 705 degrees), a spark delay of
exactly 117500 us. -/
theorem scenario_a_amended (sensor_read : Option sensor_data_t) :
    sync_us_per_degree (some scenario_a_sync) (some scenario_a_cfg) = 500 / 3 ∧
    spark_delta_deg ((150 : ℕ) / 10)
      (compute_current_angle_deg scenario_a_sync scenario_a_cfg.tooth_count) 1 = 705 ∧
    (ignition_apply_timing 150 1000 sensor_read (some scenario_a_sync) (some scenario_a_cfg))[0]?
      = some (hw_call.ignition_schedule_one_shot 1 117500 1000
          (ignition_dwell_voltage sensor_read)) := by
  refine ⟨scenario_a_us_per_deg, ?_, scenario_a_first_call sensor_read⟩
  simp only [scenario_a_cfg]
  rw [scenario_a_current_angle]
  exact scenario_a_delta_cyl1

/-! ## End-of-injection scheduling (release S3 build) -/

theorem delta_eq_wrap_720 (a b : ℚ) (ha0 : 0 ≤ a) (ha1 : a < 720) (hb0 : 0 ≤ b) (hb1 : b < 720) :
    (if a - b < 0 then a - b + 720 else a - b) = wrap_angle_720 (a - b) := by
  split_ifs with h
  · exact (wrap_angle_720_unique (a - b) (a - b + 720) 1 (by linarith) (by linarith)
      (by push_cast; ring)).symm
  · exact (wrap_angle_720_of_mem (a - b) (by linarith) (by linarith)).symm

theorem schedule_eoi_ex_unfold (g : fuel_injection_config_t) (cyl : ℕ) (target : ℚ) (pw : ℕ)
    (sd : sync_data_t) (cfg : sync_config_t) (hc1 : 1 ≤ cyl) (hc4 : cyl ≤ 4)
    (hus : 0 < sync_us_per_degree (some sd) (some cfg)) :
    fuel_injection_schedule_eoi_ex g cyl target pw (some sd) (some cfg)
      = some
          (fuel_injection_schedule_info_t.mk
            (wrap_angle_720 (target + g.cyl_tdc_deg (cyl - 1)))
            (wrap_angle_720 (wrap_angle_720 (target + g.cyl_tdc_deg (cyl - 1))
              - (pw : ℚ) / sync_us_per_degree (some sd) (some cfg)))
            (f32_to_u32
              (wrap_angle_720
                  (wrap_angle_720 (wrap_angle_720 (target + g.cyl_tdc_deg (cyl - 1))
                      - (pw : ℚ) / sync_us_per_degree (some sd) (some cfg))
                    - compute_current_angle_deg sd cfg.tooth_count)
                * sync_us_per_degree (some sd) (some cfg) + 1 / 2)),
           hw_call.injection_schedule_one_shot (cyl - 1)
            (f32_to_u32
              (wrap_angle_720
                  (wrap_angle_720 (wrap_angle_720 (target + g.cyl_tdc_deg (cyl - 1))
                      - (pw : ℚ) / sync_us_per_degree (some sd) (some cfg))
                    - compute_current_angle_deg sd cfg.tooth_count)
                * sync_us_per_degree (some sd) (some cfg) + 1 / 2))
            pw) := by
  have htc : cfg.tooth_count ≠ 0 := by
    intro h0
    simp [sync_us_per_degree, h0] at hus
  obtain ⟨a0, a1⟩ := current_angle_range sd cfg.tooth_count
  obtain ⟨s0, s1, _⟩ := wrap_angle_720_spec
    (wrap_angle_720 (target + g.cyl_tdc_deg (cyl - 1))
      - (pw : ℚ) / sync_us_per_degree (some sd) (some cfg))
  simp only [fuel_injection_schedule_eoi_ex]
  rw [if_neg (by omega), if_neg htc, if_neg (not_le.mpr hus)]
  rw [delta_eq_wrap_720 _ _ s0 s1 a0 a1]

/-- C8. For every `cylinder_id` in 1..4, target EOI angle, pulse width and sync
state with `us_per_deg > 0`, `fuel_injection_schedule_eoi_ex` (release S3
build) computes `eoi_deg = wrap_720(target_eoi_deg + cyl_tdc_deg[cylinder_id-1])`
and `soi_deg = wrap_720(eoi_deg - pulsewidth_us/us_per_deg)`, both in
`[0, 720)`, so that `soi_deg + pulsewidth_us/us_per_deg` is congruent to
`eoi_deg` modulo 720, and schedules the injector of that cylinder with delay
`round(wrap_720(soi_deg - current_angle) * us_per_deg)` (the delay fitting the
32-bit argument). -/
theorem schedule_eoi_ex_spec (g : fuel_injection_config_t) (cyl : ℕ) (target : ℚ) (pw : ℕ)
    (sd : sync_data_t) (cfg : sync_config_t) (hc1 : 1 ≤ cyl) (hc4 : cyl ≤ 4)
    (hus : 0 < sync_us_per_degree (some sd) (some cfg))
    (hfit : wrap_angle_720
          (wrap_angle_720 (wrap_angle_720 (target + g.cyl_tdc_deg (cyl - 1))
              - (pw : ℚ) / sync_us_per_degree (some sd) (some cfg))
            - compute_current_angle_deg sd cfg.tooth_count)
        * sync_us_per_degree (some sd) (some cfg) + 1 / 2 < 4294967296) :
    ∃ (info : fuel_injection_schedule_info_t) (call : hw_call),
      fuel_injection_schedule_eoi_ex g cyl target pw (some sd) (some cfg) = some (info, call) ∧
      info.eoi_deg = wrap_angle_720 (target + g.cyl_tdc_deg (cyl - 1)) ∧
      info.soi_deg
        = wrap_angle_720 (info.eoi_deg - (pw : ℚ) / sync_us_per_degree (some sd) (some cfg)) ∧
      (0 ≤ info.eoi_deg ∧ info.eoi_deg < 720) ∧
      (0 ≤ info.soi_deg ∧ info.soi_deg < 720) ∧
      (∃ k : ℤ, info.soi_deg + (pw : ℚ) / sync_us_per_degree (some sd) (some cfg)
        = info.eoi_deg + 720 * (k : ℚ)) ∧
      info.delay_us
        = Int.toNat (round
            (wrap_angle_720 (info.soi_deg - compute_current_angle_deg sd cfg.tooth_count)
              * sync_us_per_degree (some sd) (some cfg))) ∧
      call = hw_call.injection_schedule_one_shot (cyl - 1) info.delay_us pw := by
  obtain ⟨e0, e1, _⟩ := wrap_angle_720_spec (target + g.cyl_tdc_deg (cyl - 1))
  obtain ⟨s0, s1, k, sk⟩ := wrap_angle_720_spec
    (wrap_angle_720 (target + g.cyl_tdc_deg (cyl - 1))
      - (pw : ℚ) / sync_us_per_degree (some sd) (some cfg))
  obtain ⟨d0, _, _⟩ := wrap_angle_720_spec
    (wrap_angle_720 (wrap_angle_720 (target + g.cyl_tdc_deg (cyl - 1))
        - (pw : ℚ) / sync_us_per_degree (some sd) (some cfg))
      - compute_current_angle_deg sd cfg.tooth_count)
  refine ⟨_, _, schedule_eoi_ex_unfold g cyl target pw sd cfg hc1 hc4 hus,
    rfl, rfl, ⟨e0, e1⟩, ⟨s0, s1⟩, ⟨k, ?_⟩, ?_, rfl⟩
  · simp only []
    rw [sk]
    ring
  · exact f32_to_u32_round _ (mul_nonneg d0 hus.le) hfit

theorem eoi_example_angles :
    wrap_angle_720 ((360 : ℚ) + g_fuel_cfg_default.cyl_tdc_deg (2 - 1)) = 540 ∧
    wrap_angle_720 ((540 : ℚ) - ((5000 : ℕ) : ℚ) / (500 / 3)) = 510 ∧
    wrap_angle_720 ((510 : ℚ) - 0) = 510 :=
  ⟨wrap_angle_720_unique _ 540 0 (by norm_num) (by norm_num)
      (by norm_num [g_fuel_cfg_default, g_cyl_tdc_deg]),
   wrap_angle_720_unique _ 510 0 (by norm_num) (by norm_num) (by norm_num),
   wrap_angle_720_unique _ 510 0 (by norm_num) (by norm_num) (by norm_num)⟩

/-- C8 at a concrete input: cylinder 2, target EOI 360 degrees, a 5000 us pulse
on the wheel of scenario A (500/3 us per degree, crank at 0 degrees): EOI 540
degrees, SOI 510 degrees, injector channel 1 scheduled after 85000 us. -/
theorem schedule_eoi_ex_spec_witness :
    fuel_injection_schedule_eoi_ex g_fuel_cfg_default 2 360 5000 (some scenario_a_sync)
        (some scenario_a_cfg)
      = some (fuel_injection_schedule_info_t.mk 540 510 85000,
          hw_call.injection_schedule_one_shot 1 85000 5000) := by
  have hu := scenario_a_us_per_deg
  have hc : compute_current_angle_deg scenario_a_sync scenario_a_cfg.tooth_count = 0 :=
    scenario_a_current_angle
  obtain ⟨e1, e2, e3⟩ := eoi_example_angles
  obtain ⟨info, call, h, he, hs, _, _, _, hd, hcall⟩ :=
    schedule_eoi_ex_spec g_fuel_cfg_default 2 360 5000 scenario_a_sync scenario_a_cfg
      (by decide) (by decide) (by rw [hu]; norm_num)
      (by rw [hu, hc, e1, e2, e3]; norm_num)
  rw [hu, hc] at hd
  rw [hu] at hs
  rw [e1] at he
  rw [he, e2] at hs
  rw [hs, e3] at hd
  have r : Int.toNat (round ((510 : ℚ) * (500 / 3))) = 85000 := by
    have r0 : round ((510 : ℚ) * (500 / 3)) = 85000 := by
      rw [round_eq_floor_add_half, Int.floor_eq_iff]
      norm_num
    rw [r0]
    rfl
  rw [r] at hd
  rw [hd] at hcall
  rw [h, hcall]
  obtain ⟨a, b, c⟩ := info
  simp only at he hs hd
  rw [he, hs, hd]

/-! ## Start of injection in the P4 control path -/

theorem p4_example_current_angle :
    compute_current_angle_deg p4_example_sync 58 = 0 := by
  unfold compute_current_angle_deg p4_example_sync
  norm_num
  exact wrap_angle_720_of_mem 0 (by norm_num) (by norm_num)

theorem p4_example_current_angle_360 :
    P4.compute_current_angle_360 p4_example_sync_no_phase 58 = 0 := by
  unfold P4.compute_current_angle_360 p4_example_sync_no_phase
  norm_num
  exact wrap_angle_360_of_mem 0 (by norm_num) (by norm_num)

theorem p4_full_sync_injection_example :
    P4.fuel_injection_schedule_eoi g_fuel_cfg_default 1 360 1000 (some p4_example_sync)
        (some scenario_a_cfg)
      = some (hw_call.injection_schedule_one_shot 0 37000 1000) := by
  have e1 : wrap_angle_720 ((360 : ℚ) + g_fuel_cfg_default.cyl_tdc_deg (1 - 1)) = 360 :=
    wrap_angle_720_unique _ 360 0 (by norm_num) (by norm_num)
      (by norm_num [g_fuel_cfg_default, g_cyl_tdc_deg])
  have e2 : wrap_angle_720 ((360 : ℚ) + ((1000 : ℕ) : ℚ) / p4_example_sync.time_per_degree)
      = 370 :=
    wrap_angle_720_unique _ 370 0 (by norm_num) (by norm_num) (by norm_num [p4_example_sync])
  simp only [P4.fuel_injection_schedule_eoi, scenario_a_cfg]
  rw [p4_example_current_angle, e1, e2]
  norm_num [p4_example_sync, f32_to_u32]
  rfl

theorem p4_semi_seq_injection_example :
    P4.schedule_semi_seq_injection 1666 1000 1000 p4_example_sync_no_phase 360
        (some scenario_a_cfg)
      = [hw_call.injection_schedule_one_shot 0 1000 1000,
         hw_call.injection_schedule_one_shot 3 1000 1000,
         hw_call.injection_schedule_one_shot 1 19000 1000,
         hw_call.injection_schedule_one_shot 2 19000 1000] := by
  have e1 : wrap_angle_360 (360 : ℚ) = 0 :=
    wrap_angle_360_unique _ 0 (-1) (by norm_num) (by norm_num) (by norm_num)
  have e2 : wrap_angle_360 ((0 : ℚ)
      + ((1000 : ℕ) : ℚ) / p4_example_sync_no_phase.time_per_degree) = 10 :=
    wrap_angle_360_unique _ 10 0 (by norm_num) (by norm_num)
      (by norm_num [p4_example_sync_no_phase])
  have e3 : wrap_angle_360 ((360 : ℚ) + 180) = 180 :=
    wrap_angle_360_unique _ 180 (-1) (by norm_num) (by norm_num) (by norm_num)
  have e4 : wrap_angle_360 ((180 : ℚ)
      + ((1000 : ℕ) : ℚ) / p4_example_sync_no_phase.time_per_degree) = 190 :=
    wrap_angle_360_unique _ 190 0 (by norm_num) (by norm_num)
      (by norm_num [p4_example_sync_no_phase])
  simp only [P4.schedule_semi_seq_injection, scenario_a_cfg]
  rw [p4_example_current_angle_360, e1, e2, e3, e4]
  norm_num [p4_example_sync_no_phase, f32_to_u32]
  exact ⟨rfl, rfl⟩

/-- C9 on the code. With EOI target 360 degrees, a 1000 us pulse and 100 us per
degree (pulse width 10 degrees) at crank angle 0, the P4 full-sync scheduler
starts cylinder 1 after 37000 us, that is at 370 degrees, and the partial-sync
fallback starts the pairs after 1000 us and 19000 us, at 10 and 190 degrees:
both place SOI at `wrap(EOI + pw_deg)`. Placing it at `wrap(EOI - pw_deg)`
asks for 350 degrees (35000 us) in the 720 degree domain and for 350 and 170
degrees (35000 us and 17000 us) in the 360 degree domain. -/
theorem p4_soi_after_eoi :
    (P4.fuel_injection_schedule_eoi g_fuel_cfg_default 1 360 1000 (some p4_example_sync)
        (some scenario_a_cfg)
      = some (hw_call.injection_schedule_one_shot 0 37000 1000) ∧
     wrap_angle_720 ((360 : ℚ) - 1000 / 100) = 350 ∧
     f32_to_u32 ((350 : ℚ) * 100) = 35000) ∧
    (P4.schedule_semi_seq_injection 1666 1000 1000 p4_example_sync_no_phase 360
        (some scenario_a_cfg)
      = [hw_call.injection_schedule_one_shot 0 1000 1000,
         hw_call.injection_schedule_one_shot 3 1000 1000,
         hw_call.injection_schedule_one_shot 1 19000 1000,
         hw_call.injection_schedule_one_shot 2 19000 1000] ∧
     wrap_angle_360 ((0 : ℚ) - 1000 / 100) = 350 ∧
     wrap_angle_360 ((180 : ℚ) - 1000 / 100) = 170) := by
  refine ⟨⟨p4_full_sync_injection_example, ?_, ?_⟩, ⟨p4_semi_seq_injection_example, ?_, ?_⟩⟩
  · exact wrap_angle_720_unique _ 350 0 (by norm_num) (by norm_num) (by norm_num)
  · norm_num [f32_to_u32]
    rfl
  · exact wrap_angle_360_unique _ 350 1 (by norm_num) (by norm_num) (by norm_num)
  · exact wrap_angle_360_unique _ 170 0 (by norm_num) (by norm_num) (by norm_num)

/-! ## Arming order of a control cycle (P4) -/

theorem p4_injection_calls_shape (g : fuel_injection_config_t) (eoi : ℚ) (pw : ℕ)
    (sd : sync_data_t) (cfg_read : Option sync_config_t) :
    ([1, 2, 3, 4].filterMap fun cyl =>
        P4.fuel_injection_schedule_eoi g cyl eoi pw (some sd) cfg_read) = [] ∨
    ∃ d1 d2 d3 d4 : ℕ,
      ([1, 2, 3, 4].filterMap fun cyl =>
        P4.fuel_injection_schedule_eoi g cyl eoi pw (some sd) cfg_read)
        = [hw_call.injection_schedule_one_shot 0 d1 pw,
           hw_call.injection_schedule_one_shot 1 d2 pw,
           hw_call.injection_schedule_one_shot 2 d3 pw,
           hw_call.injection_schedule_one_shot 3 d4 pw] := by
  cases cfg_read with
  | none => left; simp [P4.fuel_injection_schedule_eoi]
  | some cfg =>
    by_cases h1 : cfg.tooth_count = 0
    · left; simp [P4.fuel_injection_schedule_eoi, h1]
    · by_cases h2 : sd.time_per_degree = 0
      · left; simp [P4.fuel_injection_schedule_eoi, h2]
      · right
        simp only [P4.fuel_injection_schedule_eoi, h1, h2, if_false]
        exact ⟨_, _, _, _, rfl⟩

theorem p4_ignition_calls_shape (adv rpm : ℕ) (sync_read : Option sync_data_t)
    (cfg_read : Option sync_config_t) :
    (∀ c ∈ P4.ignition_apply_timing adv rpm sync_read cfg_read, c.is_coil = true) ∧
    (P4.ignition_apply_timing adv rpm sync_read cfg_read).map hw_call.cyl_index
      = [0, 1, 2, 3] := by
  unfold P4.ignition_apply_timing
  simp only []
  split_ifs <;> exact ⟨by simp [hw_call.is_coil], rfl⟩

theorem p4_semi_seq_calls_shape (rpm load pw : ℕ) (sd : sync_data_t) (eoi : ℚ)
    (cfg_read : Option sync_config_t) :
    (∀ c ∈ P4.schedule_semi_seq_injection rpm load pw sd eoi cfg_read, c.is_injector = true) ∧
    (P4.schedule_semi_seq_injection rpm load pw sd eoi cfg_read = [] ∨
      (P4.schedule_semi_seq_injection rpm load pw sd eoi cfg_read).map hw_call.cyl_index
        = [0, 3, 1, 2]) := by
  unfold P4.schedule_semi_seq_injection
  cases cfg_read with
  | none => simp
  | some cfg =>
    simp only []
    split_ifs <;> first
      | exact ⟨by simp [hw_call.is_injector], Or.inr rfl⟩
      | simp

theorem p4_wasted_spark_calls_shape (adv rpm : ℕ) (sd : sync_data_t)
    (cfg_read : Option sync_config_t) :
    (∀ c ∈ P4.schedule_wasted_spark adv rpm sd cfg_read, c.is_coil = true) ∧
    (P4.schedule_wasted_spark adv rpm sd cfg_read = [] ∨
      (P4.schedule_wasted_spark adv rpm sd cfg_read).map hw_call.cyl_index = [0, 3, 1, 2]) := by
  unfold P4.schedule_wasted_spark
  cases cfg_read with
  | none => simp
  | some cfg =>
    simp only []
    split_ifs <;> first
      | exact ⟨by simp [hw_call.is_coil], Or.inr rfl⟩
      | simp

theorem coil_not_injector (c : hw_call) (h : c.is_coil = true) : c.is_injector = false := by
  cases c <;> simp_all [hw_call.is_coil, hw_call.is_injector]

theorem injector_not_coil (c : hw_call) (h : c.is_injector = true) : c.is_coil = false := by
  cases c <;> simp_all [hw_call.is_coil, hw_call.is_injector]

theorem filter_injectors_then_coils (a b : List hw_call)
    (ha : ∀ c ∈ a, c.is_injector = true) (hb : ∀ c ∈ b, c.is_coil = true) :
    (a ++ b).filter hw_call.is_injector = a ∧ (a ++ b).filter hw_call.is_coil = b := by
  have a1 : a.filter hw_call.is_injector = a := List.filter_eq_self.mpr ha
  have a2 : a.filter hw_call.is_coil = [] :=
    List.filter_eq_nil_iff.mpr fun c hc => by simp [injector_not_coil c (ha c hc)]
  have b1 : b.filter hw_call.is_coil = b := List.filter_eq_self.mpr hb
  have b2 : b.filter hw_call.is_injector = [] :=
    List.filter_eq_nil_iff.mpr fun c hc => by simp [coil_not_injector c (hb c hc)]
  rw [List.filter_append, List.filter_append, a1, a2, b1, b2]
  simp

theorem wrap_angle_720_eq (a : ℚ) : wrap_angle_720 a = a - 720 * (⌊a / 720⌋ : ℚ) := by
  have h1 : (⌊a / 720⌋ : ℚ) ≤ a / 720 := Int.floor_le _
  have h2 : a / 720 < (⌊a / 720⌋ : ℚ) + 1 := Int.lt_floor_add_one _
  rw [le_div_iff₀ (by norm_num)] at h1
  rw [div_lt_iff₀ (by norm_num)] at h2
  exact wrap_angle_720_unique a _ (-⌊a / 720⌋) (by linarith) (by linarith)
    (by push_cast; ring)

theorem wrap_angle_360_eq (a : ℚ) : wrap_angle_360 a = a - 360 * (⌊a / 360⌋ : ℚ) := by
  have h1 : (⌊a / 360⌋ : ℚ) ≤ a / 360 := Int.floor_le _
  have h2 : a / 360 < (⌊a / 360⌋ : ℚ) + 1 := Int.lt_floor_add_one _
  rw [le_div_iff₀ (by norm_num)] at h1
  rw [div_lt_iff₀ (by norm_num)] at h2
  exact wrap_angle_360_unique a _ (-⌊a / 360⌋) (by linarith) (by linarith)
    (by push_cast; ring)

theorem p4_full_sync_injection_calls :
    P4.fuel_injection_schedule_eoi g_fuel_cfg_default 1 360 1000 (some p4_example_sync)
        (some scenario_a_cfg) = some (hw_call.injection_schedule_one_shot 0 37000 1000) ∧
    P4.fuel_injection_schedule_eoi g_fuel_cfg_default 2 360 1000 (some p4_example_sync)
        (some scenario_a_cfg) = some (hw_call.injection_schedule_one_shot 1 55000 1000) ∧
    P4.fuel_injection_schedule_eoi g_fuel_cfg_default 3 360 1000 (some p4_example_sync)
        (some scenario_a_cfg) = some (hw_call.injection_schedule_one_shot 2 1000 1000) ∧
    P4.fuel_injection_schedule_eoi g_fuel_cfg_default 4 360 1000 (some p4_example_sync)
        (some scenario_a_cfg) = some (hw_call.injection_schedule_one_shot 3 19000 1000) := by
  refine ⟨?_, ?_, ?_, ?_⟩ <;>
  · norm_num [P4.fuel_injection_schedule_eoi, compute_current_angle_deg, wrap_angle_720_eq,
      f32_to_u32, p4_example_sync, scenario_a_cfg, g_fuel_cfg_default, g_cyl_tdc_deg]
    rfl

theorem p4_full_sync_ignition_calls :
    P4.ignition_apply_timing 150 1666 (some p4_example_sync) (some scenario_a_cfg)
      = [hw_call.ignition_schedule_one_shot 1 70500 1666 (27 / 2),
         hw_call.ignition_schedule_one_shot 2 16500 1666 (27 / 2),
         hw_call.ignition_schedule_one_shot 3 34500 1666 (27 / 2),
         hw_call.ignition_schedule_one_shot 4 52500 1666 (27 / 2)] := by
  norm_num [P4.ignition_apply_timing, compute_current_angle_deg, wrap_angle_720_eq,
    f32_to_u32, p4_example_sync, scenario_a_cfg, g_cyl_tdc_deg]
  decide

theorem p4_full_sync_trace_example :
    P4.engine_control_run_cycle_arm g_fuel_cfg_default 360 360 1666 1000 150 1000
        p4_example_sync (some p4_example_sync) (some scenario_a_cfg)
      = [hw_call.injection_schedule_one_shot 0 37000 1000,
         hw_call.injection_schedule_one_shot 1 55000 1000,
         hw_call.injection_schedule_one_shot 2 1000 1000,
         hw_call.injection_schedule_one_shot 3 19000 1000,
         hw_call.ignition_schedule_one_shot 1 70500 1666 (27 / 2),
         hw_call.ignition_schedule_one_shot 2 16500 1666 (27 / 2),
         hw_call.ignition_schedule_one_shot 3 34500 1666 (27 / 2),
         hw_call.ignition_schedule_one_shot 4 52500 1666 (27 / 2)] := by
  obtain ⟨h1, h2, h3, h4⟩ := p4_full_sync_injection_calls
  unfold P4.engine_control_run_cycle_arm
  rw [if_pos (show p4_example_sync.sync_acquired = true from rfl),
    p4_full_sync_ignition_calls]
  simp only [List.filterMap_cons, List.filterMap_nil, h1, h2, h3, h4]
  rfl

theorem p4_wasted_spark_example :
    P4.schedule_wasted_spark 150 1666 p4_example_sync_no_phase (some scenario_a_cfg)
      = [hw_call.ignition_schedule_one_shot 1 34500 1666 (27 / 2),
         hw_call.ignition_schedule_one_shot 4 34500 1666 (27 / 2),
         hw_call.ignition_schedule_one_shot 2 16500 1666 (27 / 2),
         hw_call.ignition_schedule_one_shot 3 16500 1666 (27 / 2)] := by
  norm_num [P4.schedule_wasted_spark, P4.compute_current_angle_360, wrap_angle_360_eq,
    f32_to_u32, p4_example_sync_no_phase, scenario_a_cfg]
  decide

theorem p4_fallback_trace_example :
    P4.engine_control_run_cycle_arm g_fuel_cfg_default 360 360 1666 1000 150 1000
        p4_example_sync_no_phase (some p4_example_sync_no_phase) (some scenario_a_cfg)
      = [hw_call.injection_schedule_one_shot 0 1000 1000,
         hw_call.injection_schedule_one_shot 3 1000 1000,
         hw_call.injection_schedule_one_shot 1 19000 1000,
         hw_call.injection_schedule_one_shot 2 19000 1000,
         hw_call.ignition_schedule_one_shot 1 34500 1666 (27 / 2),
         hw_call.ignition_schedule_one_shot 4 34500 1666 (27 / 2),
         hw_call.ignition_schedule_one_shot 2 16500 1666 (27 / 2),
         hw_call.ignition_schedule_one_shot 3 16500 1666 (27 / 2)] := by
  unfold P4.engine_control_run_cycle_arm
  rw [if_neg (show ¬ p4_example_sync_no_phase.sync_acquired = true by decide),
    p4_semi_seq_injection_example, p4_wasted_spark_example]
  rfl

theorem not_spec_arming_order_of_injector_first (c0 cl : hw_call) (mid : List hw_call)
    (h0 : c0.is_coil = false) (hl : cl.is_injector = false) :
    ¬ spec_arming_order (c0 :: (mid ++ [cl])) := by
  rintro ⟨⟨coils, injectors, h, hc, hi⟩, _, _⟩
  cases coils with
  | nil =>
    rw [List.nil_append] at h
    have m : cl ∈ injectors := by
      rw [← h]
      simp
    rw [hi cl m] at hl
    exact Bool.noConfusion hl
  | cons c cs =>
    rw [List.cons_append, List.cons.injEq] at h
    have m := hc c (List.mem_cons_self _ _)
    rw [← h.1, h0] at m
    exact Bool.noConfusion m

/-- C10, as stated, fails on the code. In a full-sync cycle (crank at 0
degrees, 100 us per degree, EOI target 360 degrees, 1000 us pulse, 15 degrees
of advance) and in the same cycle without cam phase, the first call issued
arms an injector and the last one a coil, so the coils are not armed before
the injectors. -/
theorem arming_order_claim_fails :
    ¬ spec_arming_order
        (P4.engine_control_run_cycle_arm g_fuel_cfg_default 360 360 1666 1000 150 1000
          p4_example_sync (some p4_example_sync) (some scenario_a_cfg)) ∧
    ¬ spec_arming_order
        (P4.engine_control_run_cycle_arm g_fuel_cfg_default 360 360 1666 1000 150 1000
          p4_example_sync_no_phase (some p4_example_sync_no_phase) (some scenario_a_cfg)) := by
  rw [p4_full_sync_trace_example, p4_fallback_trace_example]
  exact ⟨not_spec_arming_order_of_injector_first _ _
      [hw_call.injection_schedule_one_shot 1 55000 1000,
       hw_call.injection_schedule_one_shot 2 1000 1000,
       hw_call.injection_schedule_one_shot 3 19000 1000,
       hw_call.ignition_schedule_one_shot 1 70500 1666 (27 / 2),
       hw_call.ignition_schedule_one_shot 2 16500 1666 (27 / 2),
       hw_call.ignition_schedule_one_shot 3 34500 1666 (27 / 2)] rfl rfl,
    not_spec_arming_order_of_injector_first _ _
      [hw_call.injection_schedule_one_shot 3 1000 1000,
       hw_call.injection_schedule_one_shot 1 19000 1000,
       hw_call.injection_schedule_one_shot 2 19000 1000,
       hw_call.ignition_schedule_one_shot 1 34500 1666 (27 / 2),
       hw_call.ignition_schedule_one_shot 4 34500 1666 (27 / 2),
       hw_call.ignition_schedule_one_shot 2 16500 1666 (27 / 2)] rfl rfl⟩

/-- C10, amended. In every control cycle that arms outputs,
`engine_control_run_cycle` issues all injector arm calls before any coil arm
call. In the full-sync branch each group is armed in ascending cylinder
order (the coils as cylinders 1, 2, 3, 4); in the partial-sync fallback each
group, when armed at all, is armed pair by pair, in the order of the cylinder
indices 0, 3, 1, 2. -/
theorem arming_order_amended (g : fuel_injection_config_t) (eoi eoi_fallback : ℚ)
    (rpm load adv pw : ℕ) (sd : sync_data_t) (sync_read : Option sync_data_t)
    (cfg_read : Option sync_config_t) (tr : List hw_call)
    (htr : tr = P4.engine_control_run_cycle_arm g eoi eoi_fallback rpm load adv pw sd
      sync_read cfg_read) :
    tr = tr.filter hw_call.is_injector ++ tr.filter hw_call.is_coil ∧
    (sd.sync_acquired = true →
      (injector_order tr).Sorted (fun a b => a < b) ∧ coil_order tr = [0, 1, 2, 3]) ∧
    (sd.sync_acquired = false →
      (injector_order tr = [] ∨ injector_order tr = [0, 3, 1, 2]) ∧
      (coil_order tr = [] ∨ coil_order tr = [0, 3, 1, 2])) := by
  cases hacq : sd.sync_acquired with
  | true =>
    have e : tr = ([1, 2, 3, 4].filterMap fun cyl =>
          P4.fuel_injection_schedule_eoi g cyl eoi pw (some sd) cfg_read)
        ++ P4.ignition_apply_timing adv rpm sync_read cfg_read := by
      rw [htr]
      unfold P4.engine_control_run_cycle_arm
      rw [if_pos hacq]
    obtain ⟨hb, hbm⟩ := p4_ignition_calls_shape adv rpm sync_read cfg_read
    have ha : ∀ c ∈ ([1, 2, 3, 4].filterMap fun cyl =>
          P4.fuel_injection_schedule_eoi g cyl eoi pw (some sd) cfg_read),
        c.is_injector = true := by
      rcases p4_injection_calls_shape g eoi pw sd cfg_read with h | ⟨d1, d2, d3, d4, h⟩
      · rw [h]; simp
      · rw [h]; simp [hw_call.is_injector]
    obtain ⟨f1, f2⟩ := filter_injectors_then_coils _ _ ha hb
    refine ⟨?_, fun _ => ⟨?_, ?_⟩, fun h => Bool.noConfusion h⟩
    · rw [e, f1, f2]
    · unfold injector_order
      rw [e, f1]
      rcases p4_injection_calls_shape g eoi pw sd cfg_read with h | ⟨d1, d2, d3, d4, h⟩
      · rw [h]; simp
      · rw [h]; simp [hw_call.cyl_index]
    · unfold coil_order
      rw [e, f2, hbm]
  | false =>
    have e : tr = P4.schedule_semi_seq_injection rpm load pw sd eoi_fallback cfg_read
        ++ P4.schedule_wasted_spark adv rpm sd cfg_read := by
      rw [htr]
      unfold P4.engine_control_run_cycle_arm
      rw [if_neg (by rw [hacq]; decide)]
    obtain ⟨ha, hao⟩ := p4_semi_seq_calls_shape rpm load pw sd eoi_fallback cfg_read
    obtain ⟨hb, hbo⟩ := p4_wasted_spark_calls_shape adv rpm sd cfg_read
    obtain ⟨f1, f2⟩ := filter_injectors_then_coils _ _ ha hb
    refine ⟨?_, fun h => Bool.noConfusion h, fun _ => ⟨?_, ?_⟩⟩
    · rw [e, f1, f2]
    · unfold injector_order
      rw [e, f1]
      rcases hao with h | h
      · left; rw [h]; rfl
      · right; exact h
    · unfold coil_order
      rw [e, f2]
      rcases hbo with h | h
      · left; rw [h]; rfl
      · right; exact h

/-- The amended C10 on the two example cycles: injectors 0, 1, 2, 3 then coils
0, 1, 2, 3 with full sync; injectors 0, 3, 1, 2 then coils 0, 3, 1, 2 in the
fallback. -/
theorem arming_order_amended_witness :
    (p4_example_sync.sync_acquired = true ∧
      injector_order
        (P4.engine_control_run_cycle_arm g_fuel_cfg_default 360 360 1666 1000 150 1000
          p4_example_sync (some p4_example_sync) (some scenario_a_cfg)) = [0, 1, 2, 3] ∧
      coil_order
        (P4.engine_control_run_cycle_arm g_fuel_cfg_default 360 360 1666 1000 150 1000
          p4_example_sync (some p4_example_sync) (some scenario_a_cfg)) = [0, 1, 2, 3]) ∧
    (p4_example_sync_no_phase.sync_acquired = false ∧
      injector_order
        (P4.engine_control_run_cycle_arm g_fuel_cfg_default 360 360 1666 1000 150 1000
          p4_example_sync_no_phase (some p4_example_sync_no_phase) (some scenario_a_cfg))
        = [0, 3, 1, 2] ∧
      coil_order
        (P4.engine_control_run_cycle_arm g_fuel_cfg_default 360 360 1666 1000 150 1000
          p4_example_sync_no_phase (some p4_example_sync_no_phase) (some scenario_a_cfg))
        = [0, 3, 1, 2]) := by
  have w1 := arming_order_amended g_fuel_cfg_default 360 360 1666 1000 150 1000
    p4_example_sync (some p4_example_sync) (some scenario_a_cfg) _ rfl
  refine ⟨⟨rfl, ?_, (w1.2.1 rfl).2⟩, ⟨rfl, ?_, ?_⟩⟩
  · rw [p4_full_sync_trace_example]
    rfl
  · rw [p4_fallback_trace_example]
    rfl
  · rw [p4_fallback_trace_example]
    rfl

/-! ## Absolute-compare arming: late commands -/

theorem ignition_hp_none_of_late (ini : Bool) (cyl target rpm : ℕ) (v : ℚ) (counter : ℕ)
    (h : target ≤ counter) :
    mcpwm_ignition_hp_schedule_one_shot_absolute ini cyl target rpm v counter = none := by
  unfold mcpwm_ignition_hp_schedule_one_shot_absolute
  split_ifs <;> rfl

theorem injection_hp_none_of_late (ini : Bool) (cfg : mcpwm_injection_config_t)
    (cyl delay pw counter : ℕ) (h : delay ≤ counter) :
    mcpwm_injection_hp_schedule_one_shot_absolute ini cfg cyl delay pw counter = none := by
  unfold mcpwm_injection_hp_schedule_one_shot_absolute
  split_ifs <;> rfl

theorem ignition_hp_some_of_future (cyl target rpm : ℕ) (v : ℚ) (counter : ℕ)
    (hc1 : 1 ≤ cyl) (hc4 : cyl ≤ 4) (hr : rpm ≠ 0) (h : counter < target) :
    mcpwm_ignition_hp_schedule_one_shot_absolute true cyl target rpm v counter
      = some (ign_hp_abs_t.mk (adjust_dwell_for_rpm_hp (calculate_dwell_time_hp v) rpm)
          (target - ignition_hp_dwell_ticks v rpm) target counter) := by
  unfold mcpwm_ignition_hp_schedule_one_shot_absolute ignition_hp_dwell_ticks
  have g : ¬ ((true = false) ∨ cyl < 1 ∨ cyl > 4 ∨ rpm = 0) := by
    simp only [Bool.true_eq_false, false_or]
    omega
  rw [if_neg g]
  simp only []
  rw [if_neg (by omega)]
  congr 2
  split_ifs with h2
  · rfl
  · omega

theorem injection_hp_some_of_future (cfg : mcpwm_injection_config_t) (cyl delay pw counter : ℕ)
    (hc : cyl < 4) (h : counter < delay) :
    mcpwm_injection_hp_schedule_one_shot_absolute true cfg cyl delay pw counter
      = some (inj_hp_abs_t.mk delay
          ((delay + clamp_u32_hp pw cfg.min_pulsewidth_us cfg.max_pulsewidth_us) % 4294967296)
          (clamp_u32_hp pw cfg.min_pulsewidth_us cfg.max_pulsewidth_us) counter) := by
  unfold mcpwm_injection_hp_schedule_one_shot_absolute
  have g : ¬ ((true = false) ∨ cyl ≥ 4) := by
    simp only [Bool.true_eq_false, false_or]
    omega
  rw [if_neg g]
  simp only []
  rw [if_neg (by omega)]

theorem ignition_hp_example_3500 :
    mcpwm_ignition_hp_schedule_one_shot_absolute true 1 3500 3000 (27 / 2) 1000
      = some (ign_hp_abs_t.mk 3 500 3500 1000) := by
  norm_num [mcpwm_ignition_hp_schedule_one_shot_absolute, calculate_dwell_time_hp,
    adjust_dwell_for_rpm_hp, f32_to_u32]
  decide

theorem injection_hp_example_1010 :
    mcpwm_injection_hp_schedule_one_shot_absolute true g_cfg_hp_default 0 1010 2000 1000
      = some (inj_hp_abs_t.mk 1010 3010 2000 1000) := by
  decide
/-- C11, as stated, fails on the code. The injector driver accepts a rise
edge only 10 us ahead of the counter (1010 against 1000), and the ignition
driver accepts a command whose dwell start (500) is already behind the
counter (1000): neither applies the 50 us lead. -/
theorem late_arm_claim_fails :
    (1010 ≤ 1000 + SPEC_MIN_LEAD_US ∧
      mcpwm_injection_hp_schedule_one_shot_absolute true g_cfg_hp_default 0 1010 2000 1000
        = some (inj_hp_abs_t.mk 1010 3010 2000 1000)) ∧
    (500 ≤ 1000 + SPEC_MIN_LEAD_US ∧
      mcpwm_ignition_hp_schedule_one_shot_absolute true 1 3500 3000 (27 / 2) 1000
        = some (ign_hp_abs_t.mk 3 500 3500 1000)) :=
  ⟨⟨by decide, injection_hp_example_1010⟩, ⟨by decide, ignition_hp_example_3500⟩⟩

/-- C11, amended. The absolute-compare arm operations reject late commands by
comparing the target with the counter: `mcpwm_ignition_hp_schedule_one_shot_absolute`
returns false whenever the spark target `target_us` is `<= current_counter`, and
`mcpwm_injection_hp_schedule_one_shot_absolute` whenever `delay_us` is
`<= current_counter`, in both cases before any compare value is programmed. -/
theorem late_arm_amended :
    (∀ (ini : Bool) (cyl target rpm : ℕ) (v : ℚ) (counter : ℕ), target ≤ counter →
      mcpwm_ignition_hp_schedule_one_shot_absolute ini cyl target rpm v counter = none) ∧
    (∀ (ini : Bool) (cfg : mcpwm_injection_config_t) (cyl delay pw counter : ℕ),
      delay ≤ counter →
      mcpwm_injection_hp_schedule_one_shot_absolute ini cfg cyl delay pw counter = none) :=
  ⟨ignition_hp_none_of_late, injection_hp_none_of_late⟩

/-- The amended C11 at a target 100 us behind the counter. -/
theorem late_arm_amended_witness :
    (900 : ℕ) ≤ 1000 ∧
    mcpwm_ignition_hp_schedule_one_shot_absolute true 1 900 3000 (27 / 2) 1000 = none ∧
    mcpwm_injection_hp_schedule_one_shot_absolute true g_cfg_hp_default 0 900 2000 1000 = none :=
  ⟨by decide, late_arm_amended.1 true 1 900 3000 (27 / 2) 1000 (by decide),
    late_arm_amended.2 true g_cfg_hp_default 0 900 2000 1000 (by decide)⟩

/-! ## Absolute-compare arming: what counts as the future -/

/-- C12, as stated, fails on the code. The target 5 with the counter at
`2^32 - 16` is in the future by the wrap-aware test, yet both drivers reject
it; and the target 3000000000 with the counter at 10 is not in the future by
that test, yet the injector driver accepts it. -/
theorem wrap_aware_claim_fails :
    (spec_is_future 5 4294967280 ∧
      mcpwm_ignition_hp_schedule_one_shot_absolute true 1 5 3000 (27 / 2) 4294967280 = none ∧
      mcpwm_injection_hp_schedule_one_shot_absolute true g_cfg_hp_default 0 5 2000 4294967280
        = none) ∧
    (¬ spec_is_future 3000000000 10 ∧
      mcpwm_injection_hp_schedule_one_shot_absolute true g_cfg_hp_default 0 3000000000 2000 10
        = some (inj_hp_abs_t.mk 3000000000 3000002000 2000 10)) := by
  refine ⟨⟨?_, ?_, ?_⟩, ⟨?_, ?_⟩⟩
  · unfold spec_is_future
    decide
  · exact ignition_hp_none_of_late true 1 5 3000 (27 / 2) 4294967280 (by decide)
  · exact injection_hp_none_of_late true g_cfg_hp_default 0 5 2000 4294967280 (by decide)
  · unfold spec_is_future
    decide
  · decide

/-- C12, amended. The absolute-compare arm operations decide whether a target
is in the future by plain unsigned comparison: for every target and
`current_counter` (driver initialised, valid cylinder, non-zero rpm) the
command is accepted iff `target > current_counter`; in particular the target
5 with the counter at `2^32 - 16` is rejected. -/
theorem plain_compare_amended :
    (∀ (cyl target rpm : ℕ) (v : ℚ) (counter : ℕ), 1 ≤ cyl → cyl ≤ 4 → rpm ≠ 0 →
      ((mcpwm_ignition_hp_schedule_one_shot_absolute true cyl target rpm v counter).isSome
        = true ↔ counter < target)) ∧
    (∀ (cfg : mcpwm_injection_config_t) (cyl delay pw counter : ℕ), cyl < 4 →
      ((mcpwm_injection_hp_schedule_one_shot_absolute true cfg cyl delay pw counter).isSome
        = true ↔ counter < delay)) ∧
    mcpwm_ignition_hp_schedule_one_shot_absolute true 1 5 3000 (27 / 2) 4294967280 = none ∧
    mcpwm_injection_hp_schedule_one_shot_absolute true g_cfg_hp_default 0 5 2000 4294967280
      = none := by
  refine ⟨?_, ?_, ?_, ?_⟩
  · intro cyl target rpm v counter hc1 hc4 hr
    constructor
    · intro h
      by_contra hn
      rw [ignition_hp_none_of_late true cyl target rpm v counter (by omega)] at h
      exact Bool.noConfusion h
    · intro h
      rw [ignition_hp_some_of_future cyl target rpm v counter hc1 hc4 hr h]
      rfl
  · intro cfg cyl delay pw counter hc
    constructor
    · intro h
      by_contra hn
      rw [injection_hp_none_of_late true cfg cyl delay pw counter (by omega)] at h
      exact Bool.noConfusion h
    · intro h
      rw [injection_hp_some_of_future cfg cyl delay pw counter hc h]
      rfl
  · exact ignition_hp_none_of_late true 1 5 3000 (27 / 2) 4294967280 (by decide)
  · exact injection_hp_none_of_late true g_cfg_hp_default 0 5 2000 4294967280 (by decide)

/-- The amended C12 at cylinder 1, target 3500, counter 1000: accepted, and
3500 is above 1000. -/
theorem plain_compare_amended_witness :
    ((mcpwm_ignition_hp_schedule_one_shot_absolute true 1 3500 3000 (27 / 2) 1000).isSome
      = true ↔ 1000 < 3500) ∧
    ((mcpwm_injection_hp_schedule_one_shot_absolute true g_cfg_hp_default 0 1010 2000
      1000).isSome = true ↔ 1000 < 1010) :=
  ⟨plain_compare_amended.1 1 3500 3000 (27 / 2) 1000 (by decide) (by decide) (by decide),
    plain_compare_amended.2.1 g_cfg_hp_default 0 1010 2000 1000 (by decide)⟩

/-! ## Absolute-compare arming: the dwell start -/

theorem ignition_hp_dwell_ticks_pos (v : ℚ) (rpm : ℕ) : 0 < ignition_hp_dwell_ticks v rpm := by
  unfold ignition_hp_dwell_ticks calculate_dwell_time_hp adjust_dwell_for_rpm_hp
  split_ifs <;> norm_num [f32_to_u32] <;> decide

theorem ignition_hp_example_4000 :
    mcpwm_ignition_hp_schedule_one_shot_absolute true 1 4000 500 (21 / 2) 2000
      = some (ign_hp_abs_t.mk (207 / 40) 0 4000 2000) := by
  norm_num [mcpwm_ignition_hp_schedule_one_shot_absolute, calculate_dwell_time_hp,
    adjust_dwell_for_rpm_hp, f32_to_u32]
  decide

/-- C13, as stated, fails on the code. With the spark target at 4000, the
counter at 2000 and a dwell of 5175 ticks (10.5 V, 500 rpm) the call succeeds
and programs the dwell start 0: not `max(4000 - 5175, 2000 + 50) = 2050`, and
not after the current counter. -/
theorem dwell_start_claim_fails :
    ∃ r : ign_hp_abs_t,
      mcpwm_ignition_hp_schedule_one_shot_absolute true 1 4000 500 (21 / 2) 2000 = some r ∧
      ignition_hp_dwell_ticks (21 / 2) 500 = 5175 ∧
      r.cmp_dwell ≠ max (4000 - ignition_hp_dwell_ticks (21 / 2) 500) (2000 + SPEC_MIN_LEAD_US) ∧
      r.cmp_dwell ≤ 2000 := by
  have d : ignition_hp_dwell_ticks (21 / 2) 500 = 5175 := by
    norm_num [ignition_hp_dwell_ticks, calculate_dwell_time_hp, adjust_dwell_for_rpm_hp,
      f32_to_u32]
    rfl
  refine ⟨_, ignition_hp_example_4000, d, ?_, ?_⟩
  · rw [d]
    decide
  · decide

/-- C13, amended. Whenever `mcpwm_ignition_hp_schedule_one_shot_absolute`
succeeds, the dwell-start compare value it programs equals the spark target
minus the dwell ticks, saturated from below at 0; the spark compare value is
the target, the dwell start is strictly before the spark target, and the
spark target is after the current counter. -/
theorem dwell_start_amended (ini : Bool) (cyl target rpm : ℕ) (v : ℚ) (counter : ℕ)
    (r : ign_hp_abs_t)
    (h : mcpwm_ignition_hp_schedule_one_shot_absolute ini cyl target rpm v counter = some r) :
    r.cmp_dwell = target - ignition_hp_dwell_ticks v rpm ∧ r.cmp_spark = target ∧
      r.cmp_dwell < r.cmp_spark ∧ counter < r.cmp_spark := by
  have hlt : counter < target := by
    by_contra hn
    rw [ignition_hp_none_of_late ini cyl target rpm v counter (by omega)] at h
    exact Option.noConfusion h
  have hp := ignition_hp_dwell_ticks_pos v rpm
  unfold mcpwm_ignition_hp_schedule_one_shot_absolute at h
  split_ifs at h with h1 h2
  simp only [Option.some.injEq] at h
  rw [← h]
  unfold ignition_hp_dwell_ticks at hp ⊢
  dsimp only
  split_ifs <;> omega

/-- The amended C13 on two accepted commands: dwell start 500 for the target
3500 with 3000 dwell ticks, and dwell start 0 for the target 4000 with 5175. -/
theorem dwell_start_amended_witness :
    (mcpwm_ignition_hp_schedule_one_shot_absolute true 1 3500 3000 (27 / 2) 1000
        = some (ign_hp_abs_t.mk 3 500 3500 1000) ∧
      (ign_hp_abs_t.mk 3 500 3500 1000).cmp_dwell = 3500 - ignition_hp_dwell_ticks (27 / 2) 3000) ∧
    (mcpwm_ignition_hp_schedule_one_shot_absolute true 1 4000 500 (21 / 2) 2000
        = some (ign_hp_abs_t.mk (207 / 40) 0 4000 2000) ∧
      (ign_hp_abs_t.mk (207 / 40) 0 4000 2000).cmp_dwell
        = 4000 - ignition_hp_dwell_ticks (21 / 2) 500) :=
  ⟨⟨ignition_hp_example_3500,
    (dwell_start_amended true 1 3500 3000 (27 / 2) 1000 _ ignition_hp_example_3500).1⟩,
   ⟨ignition_hp_example_4000,
    (dwell_start_amended true 1 4000 500 (21 / 2) 2000 _ ignition_hp_example_4000).1⟩⟩

/-! ## Interpolation cache -/

theorem abs_u16_delta_le_iff (a b d : ℕ) :
    abs_u16_delta a b ≤ d ↔ |(a : ℤ) - (b : ℤ)| ≤ (d : ℤ) := by
  unfold abs_u16_delta
  rw [abs_le]
  split_ifs <;> omega

theorem cache_hit_iff (c : interp_cache_t) (t : table_16x16_t) (rpm load : ℕ) :
    (c.table_checksum = t.checksum ∧
        abs_u16_delta rpm c.last_rpm ≤ INTERP_CACHE_RPM_DEADBAND ∧
        abs_u16_delta load c.last_load ≤ INTERP_CACHE_LOAD_DEADBAND)
      ↔ spec_cache_hit c t rpm load := by
  unfold spec_cache_hit INTERP_CACHE_RPM_DEADBAND INTERP_CACHE_LOAD_DEADBAND
  rw [abs_u16_delta_le_iff, abs_u16_delta_le_iff]
  constructor
  · rintro ⟨h1, h2, h3⟩
    exact ⟨by exact_mod_cast h2, by exact_mod_cast h3, h1.symm⟩
  · rintro ⟨h1, h2, h3⟩
    exact ⟨h3.symm, by exact_mod_cast h1, by exact_mod_cast h2⟩

theorem lookup_hit (interp : table_16x16_t → ℕ → ℕ → ℕ) (t : table_16x16_t)
    (c : interp_cache_t) (rpm load : ℕ) (hv : c.valid = true)
    (hh : spec_cache_hit c t rpm load) :
    lookup_with_cache interp (some t) (some c) rpm load
      = lookup_result_t.mk c.last_result (some c) 0 := by
  unfold lookup_with_cache
  simp only []
  rw [if_pos ⟨hv, (cache_hit_iff c t rpm load).mpr hh⟩]

theorem lookup_miss (interp : table_16x16_t → ℕ → ℕ → ℕ) (t : table_16x16_t)
    (c : interp_cache_t) (rpm load : ℕ)
    (hm : c.valid = false ∨ ¬ spec_cache_hit c t rpm load) :
    lookup_with_cache interp (some t) (some c) rpm load
      = lookup_result_t.mk (interp t rpm load)
          (some (interp_cache_t.mk rpm load (interp t rpm load) t.checksum true)) 1 := by
  unfold lookup_with_cache
  simp only []
  rw [if_neg]
  rintro ⟨hv, hc⟩
  rcases hm with h | h
  · rw [h] at hv
    exact Bool.noConfusion hv
  · exact h ((cache_hit_iff c t rpm load).mp hc)

/-- C17. For a cache that already holds an entry, `lookup_with_cache` hits iff
`|rpm - last_rpm| <= 50`, `|load - last_load| <= 20` and the table checksum
equals the cached one; on a hit it returns `last_result` without calling
`table_16x16_interpolate` and leaves the cache unchanged; otherwise, and always
on a freshly reset cache, it calls `table_16x16_interpolate` once and stores
`(rpm, load, result, checksum)`. -/
theorem lookup_with_cache_spec (interp : table_16x16_t → ℕ → ℕ → ℕ) (t : table_16x16_t)
    (c : interp_cache_t) (rpm load : ℕ) :
    (c.valid = true →
      (((lookup_with_cache interp (some t) (some c) rpm load).interpolate_calls = 0
          ↔ spec_cache_hit c t rpm load) ∧
        (spec_cache_hit c t rpm load →
          lookup_with_cache interp (some t) (some c) rpm load
            = lookup_result_t.mk c.last_result (some c) 0) ∧
        (¬ spec_cache_hit c t rpm load →
          lookup_with_cache interp (some t) (some c) rpm load
            = lookup_result_t.mk (interp t rpm load)
                (some (interp_cache_t.mk rpm load (interp t rpm load) t.checksum true)) 1))) ∧
    lookup_with_cache interp (some t) (some interp_cache_reset) rpm load
      = lookup_result_t.mk (interp t rpm load)
          (some (interp_cache_t.mk rpm load (interp t rpm load) t.checksum true)) 1 := by
  refine ⟨fun hv => ⟨?_, lookup_hit interp t c rpm load hv,
    fun hm => lookup_miss interp t c rpm load (Or.inr hm)⟩,
    lookup_miss interp t interp_cache_reset rpm load (Or.inl rfl)⟩
  by_cases hh : spec_cache_hit c t rpm load
  · rw [lookup_hit interp t c rpm load hv hh]
    exact ⟨fun _ => hh, fun _ => rfl⟩
  · rw [lookup_miss interp t c rpm load (Or.inr hh)]
    exact ⟨fun h => absurd h Nat.one_ne_zero, fun h => absurd h hh⟩
theorem lookup_example_hit :
    spec_cache_hit (interp_cache_t.mk 1000 500 1010 0 true) example_table 1040 510 := by
  unfold spec_cache_hit
  refine ⟨?_, ?_, rfl⟩
  · simp only []
    norm_num [abs_le]
  · simp only []
    norm_num [abs_le]

/-- C17 on a filled cache `(1000, 500) -> 1010`: the query `(1040, 510)` on a
table with the cached checksum is a hit, returns 1010 and interpolates
nothing. -/
theorem lookup_with_cache_spec_witness :
    (interp_cache_t.mk 1000 500 1010 0 true).valid = true ∧
    spec_cache_hit (interp_cache_t.mk 1000 500 1010 0 true) example_table 1040 510 ∧
    lookup_with_cache example_interpolate (some example_table)
        (some (interp_cache_t.mk 1000 500 1010 0 true)) 1040 510
      = lookup_result_t.mk 1010 (some (interp_cache_t.mk 1000 500 1010 0 true)) 0 :=
  ⟨rfl, lookup_example_hit,
    ((lookup_with_cache_spec example_interpolate example_table
      (interp_cache_t.mk 1000 500 1010 0 true) 1040 510).1 rfl).2.1 lookup_example_hit⟩

/-! ## Lookups in sequence -/

theorem lookup_first_establishes (interp : table_16x16_t → ℕ → ℕ → ℕ) (t : table_16x16_t)
    (c : interp_cache_t) (rpm load : ℕ) :
    ∃ c1 : interp_cache_t,
      (lookup_with_cache interp (some t) (some c) rpm load).cache = some c1 ∧
      c1.valid = true ∧ c1.table_checksum = t.checksum ∧
      c1.last_result = (lookup_with_cache interp (some t) (some c) rpm load).value ∧
      (c.valid = false → c1.last_rpm = rpm ∧ c1.last_load = load) := by
  by_cases hv : c.valid = true
  · by_cases hh : spec_cache_hit c t rpm load
    · rw [lookup_hit interp t c rpm load hv hh]
      exact ⟨c, rfl, hv, hh.2.2.symm, rfl, fun h => absurd hv (by rw [h]; decide)⟩
    · rw [lookup_miss interp t c rpm load (Or.inr hh)]
      exact ⟨_, rfl, rfl, rfl, rfl, fun _ => ⟨rfl, rfl⟩⟩
  · rw [lookup_miss interp t c rpm load (Or.inl (by simpa using hv))]
    exact ⟨_, rfl, rfl, rfl, rfl, fun _ => ⟨rfl, rfl⟩⟩

theorem lookup_sequence_all_hits (interp : table_16x16_t → ℕ → ℕ → ℕ) (t : table_16x16_t)
    (c : interp_cache_t) (hv : c.valid = true) (hc : c.table_checksum = t.checksum)
    (qs : List (ℕ × ℕ))
    (hq : ∀ q ∈ qs, spec_within_deadband (c.last_rpm, c.last_load) q) :
    ∀ r ∈ lookup_sequence interp t c qs, r = lookup_result_t.mk c.last_result (some c) 0 := by
  induction qs with
  | nil =>
    intro r hr
    simp [lookup_sequence] at hr
  | cons q qs ih =>
    have hh : spec_cache_hit c t q.1 q.2 := by
      have h := hq q (List.mem_cons_self _ _)
      exact ⟨h.1, h.2, hc.symm⟩
    intro r hr
    unfold lookup_sequence at hr
    simp only [lookup_hit interp t c q.1 q.2 hv hh, Option.getD_some, List.mem_cons] at hr
    rcases hr with h | h
    · exact h
    · exact ih (fun q' hq' => hq q' (List.mem_cons_of_mem _ hq')) r h

theorem lookup_sequence_example :
    lookup_sequence example_interpolate example_table interp_cache_reset
        [(1120, 500), (1170, 500), (1220, 500)]
      = [lookup_result_t.mk 1010 (some (interp_cache_t.mk 1120 500 1010 0 true)) 1,
         lookup_result_t.mk 1010 (some (interp_cache_t.mk 1120 500 1010 0 true)) 0,
         lookup_result_t.mk 1020 (some (interp_cache_t.mk 1220 500 1020 0 true)) 1] := by
  decide

/-- C18, as stated, fails on the code. The queries (1120, 500), (1170, 500),
(1220, 500) are each within the deadband of the one before, yet the third
lookup is 100 rpm away from the cached entry (1120, 500): it interpolates
again and returns 1020 instead of the first value 1010. -/
theorem consecutive_deadband_claim_fails :
    List.Chain' spec_within_deadband [(1120, 500), (1170, 500), (1220, 500)] ∧
    lookup_sequence example_interpolate example_table interp_cache_reset
        [(1120, 500), (1170, 500), (1220, 500)]
      = [lookup_result_t.mk 1010 (some (interp_cache_t.mk 1120 500 1010 0 true)) 1,
         lookup_result_t.mk 1010 (some (interp_cache_t.mk 1120 500 1010 0 true)) 0,
         lookup_result_t.mk 1020 (some (interp_cache_t.mk 1220 500 1020 0 true)) 1] := by
  refine ⟨?_, lookup_sequence_example⟩
  simp only [List.chain'_cons, List.chain'_singleton, and_true]
  constructor <;>
  · unfold spec_within_deadband
    norm_num [abs_le]

/-- C18, amended. For every sequence of lookups on one unchanged table in
which each query after the first is within the cache deadband
(`|delta rpm| <= 50` and `|delta load| <= 20`) of the entry the cache holds
after the first lookup, every lookup after the first returns the value of
the first and performs no interpolation; on a reset cache that entry is the
first query itself. -/
theorem cache_sequence_amended (interp : table_16x16_t → ℕ → ℕ → ℕ) (t : table_16x16_t)
    (c : interp_cache_t) (q : ℕ × ℕ) (qs : List (ℕ × ℕ)) :
    (c.valid = false →
      (((lookup_with_cache interp (some t) (some c) q.1 q.2).cache.getD c).last_rpm,
        ((lookup_with_cache interp (some t) (some c) q.1 q.2).cache.getD c).last_load) = q) ∧
    ((∀ q' ∈ qs, spec_within_deadband
        (((lookup_with_cache interp (some t) (some c) q.1 q.2).cache.getD c).last_rpm,
          ((lookup_with_cache interp (some t) (some c) q.1 q.2).cache.getD c).last_load) q') →
      ∀ r ∈ (lookup_sequence interp t c (q :: qs)).tail,
        r.value = (lookup_with_cache interp (some t) (some c) q.1 q.2).value ∧
          r.interpolate_calls = 0) := by
  obtain ⟨c1, e1, hv, hc, hr, hfresh⟩ := lookup_first_establishes interp t c q.1 q.2
  rw [e1]
  simp only [Option.getD_some]
  constructor
  · intro h
    obtain ⟨a, b⟩ := hfresh h
    rw [a, b]
  · intro hq r hr'
    have hs : (lookup_sequence interp t c (q :: qs)).tail = lookup_sequence interp t c1 qs := by
      conv_lhs => unfold lookup_sequence
      simp only [e1, Option.getD_some, List.tail_cons]
    rw [hs] at hr'
    have e := lookup_sequence_all_hits interp t c1 hv hc qs hq r hr'
    rw [e, ← hr]
    exact ⟨rfl, rfl⟩

theorem lookup_sequence_example_near :
    lookup_sequence example_interpolate example_table interp_cache_reset
        [(1120, 500), (1150, 510), (1100, 480)]
      = [lookup_result_t.mk 1010 (some (interp_cache_t.mk 1120 500 1010 0 true)) 1,
         lookup_result_t.mk 1010 (some (interp_cache_t.mk 1120 500 1010 0 true)) 0,
         lookup_result_t.mk 1010 (some (interp_cache_t.mk 1120 500 1010 0 true)) 0] := by
  decide

theorem lookup_first_example :
    lookup_with_cache example_interpolate (some example_table) (some interp_cache_reset)
        1120 500
      = lookup_result_t.mk 1010 (some (interp_cache_t.mk 1120 500 1010 0 true)) 1 := by
  decide

/-- The amended C18 on the queries (1120, 500), (1150, 510), (1100, 480) from a
reset cache: both later queries are within the deadband of the first, and the
later lookups return the first value without interpolating. -/
theorem cache_sequence_amended_witness :
    lookup_sequence example_interpolate example_table interp_cache_reset
        [(1120, 500), (1150, 510), (1100, 480)]
      = [lookup_result_t.mk 1010 (some (interp_cache_t.mk 1120 500 1010 0 true)) 1,
         lookup_result_t.mk 1010 (some (interp_cache_t.mk 1120 500 1010 0 true)) 0,
         lookup_result_t.mk 1010 (some (interp_cache_t.mk 1120 500 1010 0 true)) 0] ∧
    (lookup_result_t.mk 1010 (some (interp_cache_t.mk 1120 500 1010 0 true)) 0).value
      = (lookup_with_cache example_interpolate (some example_table) (some interp_cache_reset)
          1120 500).value ∧
    (lookup_result_t.mk 1010 (some (interp_cache_t.mk 1120 500 1010 0 true)) 0).interpolate_calls
      = 0 := by
  refine ⟨lookup_sequence_example_near, ?_⟩
  apply (cache_sequence_amended example_interpolate example_table interp_cache_reset
    (1120, 500) [(1150, 510), (1100, 480)]).2
  · rw [lookup_first_example]
    intro q' hq'
    simp only [Option.getD_some, List.mem_cons, List.mem_singleton, List.not_mem_nil,
      or_false] at hq'
    rcases hq' with h | h <;> subst h <;>
    · unfold spec_within_deadband
      norm_num [abs_le]
  · rw [lookup_sequence_example_near]
    simp

/-! ## Over-rev check and limp latch (P4) -/

theorem activate_of_active (g : P4.limp_mode_t) (now_ms : ℕ) (h : g.active = true) :
    P4.safety_activate_limp_mode g now_ms = g := by
  unfold P4.safety_activate_limp_mode
  rw [if_neg (by rw [h]; decide)]

theorem activate_active (g : P4.limp_mode_t) (now_ms : ℕ) :
    (P4.safety_activate_limp_mode g now_ms).active = true := by
  unfold P4.safety_activate_limp_mode
  split_ifs with h
  · rfl
  · simpa using h

theorem over_rev_true_iff (g : P4.limp_mode_t) (rpm now_ms : ℕ) :
    (P4.safety_check_over_rev g rpm now_ms).1 = true ↔ 7500 ≤ rpm := by
  unfold P4.safety_check_over_rev P4.FUEL_CUTOFF_RPM P4.MAX_RPM
  split_ifs with h
  · exact ⟨fun _ => by omega, fun _ => rfl⟩
  · refine ⟨fun h1 => ?_, fun h1 => absurd (Or.inl h1) h⟩
    simp at h1

theorem over_rev_keeps_active (g : P4.limp_mode_t) (rpm now_ms : ℕ) (h : g.active = true) :
    (P4.safety_check_over_rev g rpm now_ms).2 = g := by
  unfold P4.safety_check_over_rev
  split_ifs
  · exact activate_of_active g now_ms h
  · rfl

theorem over_rev_calls_keep_active (g : P4.limp_mode_t) (cs : List (ℕ × ℕ))
    (h : g.active = true) : P4.over_rev_calls g cs = g := by
  induction cs with
  | nil => rfl
  | cons c cs ih =>
    unfold P4.over_rev_calls
    rw [over_rev_keeps_active g c.1 c.2 h]
    exact ih

/-- C15. `safety_check_over_rev(rpm)` returns true exactly when `rpm >= 7500`,
and limp mode is then active; a call that returns false leaves the limp-mode
state unchanged; once limp mode is active every further call, and every run of
calls, leaves the whole state (flag and activation time) as it is, so the mode
stays latched and the first activation time is kept. -/
theorem over_rev_latch :
    (∀ (g : P4.limp_mode_t) (rpm now_ms : ℕ),
      ((P4.safety_check_over_rev g rpm now_ms).1 = true ↔ 7500 ≤ rpm)) ∧
    (∀ (g : P4.limp_mode_t) (rpm now_ms : ℕ), 7500 ≤ rpm →
      (P4.safety_check_over_rev g rpm now_ms).2.active = true) ∧
    (∀ (g : P4.limp_mode_t) (rpm now_ms : ℕ),
      (P4.safety_check_over_rev g rpm now_ms).1 = false →
        (P4.safety_check_over_rev g rpm now_ms).2 = g) ∧
    (∀ (g : P4.limp_mode_t) (rpm now_ms : ℕ), g.active = true →
      (P4.safety_check_over_rev g rpm now_ms).2 = g) ∧
    (∀ (g : P4.limp_mode_t) (cs : List (ℕ × ℕ)), g.active = true →
      P4.over_rev_calls g cs = g) := by
  refine ⟨over_rev_true_iff, ?_, ?_, over_rev_keeps_active, over_rev_calls_keep_active⟩
  · intro g rpm now_ms h
    unfold P4.safety_check_over_rev P4.FUEL_CUTOFF_RPM
    rw [if_pos (Or.inl h)]
    exact activate_active g now_ms
  · intro g rpm now_ms h
    unfold P4.safety_check_over_rev at h ⊢
    split_ifs at h ⊢ with h1
    rfl

/-- C15 on a run from boot: over-rev at 7600 rpm at 1000 ms latches limp mode
with activation time 1000; a call at 7000 rpm and a second over-rev at 5000 ms
leave flag and time as they are. -/
theorem over_rev_latch_witness :
    (P4.safety_check_over_rev P4.g_limp_mode_init 7600 1000).1 = true ∧
    (P4.safety_check_over_rev P4.g_limp_mode_init 7600 1000).2
      = P4.limp_mode_t.mk true 3000 800 100 1000 1000 ∧
    P4.over_rev_calls (P4.limp_mode_t.mk true 3000 800 100 1000 1000) [(7000, 2000), (7700, 5000)]
      = P4.limp_mode_t.mk true 3000 800 100 1000 1000 :=
  ⟨(over_rev_latch.1 P4.g_limp_mode_init 7600 1000).mpr (by decide), by decide,
    over_rev_latch.2.2.2.2 (P4.limp_mode_t.mk true 3000 800 100 1000 1000)
      [(7000, 2000), (7700, 5000)] rfl⟩

/-! ## Trim bounds (P4 closed loop) -/

theorem clamp_float_bounds (v lo hi : ℚ) (h : lo ≤ hi) :
    lo ≤ P4.clamp_float v lo hi ∧ P4.clamp_float v lo hi ≤ hi := by
  unfold P4.clamp_float
  rw [ite_clamp_eq v lo hi h]
  exact spec_clamp_bounds v lo hi h

theorem apply_ltft_keeps_trims (checksum : table_16x16_t → ℕ) (st : P4.trim_state_t)
    (rpm load : ℕ) :
    (P4.apply_ltft_to_fuel_table checksum st rpm load).g_stft = st.g_stft ∧
    (P4.apply_ltft_to_fuel_table checksum st rpm load).g_ltft = st.g_ltft ∧
    (P4.apply_ltft_to_fuel_table checksum st rpm load).window = st.window := by
  unfold P4.apply_ltft_to_fuel_table
  exact ⟨rfl, rfl, rfl⟩

theorem maybe_persist_keeps_trims (st : P4.trim_state_t) (now_ms : ℕ) (save_ok : Bool) :
    (P4.maybe_persist_maps st now_ms save_ok).g_stft = st.g_stft ∧
    (P4.maybe_persist_maps st now_ms save_ok).g_ltft = st.g_ltft ∧
    (P4.maybe_persist_maps st now_ms save_ok).window = st.window := by
  unfold P4.maybe_persist_maps
  split_ifs <;> exact ⟨rfl, rfl, rfl⟩

theorem closed_loop_update_stft (checksum : table_16x16_t → ℕ) (st : P4.trim_state_t)
    (stft : ℚ) (rpm load now_ms : ℕ) (save_ok : Bool) :
    (P4.closed_loop_update checksum st stft rpm load now_ms save_ok).2.g_stft
      = P4.clamp_float stft (-P4.STFT_LIMIT) P4.STFT_LIMIT := by
  unfold P4.closed_loop_update
  simp only []
  rw [(maybe_persist_keeps_trims _ now_ms save_ok).1]
  split_ifs
  · dsimp only
    rw [(apply_ltft_keeps_trims checksum _ rpm load).1]
  · rfl
  · rfl

theorem closed_loop_update_ltft (checksum : table_16x16_t → ℕ) (st : P4.trim_state_t)
    (stft : ℚ) (rpm load now_ms : ℕ) (save_ok : Bool) :
    ((P4.ltft_can_update st.window rpm load now_ms).1 = false →
      (P4.closed_loop_update checksum st stft rpm load now_ms save_ok).2.g_ltft = st.g_ltft) ∧
    ((P4.ltft_can_update st.window rpm load now_ms).1 = true →
      -(1 / 5 : ℚ) ≤ (P4.closed_loop_update checksum st stft rpm load now_ms save_ok).2.g_ltft ∧
      (P4.closed_loop_update checksum st stft rpm load now_ms save_ok).2.g_ltft ≤ 1 / 5) := by
  unfold P4.closed_loop_update
  simp only []
  rw [(maybe_persist_keeps_trims _ now_ms save_ok).2.1]
  constructor
  · intro h
    rw [if_neg (by rw [h]; decide)]
  · intro h
    rw [if_pos h]
    have b := clamp_float_bounds
      (st.g_ltft + P4.LTFT_ALPHA
        * (P4.clamp_float stft (-P4.STFT_LIMIT) P4.STFT_LIMIT - st.g_ltft))
      (-P4.LTFT_LIMIT) P4.LTFT_LIMIT (by norm_num [P4.LTFT_LIMIT])
    unfold P4.LTFT_LIMIT at b
    split_ifs
    · norm_num
    · exact b

theorem closed_loop_update_corr (checksum : table_16x16_t → ℕ) (st : P4.trim_state_t)
    (stft : ℚ) (rpm load now_ms : ℕ) (save_ok : Bool) :
    -(1 / 4 : ℚ) ≤ (P4.closed_loop_update checksum st stft rpm load now_ms save_ok).1 ∧
      (P4.closed_loop_update checksum st stft rpm load now_ms save_ok).1 ≤ 1 / 4 := by
  unfold P4.closed_loop_update
  simp only []
  have b := clamp_float_bounds
  unfold P4.STFT_LIMIT
  exact b _ _ _ (by norm_num)

theorem closed_loop_update_bounds (checksum : table_16x16_t → ℕ) (st : P4.trim_state_t)
    (stft : ℚ) (rpm load now_ms : ℕ) (save_ok : Bool)
    (h : -(1 / 5 : ℚ) ≤ st.g_ltft ∧ st.g_ltft ≤ 1 / 5) :
    P4.spec_trim_bounds (P4.closed_loop_update checksum st stft rpm load now_ms save_ok).2 := by
  unfold P4.spec_trim_bounds
  constructor
  · rw [closed_loop_update_stft]
    have b := clamp_float_bounds stft (-P4.STFT_LIMIT) P4.STFT_LIMIT
      (by norm_num [P4.STFT_LIMIT])
    unfold P4.STFT_LIMIT at b ⊢
    exact b
  · obtain ⟨h0, h1⟩ := closed_loop_update_ltft checksum st stft rpm load now_ms save_ok
    cases hc : (P4.ltft_can_update st.window rpm load now_ms).1 with
    | false => rw [h0 hc]; exact h
    | true => exact h1 hc
theorem get_params_outcome (interp : table_16x16_t → ℕ → ℕ → ℕ) (checksum : table_16x16_t → ℕ)
    (st : P4.engine_state_t) (env : P4.params_env_t) (params : Option P4.engine_params_t) :
    ((P4.engine_control_get_engine_parameters interp checksum st env params).state.trim = st.trim ∧
      ((P4.engine_control_get_engine_parameters interp checksum st env params).lambda_corr = none ∨
        (P4.engine_control_get_engine_parameters interp checksum st env params).lambda_corr
          = some 0)) ∨
    ∃ (stft : ℚ) (rpm load : ℕ),
      (P4.engine_control_get_engine_parameters interp checksum st env params).state.trim
        = (P4.closed_loop_update checksum st.trim stft rpm load env.lam.now_ms
            env.lam.save_ok).2 ∧
      (P4.engine_control_get_engine_parameters interp checksum st env params).lambda_corr
        = some (P4.closed_loop_update checksum st.trim stft rpm load env.lam.now_ms
            env.lam.save_ok).1 := by
  unfold P4.engine_control_get_engine_parameters
  cases params with
  | none => exact Or.inl ⟨rfl, Or.inl rfl⟩
  | some p =>
    cases env.sensor_read with
    | none => exact Or.inl ⟨rfl, Or.inl rfl⟩
    | some sensor_data =>
      cases env.sync_read with
      | none => exact Or.inl ⟨rfl, Or.inl rfl⟩
      | some sync_data =>
        dsimp only
        split_ifs with h1 h2
        · exact Or.inl ⟨rfl, Or.inl rfl⟩
        · exact Or.inr ⟨_, _, _, rfl, rfl⟩
        · exact Or.inl ⟨rfl, Or.inr rfl⟩

theorem get_params_keeps_limp (interp : table_16x16_t → ℕ → ℕ → ℕ)
    (checksum : table_16x16_t → ℕ) (st : P4.engine_state_t) (env : P4.params_env_t)
    (params : Option P4.engine_params_t) :
    (P4.engine_control_get_engine_parameters interp checksum st env params).state.g_limp_mode
      = st.g_limp_mode := by
  unfold P4.engine_control_get_engine_parameters
  cases params with
  | none => rfl
  | some p =>
    cases env.sensor_read with
    | none => rfl
    | some sensor_data =>
      cases env.sync_read with
      | none => rfl
      | some sync_data =>
        dsimp only
        split_ifs <;> rfl

theorem run_cycle_closed_loop_outcome (interp : table_16x16_t → ℕ → ℕ → ℕ)
    (checksum : table_16x16_t → ℕ) (st : P4.engine_state_t) (env : P4.lambda_env_t)
    (rpm load o2_mv : ℕ) :
    P4.run_cycle_closed_loop interp checksum st env rpm load o2_mv = (0, st.trim) ∨
    ∃ stft : ℚ,
      P4.run_cycle_closed_loop interp checksum st env rpm load o2_mv
        = P4.closed_loop_update checksum st.trim stft rpm load env.now_ms env.save_ok := by
  unfold P4.run_cycle_closed_loop
  dsimp only
  split_ifs
  · exact Or.inl rfl
  · exact Or.inr ⟨_, rfl⟩
  · exact Or.inl rfl
  · exact Or.inl rfl

theorem get_params_bounds (interp : table_16x16_t → ℕ → ℕ → ℕ) (checksum : table_16x16_t → ℕ)
    (st : P4.engine_state_t) (env : P4.params_env_t) (params : Option P4.engine_params_t)
    (h : P4.spec_trim_bounds st.trim) :
    P4.spec_trim_bounds
        (P4.engine_control_get_engine_parameters interp checksum st env params).state.trim ∧
    ∀ c : ℚ,
      (P4.engine_control_get_engine_parameters interp checksum st env params).lambda_corr = some c →
        -(1 / 4 : ℚ) ≤ c ∧ c ≤ 1 / 4 := by
  rcases get_params_outcome interp checksum st env params with ⟨e, hc⟩ | ⟨stft, rpm, load, e, hc⟩
  · rw [e]
    refine ⟨h, fun c hcc => ?_⟩
    rcases hc with hc | hc
    · rw [hc] at hcc
      exact Option.noConfusion hcc
    · rw [hc] at hcc
      rw [← Option.some.inj hcc]
      norm_num
  · rw [e]
    refine ⟨closed_loop_update_bounds checksum st.trim stft rpm load _ _ h.2, fun c hcc => ?_⟩
    rw [hc] at hcc
    rw [← Option.some.inj hcc]
    exact closed_loop_update_corr checksum st.trim stft rpm load _ _

theorem run_cycle_outcome (interp : table_16x16_t → ℕ → ℕ → ℕ) (checksum : table_16x16_t → ℕ)
    (st : P4.engine_state_t) (env : P4.cycle_env_t) :
    ((P4.engine_control_run_cycle interp checksum st env).state.trim
        = (P4.engine_control_get_engine_parameters interp checksum st env.params_env
            (some P4.engine_params_zero)).state.trim ∧
      ((P4.engine_control_run_cycle interp checksum st env).lambda_corr = none ∨
        (P4.engine_control_run_cycle interp checksum st env).lambda_corr = some 0)) ∨
    ∃ (stft : ℚ) (rpm load : ℕ),
      (P4.engine_control_run_cycle interp checksum st env).state.trim
        = (P4.closed_loop_update checksum
            (P4.engine_control_get_engine_parameters interp checksum st env.params_env
              (some P4.engine_params_zero)).state.trim stft rpm load env.lam.now_ms
            env.lam.save_ok).2 ∧
      (P4.engine_control_run_cycle interp checksum st env).lambda_corr
        = some (P4.closed_loop_update checksum
            (P4.engine_control_get_engine_parameters interp checksum st env.params_env
              (some P4.engine_params_zero)).state.trim stft rpm load env.lam.now_ms
            env.lam.save_ok).1 := by
  unfold P4.engine_control_run_cycle
  dsimp only
  split_ifs with h1
  · exact Or.inl ⟨rfl, Or.inl rfl⟩
  · cases env.sync_read with
    | none => exact Or.inl ⟨rfl, Or.inl rfl⟩
    | some sync_data =>
      dsimp only
      split_ifs with h2
      · exact Or.inl ⟨rfl, Or.inl rfl⟩
      · cases env.sensor_read with
        | none => exact Or.inl ⟨rfl, Or.inl rfl⟩
        | some sensor_data =>
          dsimp only
          split_ifs with h3
          · exact Or.inl ⟨rfl, Or.inl rfl⟩
          · rcases run_cycle_closed_loop_outcome interp checksum
                (P4.engine_state_t.mk
                  (P4.engine_control_get_engine_parameters interp checksum st env.params_env
                    (some P4.engine_params_zero)).state.trim
                  (P4.engine_control_get_engine_parameters interp checksum st env.params_env
                    (some P4.engine_params_zero)).state.g_engine_math_ready
                  (P4.engine_control_get_engine_parameters interp checksum st env.params_env
                    (some P4.engine_params_zero)).state.g_closed_loop_enabled
                  (P4.engine_control_get_engine_parameters interp checksum st env.params_env
                    (some P4.engine_params_zero)).state.g_target_eoi_deg
                  (P4.engine_control_get_engine_parameters interp checksum st env.params_env
                    (some P4.engine_params_zero)).state.g_target_eoi_deg_fallback
                  (P4.engine_control_get_engine_parameters interp checksum st env.params_env
                    (some P4.engine_params_zero)).state.g_fuel_cfg
                  (P4.run_cycle_safety_checks
                    (P4.engine_control_get_engine_parameters interp checksum st env.params_env
                      (some P4.engine_params_zero)).state.g_limp_mode
                    (((P4.engine_control_get_engine_parameters interp checksum st env.params_env
                      (some P4.engine_params_zero)).params.getD P4.engine_params_zero).rpm % 65536)
                    sensor_data.clt_c sensor_data.vbat_dv env.safety_now_ms).2)
                env.lam
                (((P4.engine_control_get_engine_parameters interp checksum st env.params_env
                  (some P4.engine_params_zero)).params.getD P4.engine_params_zero).rpm % 65536)
                (((P4.engine_control_get_engine_parameters interp checksum st env.params_env
                  (some P4.engine_params_zero)).params.getD P4.engine_params_zero).load % 65536)
                sensor_data.o2_mv with e | ⟨stft, e⟩
            · rw [e]
              exact Or.inl ⟨rfl, Or.inr rfl⟩
            · rw [e]
              exact Or.inr ⟨_, _, _, rfl, rfl⟩

theorem run_cycle_bounds (interp : table_16x16_t → ℕ → ℕ → ℕ) (checksum : table_16x16_t → ℕ)
    (st : P4.engine_state_t) (env : P4.cycle_env_t) (h : P4.spec_trim_bounds st.trim) :
    P4.spec_trim_bounds (P4.engine_control_run_cycle interp checksum st env).state.trim ∧
    ∀ c : ℚ, (P4.engine_control_run_cycle interp checksum st env).lambda_corr = some c →
      -(1 / 4 : ℚ) ≤ c ∧ c ≤ 1 / 4 := by
  have hp := (get_params_bounds interp checksum st env.params_env
    (some P4.engine_params_zero) h).1
  rcases run_cycle_outcome interp checksum st env with ⟨e, hc⟩ | ⟨stft, rpm, load, e, hc⟩
  · rw [e]
    refine ⟨hp, fun c hcc => ?_⟩
    rcases hc with hc | hc
    · rw [hc] at hcc
      exact Option.noConfusion hcc
    · rw [hc] at hcc
      rw [← Option.some.inj hcc]
      norm_num
  · rw [e]
    refine ⟨closed_loop_update_bounds checksum _ stft rpm load _ _ hp.2, fun c hcc => ?_⟩
    rw [hc] at hcc
    rw [← Option.some.inj hcc]
    exact closed_loop_update_corr checksum _ stft rpm load _ _
/-- C19. After every closed-loop update of a control cycle, for any PID
output, `g_stft` lies in `[-0.25, 0.25]` and the lambda correction passed to
`fuel_calc_pulsewidth_us` lies in `[-0.25, 0.25]`, from any prior state; and
`g_ltft` lies in `[-0.20, 0.20]`: it does so at boot, every update keeps it
there, and so do `engine_control_get_engine_parameters`,
`engine_control_run_cycle` and every run of cycles. -/
theorem trim_bounds_invariant :
    (∀ maps : P4.fuel_calc_maps_t, P4.spec_trim_bounds (P4.trim_state_init maps)) ∧
    (∀ (checksum : table_16x16_t → ℕ) (st : P4.trim_state_t) (stft : ℚ) (rpm load now_ms : ℕ)
        (save_ok : Bool),
      (-(1 / 4 : ℚ) ≤ (P4.closed_loop_update checksum st stft rpm load now_ms save_ok).2.g_stft ∧
        (P4.closed_loop_update checksum st stft rpm load now_ms save_ok).2.g_stft ≤ 1 / 4) ∧
      (-(1 / 4 : ℚ) ≤ (P4.closed_loop_update checksum st stft rpm load now_ms save_ok).1 ∧
        (P4.closed_loop_update checksum st stft rpm load now_ms save_ok).1 ≤ 1 / 4) ∧
      ((-(1 / 5 : ℚ) ≤ st.g_ltft ∧ st.g_ltft ≤ 1 / 5) →
        -(1 / 5 : ℚ) ≤ (P4.closed_loop_update checksum st stft rpm load now_ms save_ok).2.g_ltft ∧
        (P4.closed_loop_update checksum st stft rpm load now_ms save_ok).2.g_ltft ≤ 1 / 5)) ∧
    (∀ (interp : table_16x16_t → ℕ → ℕ → ℕ) (checksum : table_16x16_t → ℕ)
        (st : P4.engine_state_t) (env : P4.params_env_t) (params : Option P4.engine_params_t),
      P4.spec_trim_bounds st.trim →
        P4.spec_trim_bounds
          (P4.engine_control_get_engine_parameters interp checksum st env params).state.trim ∧
        ∀ c : ℚ,
          (P4.engine_control_get_engine_parameters interp checksum st env params).lambda_corr
            = some c → -(1 / 4 : ℚ) ≤ c ∧ c ≤ 1 / 4) ∧
    (∀ (interp : table_16x16_t → ℕ → ℕ → ℕ) (checksum : table_16x16_t → ℕ)
        (st : P4.engine_state_t) (env : P4.cycle_env_t),
      P4.spec_trim_bounds st.trim →
        P4.spec_trim_bounds (P4.engine_control_run_cycle interp checksum st env).state.trim ∧
        ∀ c : ℚ, (P4.engine_control_run_cycle interp checksum st env).lambda_corr = some c →
          -(1 / 4 : ℚ) ≤ c ∧ c ≤ 1 / 4) ∧
    (∀ (interp : table_16x16_t → ℕ → ℕ → ℕ) (checksum : table_16x16_t → ℕ)
        (envs : List P4.cycle_env_t) (st : P4.engine_state_t),
      P4.spec_trim_bounds st.trim →
        P4.spec_trim_bounds (P4.run_cycles interp checksum st envs).trim) := by
  refine ⟨?_, ?_, get_params_bounds, run_cycle_bounds, ?_⟩
  · intro maps
    unfold P4.spec_trim_bounds P4.trim_state_init
    norm_num
  · intro checksum st stft rpm load now_ms save_ok
    refine ⟨?_, closed_loop_update_corr checksum st stft rpm load now_ms save_ok,
      fun h => (closed_loop_update_bounds checksum st stft rpm load now_ms save_ok h).2⟩
    rw [closed_loop_update_stft]
    have b := clamp_float_bounds stft (-P4.STFT_LIMIT) P4.STFT_LIMIT
      (by norm_num [P4.STFT_LIMIT])
    unfold P4.STFT_LIMIT at b ⊢
    exact b
  · intro interp checksum envs
    induction envs with
    | nil => intro st h; exact h
    | cons env envs ih =>
      intro st h
      unfold P4.run_cycles
      exact ih _ (run_cycle_bounds interp checksum st env h).1

theorem closed_loop_example :
    (P4.closed_loop_update spec_table_16x16_checksum (P4.trim_state_init example_maps) (1 / 2)
      3000 500 1000 true).2.g_stft = 1 / 4 ∧
    (P4.closed_loop_update spec_table_16x16_checksum (P4.trim_state_init example_maps) (1 / 2)
      3000 500 1000 true).2.g_ltft = 0 ∧
    (P4.closed_loop_update spec_table_16x16_checksum (P4.trim_state_init example_maps) (1 / 2)
      3000 500 1000 true).1 = 1 / 4 := by
  have hc : (P4.ltft_can_update (P4.trim_state_init example_maps).window 3000 500 1000).1
      = false := by decide
  have e1 := closed_loop_update_stft spec_table_16x16_checksum (P4.trim_state_init example_maps)
    (1 / 2) 3000 500 1000 true
  have e2 : (P4.closed_loop_update spec_table_16x16_checksum (P4.trim_state_init example_maps)
      (1 / 2) 3000 500 1000 true).2.g_ltft = 0 :=
    (closed_loop_update_ltft spec_table_16x16_checksum
      (P4.trim_state_init example_maps) (1 / 2) 3000 500 1000 true).1 hc
  have v : P4.clamp_float (1 / 2) (-P4.STFT_LIMIT) P4.STFT_LIMIT = 1 / 4 := by
    norm_num [P4.clamp_float, P4.STFT_LIMIT]
  rw [v] at e1
  refine ⟨e1, e2, ?_⟩
  have e3 : (P4.closed_loop_update spec_table_16x16_checksum (P4.trim_state_init example_maps)
      (1 / 2) 3000 500 1000 true).1
      = P4.clamp_float
          ((P4.closed_loop_update spec_table_16x16_checksum (P4.trim_state_init example_maps)
              (1 / 2) 3000 500 1000 true).2.g_stft
            + (P4.closed_loop_update spec_table_16x16_checksum
              (P4.trim_state_init example_maps) (1 / 2) 3000 500 1000 true).2.g_ltft)
          (-P4.STFT_LIMIT) P4.STFT_LIMIT := rfl
  rw [e3, e1, e2]
  norm_num [P4.clamp_float, P4.STFT_LIMIT]

/-- C19 on the first update after boot with a PID output of 0.5 at 3000 rpm:
`g_ltft` is within its bounds before (0) and after (0), `g_stft` is clamped to
0.25 and so is the lambda correction. -/
theorem trim_bounds_invariant_witness :
    (-(1 / 5 : ℚ) ≤ (P4.trim_state_init example_maps).g_ltft ∧
      (P4.trim_state_init example_maps).g_ltft ≤ 1 / 5) ∧
    (-(1 / 5 : ℚ) ≤ (P4.closed_loop_update spec_table_16x16_checksum
        (P4.trim_state_init example_maps) (1 / 2) 3000 500 1000 true).2.g_ltft ∧
      (P4.closed_loop_update spec_table_16x16_checksum
        (P4.trim_state_init example_maps) (1 / 2) 3000 500 1000 true).2.g_ltft ≤ 1 / 5) ∧
    (P4.closed_loop_update spec_table_16x16_checksum (P4.trim_state_init example_maps) (1 / 2)
      3000 500 1000 true).2.g_stft = 1 / 4 :=
  have h0 : -(1 / 5 : ℚ) ≤ (P4.trim_state_init example_maps).g_ltft ∧
      (P4.trim_state_init example_maps).g_ltft ≤ 1 / 5 := by
    unfold P4.trim_state_init
    norm_num
  ⟨h0, (trim_bounds_invariant.2.1 spec_table_16x16_checksum (P4.trim_state_init example_maps)
      (1 / 2) 3000 500 1000 true).2.2 h0, closed_loop_example.1⟩

/-! ## The LTFT stability window -/

theorem ltft_run_append (w : P4.ltft_window_t) (l : List P4.ltft_sample_t)
    (s : P4.ltft_sample_t) :
    P4.ltft_run w (l ++ [s]) = (P4.ltft_can_update (P4.ltft_run w l) s.rpm s.load s.now_ms).2 := by
  induction l generalizing w with
  | nil => rfl
  | cons a l ih =>
    rw [List.cons_append]
    unfold P4.ltft_run
    exact ih _

theorem last_point_append (p : ℕ × ℕ) (l : List P4.ltft_sample_t) (s : P4.ltft_sample_t) :
    P4.last_point p (l ++ [s]) = (s.rpm, s.load) := by
  induction l generalizing p with
  | nil => rfl
  | cons a l ih =>
    rw [List.cons_append]
    unfold P4.last_point
    exact ih _

theorem last_point_concat (p : ℕ × ℕ) (l m : List P4.ltft_sample_t) :
    P4.last_point p (l ++ m) = P4.last_point (P4.last_point p l) m := by
  induction l generalizing p with
  | nil => rfl
  | cons a l ih =>
    show P4.last_point (a.rpm, a.load) (l ++ m)
      = P4.last_point (P4.last_point (a.rpm, a.load) l) m
    exact ih _

theorem stable_run_append (p : ℕ × ℕ) (l : List P4.ltft_sample_t) (s : P4.ltft_sample_t)
    (h : P4.spec_stable_run p l)
    (hs : P4.spec_stable_step (P4.last_point p l) (s.rpm, s.load)) :
    P4.spec_stable_run p (l ++ [s]) := by
  induction l generalizing p with
  | nil => exact ⟨hs, trivial⟩
  | cons a l ih =>
    rw [List.cons_append]
    exact ⟨h.1, ih _ h.2 hs⟩

theorem can_update_stable_iff (w : P4.ltft_window_t) (rpm load : ℕ) :
    ((if rpm > w.g_last_rpm then rpm - w.g_last_rpm else w.g_last_rpm - rpm)
          ≤ P4.LTFT_RPM_DELTA_MAX ∧
        (if load > w.g_last_load then load - w.g_last_load else w.g_last_load - load)
          ≤ P4.LTFT_LOAD_DELTA_MAX)
      ↔ P4.spec_stable_step (w.g_last_rpm, w.g_last_load) (rpm, load) := by
  unfold P4.spec_stable_step P4.LTFT_RPM_DELTA_MAX P4.LTFT_LOAD_DELTA_MAX
  simp only [abs_le]
  split_ifs <;> omega

theorem can_update_of_stable (w : P4.ltft_window_t) (rpm load now_ms : ℕ)
    (h : P4.spec_stable_step (w.g_last_rpm, w.g_last_load) (rpm, load)) :
    P4.ltft_can_update w rpm load now_ms
      = (decide ((now_ms + 4294967296
            - (if w.g_stable_start_ms = 0 then now_ms else w.g_stable_start_ms)) % 4294967296
          ≥ P4.LTFT_STABLE_MS),
        P4.ltft_window_t.mk rpm load
          (if w.g_stable_start_ms = 0 then now_ms else w.g_stable_start_ms)) := by
  unfold P4.ltft_can_update
  dsimp only
  rw [if_pos ((can_update_stable_iff w rpm load).mpr h)]

theorem can_update_of_unstable (w : P4.ltft_window_t) (rpm load now_ms : ℕ)
    (h : ¬ P4.spec_stable_step (w.g_last_rpm, w.g_last_load) (rpm, load)) :
    P4.ltft_can_update w rpm load now_ms = (false, P4.ltft_window_t.mk rpm load 0) := by
  unfold P4.ltft_can_update
  dsimp only
  rw [if_neg (fun hc => h ((can_update_stable_iff w rpm load).mp hc))]

/-- What the three variables record after a run of samples from a state whose
window is closed: the last operating point, and, when a window is open, a
trailing run of stable samples that begins at the recorded start time. -/
theorem ltft_run_invariant (w0 : P4.ltft_window_t) (hw0 : w0.g_stable_start_ms = 0)
    (hist : List P4.ltft_sample_t) :
    ((P4.ltft_run w0 hist).g_last_rpm, (P4.ltft_run w0 hist).g_last_load)
        = P4.last_point (w0.g_last_rpm, w0.g_last_load) hist ∧
    ((P4.ltft_run w0 hist).g_stable_start_ms ≠ 0 →
      ∃ (before : List P4.ltft_sample_t) (first : P4.ltft_sample_t)
          (rest : List P4.ltft_sample_t),
        hist = before ++ first :: rest ∧
        P4.spec_stable_run (P4.last_point (w0.g_last_rpm, w0.g_last_load) before)
          (first :: rest) ∧
        first.now_ms = (P4.ltft_run w0 hist).g_stable_start_ms) := by
  induction hist using List.reverseRecOn with
  | nil =>
    refine ⟨rfl, fun h => ?_⟩
    exact absurd hw0 h
  | append_singleton hist s ih =>
    obtain ⟨hl, hwin⟩ := ih
    rw [ltft_run_append, last_point_append]
    by_cases hs : P4.spec_stable_step
        ((P4.ltft_run w0 hist).g_last_rpm, (P4.ltft_run w0 hist).g_last_load) (s.rpm, s.load)
    · rw [can_update_of_stable _ _ _ _ hs]
      refine ⟨rfl, fun hne => ?_⟩
      dsimp only at hne ⊢
      by_cases h0 : (P4.ltft_run w0 hist).g_stable_start_ms = 0
      · rw [if_pos h0]
        refine ⟨hist, s, [], rfl, ⟨?_, trivial⟩, rfl⟩
        rw [← hl]
        exact hs
      · rw [if_neg h0]
        obtain ⟨before, first, rest, e, hrun, ht⟩ := hwin h0
        refine ⟨before, first, rest ++ [s], ?_, ?_, ht⟩
        · rw [e, List.append_assoc, List.cons_append]
        · have hp : P4.last_point (P4.last_point (w0.g_last_rpm, w0.g_last_load) before)
              (first :: rest)
              = ((P4.ltft_run w0 hist).g_last_rpm, (P4.ltft_run w0 hist).g_last_load) := by
            rw [hl, e, last_point_concat]
          have := stable_run_append _ (first :: rest) s hrun (by rw [hp]; exact hs)
          rw [List.cons_append] at this
          exact this
    · rw [can_update_of_unstable _ _ _ _ hs]
      exact ⟨rfl, fun hne => absurd rfl hne⟩

theorem closed_loop_update_window (checksum : table_16x16_t → ℕ) (st : P4.trim_state_t)
    (stft : ℚ) (rpm load now_ms : ℕ) (save_ok : Bool) :
    (P4.closed_loop_update checksum st stft rpm load now_ms save_ok).2.window
      = (P4.ltft_can_update st.window rpm load now_ms).2 := by
  unfold P4.closed_loop_update
  simp only []
  rw [(maybe_persist_keeps_trims _ now_ms save_ok).2.2]
  split_ifs
  · exact (apply_ltft_keeps_trims checksum _ rpm load).2.2
  · rfl
  · rfl

theorem can_update_true_stable (w : P4.ltft_window_t) (rpm load now_ms : ℕ)
    (h : (P4.ltft_can_update w rpm load now_ms).1 = true) :
    P4.spec_stable_step (w.g_last_rpm, w.g_last_load) (rpm, load) ∧
      w.g_stable_start_ms ≠ 0 ∧
      (now_ms + 4294967296 - w.g_stable_start_ms) % 4294967296 ≥ 500 := by
  by_cases hs : P4.spec_stable_step (w.g_last_rpm, w.g_last_load) (rpm, load)
  · rw [can_update_of_stable w rpm load now_ms hs] at h
    have h2 := of_decide_eq_true h
    unfold P4.LTFT_STABLE_MS at h2
    by_cases h0 : w.g_stable_start_ms = 0
    · rw [if_pos h0] at h2
      omega
    · rw [if_neg h0] at h2
      exact ⟨hs, h0, h2⟩
  · rw [can_update_of_unstable w rpm load now_ms hs] at h
    exact Bool.noConfusion h

/-- C20. `g_ltft` is modified by a closed-loop update only when
`ltft_can_update` returned true. From boot, with a clock that does not go back
and stays below `2^32` ms, `ltft_can_update` returns true only if the calls so
far end in a run of samples, the current one included, each within 50 rpm and
50 load units of its predecessor, whose first sample is at least 500 ms old.
A sample beyond either bound makes it return false and closes the window
(`g_stable_start_ms = 0`), so the 500 ms start again. -/
theorem ltft_stable_window :
    (∀ (w0 : P4.ltft_window_t) (pre : List P4.ltft_sample_t) (s : P4.ltft_sample_t),
      w0.g_stable_start_ms = 0 → (∀ x ∈ pre, x.now_ms ≤ s.now_ms) →
      s.now_ms < 4294967296 →
      (P4.ltft_can_update (P4.ltft_run w0 pre) s.rpm s.load s.now_ms).1 = true →
      ∃ (before : List P4.ltft_sample_t) (first : P4.ltft_sample_t)
          (rest : List P4.ltft_sample_t),
        pre ++ [s] = before ++ first :: rest ∧
        P4.spec_stable_run (P4.last_point (w0.g_last_rpm, w0.g_last_load) before)
          (first :: rest) ∧
        first.now_ms + 500 ≤ s.now_ms) ∧
    (∀ (w : P4.ltft_window_t) (rpm load now_ms : ℕ),
      ¬ P4.spec_stable_step (w.g_last_rpm, w.g_last_load) (rpm, load) →
      P4.ltft_can_update w rpm load now_ms = (false, P4.ltft_window_t.mk rpm load 0)) ∧
    (∀ (checksum : table_16x16_t → ℕ) (st : P4.trim_state_t) (stft : ℚ)
        (rpm load now_ms : ℕ) (save_ok : Bool),
      (P4.closed_loop_update checksum st stft rpm load now_ms save_ok).2.window
          = (P4.ltft_can_update st.window rpm load now_ms).2 ∧
        ((P4.ltft_can_update st.window rpm load now_ms).1 = false →
          (P4.closed_loop_update checksum st stft rpm load now_ms save_ok).2.g_ltft
            = st.g_ltft)) := by
  refine ⟨fun w0 pre s hw0 hmono hn h => ?_, can_update_of_unstable, fun checksum st stft rpm
    load now_ms save_ok => ⟨closed_loop_update_window checksum st stft rpm load now_ms save_ok,
      (closed_loop_update_ltft checksum st stft rpm load now_ms save_ok).1⟩⟩
  obtain ⟨hs, h0, hd⟩ := can_update_true_stable _ _ _ _ h
  obtain ⟨hl, hwin⟩ := ltft_run_invariant w0 hw0 pre
  obtain ⟨before, first, rest, e, hrun, ht⟩ := hwin h0
  refine ⟨before, first, rest ++ [s], ?_, ?_, ?_⟩
  · rw [e, List.append_assoc, List.cons_append]
  · have hp : P4.last_point (P4.last_point (w0.g_last_rpm, w0.g_last_load) before)
        (first :: rest)
        = ((P4.ltft_run w0 pre).g_last_rpm, (P4.ltft_run w0 pre).g_last_load) := by
      rw [hl, e, last_point_concat]
    have := stable_run_append _ (first :: rest) s hrun (by rw [hp]; exact hs)
    rw [List.cons_append] at this
    exact this
  · have hm : first.now_ms ≤ s.now_ms := hmono first (by rw [e]; simp)
    rw [← ht] at hd
    omega

theorem ltft_example_run :
    (P4.ltft_can_update
      (P4.ltft_run (P4.ltft_window_t.mk 0 0 0)
        [P4.ltft_sample_t.mk 3000 500 1000, P4.ltft_sample_t.mk 3010 505 1010,
          P4.ltft_sample_t.mk 3020 510 1300])
      3030 515 1510).1 = true := by
  decide

theorem ltft_stable_window_witness :
    (P4.ltft_window_t.mk 0 0 0).g_stable_start_ms = 0 ∧
    (∀ x ∈ [P4.ltft_sample_t.mk 3000 500 1000, P4.ltft_sample_t.mk 3010 505 1010,
          P4.ltft_sample_t.mk 3020 510 1300], x.now_ms ≤ 1510) ∧
    (P4.ltft_can_update
      (P4.ltft_run (P4.ltft_window_t.mk 0 0 0)
        [P4.ltft_sample_t.mk 3000 500 1000, P4.ltft_sample_t.mk 3010 505 1010,
          P4.ltft_sample_t.mk 3020 510 1300])
      3030 515 1510).1 = true ∧
    ∃ (before : List P4.ltft_sample_t) (first : P4.ltft_sample_t)
        (rest : List P4.ltft_sample_t),
      [P4.ltft_sample_t.mk 3000 500 1000, P4.ltft_sample_t.mk 3010 505 1010,
          P4.ltft_sample_t.mk 3020 510 1300] ++ [P4.ltft_sample_t.mk 3030 515 1510]
        = before ++ first :: rest ∧
      P4.spec_stable_run (P4.last_point (0, 0) before) (first :: rest) ∧
      first.now_ms + 500 ≤ 1510 :=
  have hm : ∀ x ∈ [P4.ltft_sample_t.mk 3000 500 1000, P4.ltft_sample_t.mk 3010 505 1010,
      P4.ltft_sample_t.mk 3020 510 1300], x.now_ms ≤ 1510 := by
    decide
  ⟨rfl, hm, ltft_example_run,
    ltft_stable_window.1 (P4.ltft_window_t.mk 0 0 0)
      [P4.ltft_sample_t.mk 3000 500 1000, P4.ltft_sample_t.mk 3010 505 1010,
        P4.ltft_sample_t.mk 3020 510 1300]
      (P4.ltft_sample_t.mk 3030 515 1510) rfl hm (by decide) ltft_example_run⟩


/-! ## Cycles that find the crank sync lost (P4) -/

theorem get_params_fail_of_no_sync (interp : table_16x16_t → ℕ → ℕ → ℕ)
    (checksum : table_16x16_t → ℕ) (st : P4.engine_state_t) (env : P4.params_env_t)
    (p : P4.engine_params_t) (h : env.sync_read = none) :
    (P4.engine_control_get_engine_parameters interp checksum st env (some p)).err
      = P4.esp_err_t.ESP_FAIL := by
  unfold P4.engine_control_get_engine_parameters
  rw [h]
  cases env.sensor_read with
  | none => rfl
  | some sensor_data => rfl

theorem run_cycle_sync_lost (interp : table_16x16_t → ℕ → ℕ → ℕ)
    (checksum : table_16x16_t → ℕ) (st : P4.engine_state_t) (env : P4.cycle_env_t)
    (h : env.params_env.sync_read = none ∨ env.sync_read = none ∨
      ∃ sd : sync_data_t, env.sync_read = some sd ∧ sd.sync_valid = false) :
    (P4.engine_control_run_cycle interp checksum st env).err = P4.esp_err_t.ESP_FAIL ∧
    (P4.engine_control_run_cycle interp checksum st env).calls = [] := by
  unfold P4.engine_control_run_cycle
  dsimp only
  split_ifs with h1
  · exact ⟨rfl, rfl⟩
  · rcases h with h | h | ⟨sd, h, hv⟩
    · exact absurd (by rw [get_params_fail_of_no_sync interp checksum st _ _ h]; decide) h1
    · rw [h]
      exact ⟨rfl, rfl⟩
    · rw [h]
      dsimp only
      rw [if_pos hv]
      exact ⟨rfl, rfl⟩

theorem run_cycle_calls_arm (interp : table_16x16_t → ℕ → ℕ → ℕ)
    (checksum : table_16x16_t → ℕ) (st : P4.engine_state_t) (env : P4.cycle_env_t) :
    ∀ c ∈ (P4.engine_control_run_cycle interp checksum st env).calls,
      ∃ a : hw_call, c = P4.out_call.arm a := by
  unfold P4.engine_control_run_cycle
  dsimp only
  split_ifs with h1
  · simp
  · cases env.sync_read with
    | none => simp
    | some sync_data =>
      dsimp only
      split_ifs with h2
      · simp
      · cases env.sensor_read with
        | none => simp
        | some sensor_data =>
          dsimp only
          split_ifs with h3
          · simp
          · intro c hc
            obtain ⟨a, _, e⟩ := List.mem_map.mp hc
            exact ⟨a, e.symm⟩

theorem not_all_stopped_of_arm_only (calls : List P4.out_call)
    (h : ∀ c ∈ calls, ∃ a : hw_call, c = P4.out_call.arm a) :
    ¬ P4.spec_all_channels_stopped calls := by
  intro hs
  obtain ⟨a, e⟩ := h _ (hs.2 1 (le_refl 1) (by decide))
  exact P4.out_call.noConfusion e

/-- C14 as stated fails: a cycle whose snapshot has `sync_valid` false, and a
cycle whose `sync_get_data` fails, return without a stop call for every
channel. -/
theorem sync_lost_claim_fails :
    ¬ P4.spec_all_channels_stopped
        (P4.engine_control_run_cycle example_interpolate spec_table_16x16_checksum
          example_engine_state (example_cycle_env (some example_sync_invalid) 1000)).calls ∧
    ¬ P4.spec_all_channels_stopped
        (P4.engine_control_run_cycle example_interpolate spec_table_16x16_checksum
          example_engine_state (example_cycle_env none 1000)).calls :=
  ⟨not_all_stopped_of_arm_only _ (run_cycle_calls_arm _ _ _ _),
    not_all_stopped_of_arm_only _ (run_cycle_calls_arm _ _ _ _)⟩

/-- C14, amended. When crank sync is lost (a `sync_get_data` of the cycle
fails, or the cycle's snapshot has `sync_valid` false),
`engine_control_run_cycle` returns `ESP_FAIL` without any driver call: it arms
no channel and stops none. No cycle at all issues a stop call: every driver
call of `engine_control_run_cycle` is an arming call. -/
theorem sync_lost_amended :
    (∀ (interp : table_16x16_t → ℕ → ℕ → ℕ) (checksum : table_16x16_t → ℕ)
        (st : P4.engine_state_t) (env : P4.cycle_env_t),
      (env.params_env.sync_read = none ∨ env.sync_read = none ∨
        ∃ sd : sync_data_t, env.sync_read = some sd ∧ sd.sync_valid = false) →
      (P4.engine_control_run_cycle interp checksum st env).err = P4.esp_err_t.ESP_FAIL ∧
      (P4.engine_control_run_cycle interp checksum st env).calls = []) ∧
    (∀ (interp : table_16x16_t → ℕ → ℕ → ℕ) (checksum : table_16x16_t → ℕ)
        (st : P4.engine_state_t) (env : P4.cycle_env_t),
      (∀ c ∈ (P4.engine_control_run_cycle interp checksum st env).calls,
        ∃ a : hw_call, c = P4.out_call.arm a) ∧
      ¬ P4.spec_all_channels_stopped
        (P4.engine_control_run_cycle interp checksum st env).calls) :=
  ⟨run_cycle_sync_lost, fun interp checksum st env =>
    ⟨run_cycle_calls_arm interp checksum st env,
      not_all_stopped_of_arm_only _ (run_cycle_calls_arm interp checksum st env)⟩⟩

theorem sync_lost_amended_witness :
    ((example_cycle_env (some example_sync_invalid) 1000).params_env.sync_read = none ∨
      (example_cycle_env (some example_sync_invalid) 1000).sync_read = none ∨
      ∃ sd : sync_data_t,
        (example_cycle_env (some example_sync_invalid) 1000).sync_read = some sd ∧
          sd.sync_valid = false) ∧
    (P4.engine_control_run_cycle example_interpolate spec_table_16x16_checksum
        example_engine_state (example_cycle_env (some example_sync_invalid) 1000)).err
      = P4.esp_err_t.ESP_FAIL ∧
    (P4.engine_control_run_cycle example_interpolate spec_table_16x16_checksum
        example_engine_state (example_cycle_env (some example_sync_invalid) 1000)).calls = [] :=
  have h : (example_cycle_env (some example_sync_invalid) 1000).params_env.sync_read = none ∨
      (example_cycle_env (some example_sync_invalid) 1000).sync_read = none ∨
      ∃ sd : sync_data_t,
        (example_cycle_env (some example_sync_invalid) 1000).sync_read = some sd ∧
          sd.sync_valid = false :=
    Or.inr (Or.inr ⟨example_sync_invalid, rfl, rfl⟩)
  ⟨h, sync_lost_amended.1 example_interpolate spec_table_16x16_checksum example_engine_state
    (example_cycle_env (some example_sync_invalid) 1000) h⟩


/-! ## Limp mode and the control cycle (P4) -/

theorem safety_checks_pass (g : P4.limp_mode_t) (rpm : ℕ) (clt_c : ℤ) (vbat_dv now_ms : ℕ)
    (h1 : rpm < 7500) (h2 : clt_c ≤ 120) (h3 : 70 ≤ vbat_dv) (h4 : vbat_dv ≤ 170) :
    P4.run_cycle_safety_checks g rpm clt_c vbat_dv now_ms = (false, g) := by
  have c3 : (70 : ℚ) ≤ (vbat_dv : ℚ) := by exact_mod_cast h3
  have c4 : (vbat_dv : ℚ) ≤ 170 := by exact_mod_cast h4
  have e1 : P4.safety_check_over_rev g rpm now_ms = (false, g) := by
    unfold P4.safety_check_over_rev P4.FUEL_CUTOFF_RPM P4.MAX_RPM
    rw [if_neg]
    omega
  have e2 : P4.safety_check_overheat g clt_c now_ms = (false, g) := by
    unfold P4.safety_check_overheat
    rw [if_neg]
    omega
  have e3 : P4.safety_check_battery_voltage g vbat_dv now_ms = (false, g) := by
    unfold P4.safety_check_battery_voltage P4.VBAT_SENSOR_MIN P4.VBAT_SENSOR_MAX
    dsimp only
    rw [if_neg]
    rintro (h | h)
    · linarith
    · linarith
  unfold P4.run_cycle_safety_checks
  simp [e1, e2, e3]

theorem safety_checks_over_rev (g : P4.limp_mode_t) (rpm : ℕ) (clt_c : ℤ)
    (vbat_dv now_ms : ℕ) (h : 7500 ≤ rpm) :
    P4.run_cycle_safety_checks g rpm clt_c vbat_dv now_ms
      = (true, P4.safety_activate_limp_mode g now_ms) := by
  unfold P4.run_cycle_safety_checks P4.safety_check_over_rev P4.FUEL_CUTOFF_RPM
  dsimp only
  rw [if_pos (Or.inl h)]
  rfl

theorem safety_checks_keep_active (g : P4.limp_mode_t) (rpm : ℕ) (clt_c : ℤ)
    (vbat_dv now_ms : ℕ) (h : g.active = true) :
    (P4.run_cycle_safety_checks g rpm clt_c vbat_dv now_ms).2 = g := by
  have ha := activate_of_active g now_ms h
  unfold P4.run_cycle_safety_checks P4.safety_check_over_rev P4.safety_check_overheat
    P4.safety_check_battery_voltage
  dsimp only
  split_ifs <;> first | exact ha | rfl | simp_all

theorem get_params_populated (interp : table_16x16_t → ℕ → ℕ → ℕ)
    (checksum : table_16x16_t → ℕ) (st : P4.engine_state_t) (env : P4.params_env_t)
    (p : P4.engine_params_t) (sensp : sensor_data_t) (sdp : sync_data_t)
    (hs : env.sensor_read = some sensp) (hy : env.sync_read = some sdp)
    (hpop : ¬ (st.g_engine_math_ready = true ∧
      (P4.lambda_source env.lam sensp.o2_mv).2 = true ∧
      P4.refresh_closed_loop_from_sdio st.g_closed_loop_enabled env.sdio_closed_loop
        = false)) :
    (P4.engine_control_get_engine_parameters interp checksum st env (some p)).err
      = P4.esp_err_t.ESP_OK ∧
    ((P4.engine_control_get_engine_parameters interp checksum st env (some p)).params.getD
      P4.engine_params_zero).rpm = sdp.rpm % 65536 := by
  unfold P4.engine_control_get_engine_parameters
  rw [hs, hy]
  dsimp only
  rw [if_neg hpop]
  exact ⟨rfl, rfl⟩

theorem run_cycle_keeps_limp_active (interp : table_16x16_t → ℕ → ℕ → ℕ)
    (checksum : table_16x16_t → ℕ) (st : P4.engine_state_t) (env : P4.cycle_env_t)
    (h : st.g_limp_mode.active = true) :
    (P4.engine_control_run_cycle interp checksum st env).state.g_limp_mode
      = st.g_limp_mode := by
  have hk := get_params_keeps_limp interp checksum st env.params_env
    (some P4.engine_params_zero)
  unfold P4.engine_control_run_cycle
  dsimp only
  split_ifs with h1
  · exact hk
  · cases env.sync_read with
    | none => exact hk
    | some sync_data =>
      dsimp only
      split_ifs with h2
      · exact hk
      · cases env.sensor_read with
        | none => exact hk
        | some sensor_data =>
          dsimp only
          rw [hk, safety_checks_keep_active _ _ _ _ _ h]
          split_ifs <;> rfl

theorem run_cycles_keep_limp_active (interp : table_16x16_t → ℕ → ℕ → ℕ)
    (checksum : table_16x16_t → ℕ) (st : P4.engine_state_t) (envs : List P4.cycle_env_t)
    (h : st.g_limp_mode.active = true) :
    (P4.run_cycles interp checksum st envs).g_limp_mode = st.g_limp_mode := by
  induction envs generalizing st with
  | nil => rfl
  | cons env envs ih =>
    unfold P4.run_cycles
    have e := run_cycle_keeps_limp_active interp checksum st env h
    rw [ih _ (by rw [e]; exact h), e]

theorem run_cycle_over_rev (interp : table_16x16_t → ℕ → ℕ → ℕ)
    (checksum : table_16x16_t → ℕ) (st : P4.engine_state_t) (env : P4.cycle_env_t)
    (sensp sensor : sensor_data_t) (sdp sd : sync_data_t)
    (hs : env.params_env.sensor_read = some sensp) (hy : env.params_env.sync_read = some sdp)
    (hpop : ¬ (st.g_engine_math_ready = true ∧
      (P4.lambda_source env.params_env.lam sensp.o2_mv).2 = true ∧
      P4.refresh_closed_loop_from_sdio st.g_closed_loop_enabled
        env.params_env.sdio_closed_loop = false))
    (hsd : env.sync_read = some sd) (hv : sd.sync_valid = true)
    (hse : env.sensor_read = some sensor) (hr : 7500 ≤ sdp.rpm % 65536) :
    (P4.engine_control_run_cycle interp checksum st env).err = P4.esp_err_t.ESP_FAIL ∧
    (P4.engine_control_run_cycle interp checksum st env).calls = [] ∧
    (P4.engine_control_run_cycle interp checksum st env).state.g_limp_mode.active = true := by
  obtain ⟨he, hrpm⟩ := get_params_populated interp checksum st env.params_env
    P4.engine_params_zero sensp sdp hs hy hpop
  have hm : sdp.rpm % 65536 % 65536 = sdp.rpm % 65536 := Nat.mod_mod _ _
  unfold P4.engine_control_run_cycle
  dsimp only
  rw [if_neg (by rw [he]; decide), hsd]
  dsimp only
  rw [if_neg (by rw [hv]; decide), hse]
  dsimp only
  rw [hrpm, hm, safety_checks_over_rev _ _ _ _ _ hr]
  dsimp only
  rw [if_pos rfl]
  exact ⟨rfl, rfl, activate_active _ _⟩

theorem p4_injection_calls_four (g : fuel_injection_config_t) (eoi : ℚ) (pw : ℕ)
    (sd : sync_data_t) (cfg : sync_config_t) (h1 : cfg.tooth_count ≠ 0)
    (h2 : sd.time_per_degree ≠ 0) :
    ∃ d1 d2 d3 d4 : ℕ,
      ([1, 2, 3, 4].filterMap fun cyl =>
        P4.fuel_injection_schedule_eoi g cyl eoi pw (some sd) (some cfg))
        = [hw_call.injection_schedule_one_shot 0 d1 pw,
           hw_call.injection_schedule_one_shot 1 d2 pw,
           hw_call.injection_schedule_one_shot 2 d3 pw,
           hw_call.injection_schedule_one_shot 3 d4 pw] := by
  simp only [P4.fuel_injection_schedule_eoi, h1, h2, if_false]
  exact ⟨_, _, _, _, rfl⟩

theorem run_cycle_arm_full_sync (g : fuel_injection_config_t) (eoi eoif : ℚ)
    (rpm load adv pw : ℕ) (sd : sync_data_t) (sync_read : Option sync_data_t)
    (cfg : sync_config_t) (hacq : sd.sync_acquired = true) (h1 : cfg.tooth_count ≠ 0)
    (h2 : sd.time_per_degree ≠ 0) :
    ∃ (d1 d2 d3 d4 : ℕ) (coils : List hw_call),
      P4.engine_control_run_cycle_arm g eoi eoif rpm load adv pw sd sync_read (some cfg)
        = [hw_call.injection_schedule_one_shot 0 d1 pw,
           hw_call.injection_schedule_one_shot 1 d2 pw,
           hw_call.injection_schedule_one_shot 2 d3 pw,
           hw_call.injection_schedule_one_shot 3 d4 pw] ++ coils ∧
      coils.map hw_call.cyl_index = [0, 1, 2, 3] ∧ ∀ c ∈ coils, c.is_coil = true := by
  obtain ⟨d1, d2, d3, d4, e⟩ := p4_injection_calls_four g eoi pw sd cfg h1 h2
  obtain ⟨hc, hi⟩ := p4_ignition_calls_shape adv rpm sync_read (some cfg)
  unfold P4.engine_control_run_cycle_arm
  rw [if_pos hacq, e]
  exact ⟨d1, d2, d3, d4, _, rfl, hi, hc⟩

theorem run_cycle_healthy_calls (interp : table_16x16_t → ℕ → ℕ → ℕ)
    (checksum : table_16x16_t → ℕ) (st : P4.engine_state_t) (env : P4.cycle_env_t)
    (sensp sensor : sensor_data_t) (sdp sd : sync_data_t)
    (hs : env.params_env.sensor_read = some sensp) (hy : env.params_env.sync_read = some sdp)
    (hpop : ¬ (st.g_engine_math_ready = true ∧
      (P4.lambda_source env.params_env.lam sensp.o2_mv).2 = true ∧
      P4.refresh_closed_loop_from_sdio st.g_closed_loop_enabled
        env.params_env.sdio_closed_loop = false))
    (hsd : env.sync_read = some sd) (hv : sd.sync_valid = true)
    (hse : env.sensor_read = some sensor) (hr : sdp.rpm % 65536 < 7500)
    (hclt : sensor.clt_c ≤ 120) (hv1 : 70 ≤ sensor.vbat_dv) (hv2 : sensor.vbat_dv ≤ 170) :
    (P4.engine_control_run_cycle interp checksum st env).err = P4.esp_err_t.ESP_OK ∧
    ∃ (g : fuel_injection_config_t) (eoi eoif : ℚ) (rpm load adv pw : ℕ),
      (P4.engine_control_run_cycle interp checksum st env).calls
        = (P4.engine_control_run_cycle_arm g eoi eoif rpm load adv pw sd env.ign_sync_read
            env.cfg_read).map P4.out_call.arm := by
  obtain ⟨he, hrpm⟩ := get_params_populated interp checksum st env.params_env
    P4.engine_params_zero sensp sdp hs hy hpop
  have hm : sdp.rpm % 65536 % 65536 = sdp.rpm % 65536 := Nat.mod_mod _ _
  unfold P4.engine_control_run_cycle
  dsimp only
  rw [if_neg (by rw [he]; decide), hsd]
  dsimp only
  rw [if_neg (by rw [hv]; decide), hse]
  dsimp only
  rw [hrpm, hm, safety_checks_pass _ _ _ _ _ hr hclt hv1 hv2]
  dsimp only
  rw [if_neg (by decide)]
  exact ⟨rfl, _, _, _, _, _, _, _, rfl⟩

theorem run_cycle_healthy_arms (interp : table_16x16_t → ℕ → ℕ → ℕ)
    (checksum : table_16x16_t → ℕ) (st : P4.engine_state_t) (env : P4.cycle_env_t)
    (sensp sensor : sensor_data_t) (sdp sd : sync_data_t) (cfg : sync_config_t)
    (hs : env.params_env.sensor_read = some sensp) (hy : env.params_env.sync_read = some sdp)
    (hpop : ¬ (st.g_engine_math_ready = true ∧
      (P4.lambda_source env.params_env.lam sensp.o2_mv).2 = true ∧
      P4.refresh_closed_loop_from_sdio st.g_closed_loop_enabled
        env.params_env.sdio_closed_loop = false))
    (hsd : env.sync_read = some sd) (hv : sd.sync_valid = true)
    (hacq : sd.sync_acquired = true) (htpd : sd.time_per_degree ≠ 0)
    (hcfg : env.cfg_read = some cfg) (hct : cfg.tooth_count ≠ 0)
    (hse : env.sensor_read = some sensor) (hr : sdp.rpm % 65536 < 7500)
    (hclt : sensor.clt_c ≤ 120) (hv1 : 70 ≤ sensor.vbat_dv) (hv2 : sensor.vbat_dv ≤ 170) :
    (P4.engine_control_run_cycle interp checksum st env).err = P4.esp_err_t.ESP_OK ∧
    ∃ (d1 d2 d3 d4 pw : ℕ) (coils : List hw_call),
      (P4.engine_control_run_cycle interp checksum st env).calls
        = [P4.out_call.arm (hw_call.injection_schedule_one_shot 0 d1 pw),
           P4.out_call.arm (hw_call.injection_schedule_one_shot 1 d2 pw),
           P4.out_call.arm (hw_call.injection_schedule_one_shot 2 d3 pw),
           P4.out_call.arm (hw_call.injection_schedule_one_shot 3 d4 pw)]
          ++ coils.map P4.out_call.arm ∧
      coils.map hw_call.cyl_index = [0, 1, 2, 3] ∧ ∀ c ∈ coils, c.is_coil = true := by
  obtain ⟨he, g, eoi, eoif, rpm, load, adv, pw, e⟩ := run_cycle_healthy_calls interp checksum
    st env sensp sensor sdp sd hs hy hpop hsd hv hse hr hclt hv1 hv2
  obtain ⟨d1, d2, d3, d4, coils, ea, hi, hc⟩ := run_cycle_arm_full_sync g eoi eoif rpm load
    adv pw sd env.ign_sync_read cfg hacq hct htpd
  refine ⟨he, d1, d2, d3, d4, pw, coils, ?_, hi, hc⟩
  rw [e, hcfg, ea]
  rfl

theorem not_cut_of_arm (calls : List P4.out_call) (c : hw_call)
    (h : P4.out_call.arm c ∈ calls) : ¬ P4.spec_outputs_cut calls :=
  fun hc => hc c h

theorem example_lambda_invalid (now_ms : ℕ) :
    ¬ (P4.lambda_source (example_lambda_env now_ms) example_sensors.o2_mv).2 = true := by
  simp [P4.lambda_source, example_lambda_env, example_sensors]

/-- C16 as stated fails: the cycle at 7600 rpm latches limp mode, and the next
cycle, at 7000 rpm with healthy sensors, returns `ESP_OK` and arms drivers. -/
theorem limp_cut_claim_fails :
    (P4.engine_control_run_cycle example_interpolate spec_table_16x16_checksum
      example_engine_state
      (example_cycle_env (some example_sync_7600) 1000)).state.g_limp_mode.active = true ∧
    (P4.engine_control_run_cycle example_interpolate spec_table_16x16_checksum
      (P4.engine_control_run_cycle example_interpolate spec_table_16x16_checksum
        example_engine_state (example_cycle_env (some example_sync_7600) 1000)).state
      (example_cycle_env (some example_sync_7000) 1010)).err = P4.esp_err_t.ESP_OK ∧
    ¬ P4.spec_outputs_cut
      (P4.engine_control_run_cycle example_interpolate spec_table_16x16_checksum
        (P4.engine_control_run_cycle example_interpolate spec_table_16x16_checksum
          example_engine_state (example_cycle_env (some example_sync_7600) 1000)).state
        (example_cycle_env (some example_sync_7000) 1010)).calls := by
  refine ⟨(run_cycle_over_rev example_interpolate spec_table_16x16_checksum
    example_engine_state (example_cycle_env (some example_sync_7600) 1000) example_sensors
    example_sensors example_sync_7600 example_sync_7600 rfl rfl
    (fun h => example_lambda_invalid 1000 h.2.1) rfl rfl rfl (by decide)).2.2, ?_⟩
  obtain ⟨he, d1, d2, d3, d4, pw, coils, e, _, _⟩ := run_cycle_healthy_arms
    example_interpolate spec_table_16x16_checksum
    (P4.engine_control_run_cycle example_interpolate spec_table_16x16_checksum
      example_engine_state (example_cycle_env (some example_sync_7600) 1000)).state
    (example_cycle_env (some example_sync_7000) 1010) example_sensors example_sensors
    example_sync_7000 example_sync_7000 scenario_a_cfg rfl rfl
    (fun h => example_lambda_invalid 1010 h.2.1) rfl rfl rfl
    (by norm_num [example_sync_7000]) rfl (by decide) rfl (by decide) (by decide) (by decide)
    (by decide)
  refine ⟨he, not_cut_of_arm _ (hw_call.injection_schedule_one_shot 0 d1 pw) ?_⟩
  rw [e]
  simp

/-- C16, amended. A cycle that observes `rpm >= 7500` returns `ESP_FAIL` with
no driver call and leaves limp mode active; once active, the limp state is left
as it is by every later cycle and run of cycles. The limp flag does not gate
the scheduling: whatever the limp state, a cycle with `rpm < 7500`, healthy
coolant and battery readings and full sync returns `ESP_OK` and arms the four
injectors and the four coils. `safety_deactivate_limp_mode` clears the flag at
once, with no rpm or time condition. -/
theorem limp_latch_amended :
    (∀ (interp : table_16x16_t → ℕ → ℕ → ℕ) (checksum : table_16x16_t → ℕ)
        (st : P4.engine_state_t) (env : P4.cycle_env_t) (sensp sensor : sensor_data_t)
        (sdp sd : sync_data_t),
      env.params_env.sensor_read = some sensp → env.params_env.sync_read = some sdp →
      ¬ (st.g_engine_math_ready = true ∧
        (P4.lambda_source env.params_env.lam sensp.o2_mv).2 = true ∧
        P4.refresh_closed_loop_from_sdio st.g_closed_loop_enabled
          env.params_env.sdio_closed_loop = false) →
      env.sync_read = some sd → sd.sync_valid = true → env.sensor_read = some sensor →
      7500 ≤ sdp.rpm % 65536 →
      (P4.engine_control_run_cycle interp checksum st env).err = P4.esp_err_t.ESP_FAIL ∧
      (P4.engine_control_run_cycle interp checksum st env).calls = [] ∧
      (P4.engine_control_run_cycle interp checksum st env).state.g_limp_mode.active
        = true) ∧
    (∀ (interp : table_16x16_t → ℕ → ℕ → ℕ) (checksum : table_16x16_t → ℕ)
        (st : P4.engine_state_t), st.g_limp_mode.active = true →
      (∀ env : P4.cycle_env_t,
        (P4.engine_control_run_cycle interp checksum st env).state.g_limp_mode
          = st.g_limp_mode) ∧
      ∀ envs : List P4.cycle_env_t,
        (P4.run_cycles interp checksum st envs).g_limp_mode = st.g_limp_mode) ∧
    (∀ (interp : table_16x16_t → ℕ → ℕ → ℕ) (checksum : table_16x16_t → ℕ)
        (st : P4.engine_state_t) (env : P4.cycle_env_t) (sensp sensor : sensor_data_t)
        (sdp sd : sync_data_t) (cfg : sync_config_t),
      env.params_env.sensor_read = some sensp → env.params_env.sync_read = some sdp →
      ¬ (st.g_engine_math_ready = true ∧
        (P4.lambda_source env.params_env.lam sensp.o2_mv).2 = true ∧
        P4.refresh_closed_loop_from_sdio st.g_closed_loop_enabled
          env.params_env.sdio_closed_loop = false) →
      env.sync_read = some sd → sd.sync_valid = true → sd.sync_acquired = true →
      sd.time_per_degree ≠ 0 → env.cfg_read = some cfg → cfg.tooth_count ≠ 0 →
      env.sensor_read = some sensor → sdp.rpm % 65536 < 7500 → sensor.clt_c ≤ 120 →
      70 ≤ sensor.vbat_dv → sensor.vbat_dv ≤ 170 →
      (P4.engine_control_run_cycle interp checksum st env).err = P4.esp_err_t.ESP_OK ∧
      ∃ (d1 d2 d3 d4 pw : ℕ) (coils : List hw_call),
        (P4.engine_control_run_cycle interp checksum st env).calls
          = [P4.out_call.arm (hw_call.injection_schedule_one_shot 0 d1 pw),
             P4.out_call.arm (hw_call.injection_schedule_one_shot 1 d2 pw),
             P4.out_call.arm (hw_call.injection_schedule_one_shot 2 d3 pw),
             P4.out_call.arm (hw_call.injection_schedule_one_shot 3 d4 pw)]
            ++ coils.map P4.out_call.arm ∧
        coils.map hw_call.cyl_index = [0, 1, 2, 3] ∧ ∀ c ∈ coils, c.is_coil = true) ∧
    (∀ g : P4.limp_mode_t,
      (P4.safety_deactivate_limp_mode g).active = false ∧
        (P4.safety_deactivate_limp_mode g).activation_time = 0) :=
  ⟨run_cycle_over_rev,
    fun interp checksum st h =>
      ⟨fun env => run_cycle_keeps_limp_active interp checksum st env h,
        fun envs => run_cycles_keep_limp_active interp checksum st envs h⟩,
    run_cycle_healthy_arms, fun _ => ⟨rfl, rfl⟩⟩

theorem limp_latch_amended_witness :
    7500 ≤ example_sync_7600.rpm % 65536 ∧
    ((P4.engine_control_run_cycle example_interpolate spec_table_16x16_checksum
        example_engine_state (example_cycle_env (some example_sync_7600) 1000)).err
        = P4.esp_err_t.ESP_FAIL ∧
      (P4.engine_control_run_cycle example_interpolate spec_table_16x16_checksum
        example_engine_state (example_cycle_env (some example_sync_7600) 1000)).calls = [] ∧
      (P4.engine_control_run_cycle example_interpolate spec_table_16x16_checksum
        example_engine_state
        (example_cycle_env (some example_sync_7600) 1000)).state.g_limp_mode.active = true) ∧
    example_sync_7000.rpm % 65536 < 7500 ∧
    ((P4.engine_control_run_cycle example_interpolate spec_table_16x16_checksum
        (P4.engine_state_t.mk example_engine_state.trim true true 360 360 g_fuel_cfg_default
          (P4.limp_mode_t.mk true 3000 800 100 1000 1000))
        (example_cycle_env (some example_sync_7000) 1010)).err = P4.esp_err_t.ESP_OK ∧
      ∃ (d1 d2 d3 d4 pw : ℕ) (coils : List hw_call),
        (P4.engine_control_run_cycle example_interpolate spec_table_16x16_checksum
          (P4.engine_state_t.mk example_engine_state.trim true true 360 360
            g_fuel_cfg_default (P4.limp_mode_t.mk true 3000 800 100 1000 1000))
          (example_cycle_env (some example_sync_7000) 1010)).calls
          = [P4.out_call.arm (hw_call.injection_schedule_one_shot 0 d1 pw),
             P4.out_call.arm (hw_call.injection_schedule_one_shot 1 d2 pw),
             P4.out_call.arm (hw_call.injection_schedule_one_shot 2 d3 pw),
             P4.out_call.arm (hw_call.injection_schedule_one_shot 3 d4 pw)]
            ++ coils.map P4.out_call.arm ∧
        coils.map hw_call.cyl_index = [0, 1, 2, 3] ∧ ∀ c ∈ coils, c.is_coil = true) :=
  ⟨by decide,
    limp_latch_amended.1 example_interpolate spec_table_16x16_checksum example_engine_state
      (example_cycle_env (some example_sync_7600) 1000) example_sensors example_sensors
      example_sync_7600 example_sync_7600 rfl rfl
      (fun h => example_lambda_invalid 1000 h.2.1) rfl rfl rfl (by decide),
    by decide,
    limp_latch_amended.2.2.1 example_interpolate spec_table_16x16_checksum
      (P4.engine_state_t.mk example_engine_state.trim true true 360 360 g_fuel_cfg_default
        (P4.limp_mode_t.mk true 3000 800 100 1000 1000))
      (example_cycle_env (some example_sync_7000) 1010) example_sensors example_sensors
      example_sync_7000 example_sync_7000 scenario_a_cfg rfl rfl
      (fun h => example_lambda_invalid 1010 h.2.1) rfl rfl rfl
      (by norm_num [example_sync_7000]) rfl (by decide) rfl (by decide) (by decide)
      (by decide) (by decide)⟩


/-! ## Write-back of the long-term trim (P4) -/

theorem writeback_cell_eq (old : ℕ) (ltft : ℚ) :
    ((f32_to_u16
        ((if (if (old : ℚ) * (1 + ltft) < 0 then 0 else (old : ℚ) * (1 + ltft)) > 65535
            then 65535
            else (if (old : ℚ) * (1 + ltft) < 0 then 0 else (old : ℚ) * (1 + ltft)))
          + 1 / 2) : ℕ) : ℤ)
      = P4.spec_writeback_cell old ltft := by
  unfold P4.spec_writeback_cell
  rw [round_eq_floor_add_half]
  generalize (old : ℚ) * (1 + ltft) = x
  by_cases h0 : x < 0
  · rw [if_pos h0, if_neg (by norm_num)]
    rw [f32_to_u16_eq_floor _ (by norm_num) (by norm_num)]
    have h1 : ⌊x + 1 / 2⌋ ≤ 0 := by
      have : ⌊x + 1 / 2⌋ < 1 := Int.floor_lt.mpr (by push_cast; linarith)
      omega
    have h2 : ⌊(0 : ℚ) + 1 / 2⌋ = 0 := by norm_num
    rw [h2, min_eq_left (by omega), max_eq_left h1]
  · rw [if_neg h0]
    have h0a : 0 ≤ x := not_lt.mp h0
    by_cases h1 : x > 65535
    · rw [if_pos h1, f32_to_u16_eq_floor _ (by norm_num) (by norm_num)]
      have h2 : (65535 : ℤ) ≤ ⌊x + 1 / 2⌋ := Int.le_floor.mpr (by push_cast; linarith)
      have h3 : ⌊(65535 : ℚ) + 1 / 2⌋ = 65535 := by norm_num
      rw [h3, min_eq_right h2]
      rfl
    · rw [if_neg h1]
      have h1a : x ≤ 65535 := not_lt.mp h1
      rw [f32_to_u16_eq_floor _ (by linarith) (by linarith)]
      have h2 : (0 : ℤ) ≤ ⌊x + 1 / 2⌋ := Int.floor_nonneg.mpr (by linarith)
      have h3 : ⌊x + 1 / 2⌋ ≤ 65535 := by
        have : ⌊x + 1 / 2⌋ < 65536 := Int.floor_lt.mpr (by push_cast; linarith)
        omega
      rw [min_eq_left h3, max_eq_right h2]

theorem apply_ltft_cell (checksum : table_16x16_t → ℕ) (st : P4.trim_state_t)
    (rpm load : ℕ) :
    (((P4.apply_ltft_to_fuel_table checksum st rpm load).g_maps.fuel_table.values
        (find_bin_index st.g_maps.fuel_table.load_bins load)
        (find_bin_index st.g_maps.fuel_table.rpm_bins rpm) : ℕ) : ℤ)
      = P4.spec_writeback_cell
          (st.g_maps.fuel_table.values (find_bin_index st.g_maps.fuel_table.load_bins load)
            (find_bin_index st.g_maps.fuel_table.rpm_bins rpm)) st.g_ltft := by
  unfold P4.apply_ltft_to_fuel_table
  dsimp only
  rw [if_pos ⟨rfl, rfl⟩]
  exact writeback_cell_eq _ _

theorem apply_ltft_frame (checksum : table_16x16_t → ℕ) (st : P4.trim_state_t)
    (rpm load : ℕ) :
    (∀ yy xx : ℕ,
      ¬ (yy = find_bin_index st.g_maps.fuel_table.load_bins load ∧
        xx = find_bin_index st.g_maps.fuel_table.rpm_bins rpm) →
      (P4.apply_ltft_to_fuel_table checksum st rpm load).g_maps.fuel_table.values yy xx
        = st.g_maps.fuel_table.values yy xx) ∧
    (P4.apply_ltft_to_fuel_table checksum st rpm load).g_maps.fuel_table.rpm_bins
      = st.g_maps.fuel_table.rpm_bins ∧
    (P4.apply_ltft_to_fuel_table checksum st rpm load).g_maps.fuel_table.load_bins
      = st.g_maps.fuel_table.load_bins ∧
    (P4.apply_ltft_to_fuel_table checksum st rpm load).g_maps.ignition_table
      = st.g_maps.ignition_table ∧
    (P4.apply_ltft_to_fuel_table checksum st rpm load).g_maps.lambda_table
      = st.g_maps.lambda_table ∧
    (P4.apply_ltft_to_fuel_table checksum st rpm load).g_maps.fuel_table.checksum
      = checksum (table_16x16_t.mk st.g_maps.fuel_table.rpm_bins
          st.g_maps.fuel_table.load_bins
          (P4.apply_ltft_to_fuel_table checksum st rpm load).g_maps.fuel_table.values
          st.g_maps.fuel_table.checksum) ∧
    (P4.apply_ltft_to_fuel_table checksum st rpm load).g_map_dirty = true ∧
    (P4.apply_ltft_to_fuel_table checksum st rpm load).g_last_map_save_ms
      = st.g_last_map_save_ms := by
  unfold P4.apply_ltft_to_fuel_table
  dsimp only
  refine ⟨fun yy xx h => ?_, rfl, rfl, rfl, rfl, rfl, rfl, rfl⟩
  rw [if_neg h]

theorem maybe_persist_keeps_maps (st : P4.trim_state_t) (now_ms : ℕ) (save_ok : Bool) :
    (P4.maybe_persist_maps st now_ms save_ok).g_maps = st.g_maps := by
  unfold P4.maybe_persist_maps
  split_ifs <;> rfl

theorem closed_loop_update_writeback (checksum : table_16x16_t → ℕ) (st : P4.trim_state_t)
    (stft : ℚ) (rpm load now_ms : ℕ) (save_ok : Bool)
    (hc : (P4.ltft_can_update st.window rpm load now_ms).1 = true)
    (ht : |P4.ltft_integrate st.g_ltft stft| ≥ 3 / 100) :
    (P4.closed_loop_update checksum st stft rpm load now_ms save_ok).2
      = P4.maybe_persist_maps
          (P4.trim_state_t.mk
            (P4.apply_ltft_to_fuel_table checksum
              (P4.trim_state_t.mk st.g_maps
                (P4.clamp_float stft (-P4.STFT_LIMIT) P4.STFT_LIMIT)
                (P4.ltft_integrate st.g_ltft stft)
                (P4.ltft_can_update st.window rpm load now_ms).2 st.g_last_map_save_ms
                st.g_map_dirty) rpm load).g_maps
            (P4.clamp_float stft (-P4.STFT_LIMIT) P4.STFT_LIMIT) 0
            (P4.ltft_can_update st.window rpm load now_ms).2 st.g_last_map_save_ms true)
          now_ms save_ok := by
  unfold P4.ltft_integrate at ht
  unfold P4.closed_loop_update P4.LTFT_APPLY_THRESHOLD
  dsimp only
  rw [if_pos hc, if_pos ht]
  rfl

theorem closed_loop_update_no_writeback (checksum : table_16x16_t → ℕ)
    (st : P4.trim_state_t) (stft : ℚ) (rpm load now_ms : ℕ) (save_ok : Bool)
    (h : (P4.ltft_can_update st.window rpm load now_ms).1 = false ∨
      |P4.ltft_integrate st.g_ltft stft| < 3 / 100) :
    (P4.closed_loop_update checksum st stft rpm load now_ms save_ok).2.g_maps = st.g_maps ∧
    (P4.closed_loop_update checksum st stft rpm load now_ms save_ok).2.g_ltft
      = if (P4.ltft_can_update st.window rpm load now_ms).1 = true
          then P4.ltft_integrate st.g_ltft stft else st.g_ltft := by
  unfold P4.ltft_integrate at h ⊢
  unfold P4.closed_loop_update P4.LTFT_APPLY_THRESHOLD
  dsimp only
  rw [maybe_persist_keeps_maps, (maybe_persist_keeps_trims _ now_ms save_ok).2.1]
  by_cases hc : (P4.ltft_can_update st.window rpm load now_ms).1 = true
  · rw [if_pos hc, if_pos hc]
    rcases h with h | h
    · rw [hc] at h
      exact Bool.noConfusion h
    · rw [if_neg (not_le.mpr h)]
      exact ⟨rfl, rfl⟩
  · rw [if_neg hc, if_neg hc]
    exact ⟨rfl, rfl⟩

theorem example_near_threshold_stable :
    (P4.ltft_can_update example_trim_near_threshold.window 3000 500 1500).1 = true := by
  decide

theorem example_near_threshold_trigger :
    |P4.ltft_integrate example_trim_near_threshold.g_ltft (1 / 4)| ≥ 3 / 100 := by
  have e : P4.ltft_integrate example_trim_near_threshold.g_ltft (1 / 4) = 3121 / 100000 := by
    norm_num [P4.ltft_integrate, P4.clamp_float, P4.LTFT_ALPHA, P4.STFT_LIMIT, P4.LTFT_LIMIT,
      example_trim_near_threshold]
  rw [e]
  norm_num [abs_of_pos]

/-- C21. `apply_ltft_to_fuel_table` replaces the fuel-table cell `values[y][x]`,
`x = find_bin_index(rpm_bins, rpm)`, `y = find_bin_index(load_bins, load)`, by
`round(old * (1 + g_ltft))` clamped to `[0, 65535]`; every other cell, both bin
arrays and the two other tables are unchanged, the checksum is recomputed on
the new values and the dirty flag is set. In a stable update with
`|g_ltft| >= 0.03` after the integration step, the variables handed to
`maybe_persist_maps` are exactly these with `g_ltft` reset to 0, so the update
ends with `g_ltft = 0` and the written table. -/
theorem ltft_writeback_frame :
    (∀ (checksum : table_16x16_t → ℕ) (st : P4.trim_state_t) (rpm load : ℕ),
      (((P4.apply_ltft_to_fuel_table checksum st rpm load).g_maps.fuel_table.values
          (find_bin_index st.g_maps.fuel_table.load_bins load)
          (find_bin_index st.g_maps.fuel_table.rpm_bins rpm) : ℕ) : ℤ)
        = P4.spec_writeback_cell
            (st.g_maps.fuel_table.values (find_bin_index st.g_maps.fuel_table.load_bins load)
              (find_bin_index st.g_maps.fuel_table.rpm_bins rpm)) st.g_ltft ∧
      (∀ yy xx : ℕ,
        ¬ (yy = find_bin_index st.g_maps.fuel_table.load_bins load ∧
          xx = find_bin_index st.g_maps.fuel_table.rpm_bins rpm) →
        (P4.apply_ltft_to_fuel_table checksum st rpm load).g_maps.fuel_table.values yy xx
          = st.g_maps.fuel_table.values yy xx) ∧
      (P4.apply_ltft_to_fuel_table checksum st rpm load).g_maps.fuel_table.rpm_bins
        = st.g_maps.fuel_table.rpm_bins ∧
      (P4.apply_ltft_to_fuel_table checksum st rpm load).g_maps.fuel_table.load_bins
        = st.g_maps.fuel_table.load_bins ∧
      (P4.apply_ltft_to_fuel_table checksum st rpm load).g_maps.ignition_table
        = st.g_maps.ignition_table ∧
      (P4.apply_ltft_to_fuel_table checksum st rpm load).g_maps.lambda_table
        = st.g_maps.lambda_table ∧
      (P4.apply_ltft_to_fuel_table checksum st rpm load).g_maps.fuel_table.checksum
        = checksum (table_16x16_t.mk st.g_maps.fuel_table.rpm_bins
            st.g_maps.fuel_table.load_bins
            (P4.apply_ltft_to_fuel_table checksum st rpm load).g_maps.fuel_table.values
            st.g_maps.fuel_table.checksum) ∧
      (P4.apply_ltft_to_fuel_table checksum st rpm load).g_map_dirty = true) ∧
    (∀ (checksum : table_16x16_t → ℕ) (st : P4.trim_state_t) (stft : ℚ)
        (rpm load now_ms : ℕ) (save_ok : Bool),
      (P4.ltft_can_update st.window rpm load now_ms).1 = true →
      |P4.ltft_integrate st.g_ltft stft| ≥ 3 / 100 →
      (P4.closed_loop_update checksum st stft rpm load now_ms save_ok).2
        = P4.maybe_persist_maps
            (P4.trim_state_t.mk
              (P4.apply_ltft_to_fuel_table checksum
                (P4.trim_state_t.mk st.g_maps
                  (P4.clamp_float stft (-P4.STFT_LIMIT) P4.STFT_LIMIT)
                  (P4.ltft_integrate st.g_ltft stft)
                  (P4.ltft_can_update st.window rpm load now_ms).2 st.g_last_map_save_ms
                  st.g_map_dirty) rpm load).g_maps
              (P4.clamp_float stft (-P4.STFT_LIMIT) P4.STFT_LIMIT) 0
              (P4.ltft_can_update st.window rpm load now_ms).2 st.g_last_map_save_ms true)
            now_ms save_ok ∧
      (P4.closed_loop_update checksum st stft rpm load now_ms save_ok).2.g_ltft = 0 ∧
      (P4.closed_loop_update checksum st stft rpm load now_ms save_ok).2.g_maps
        = (P4.apply_ltft_to_fuel_table checksum
            (P4.trim_state_t.mk st.g_maps
              (P4.clamp_float stft (-P4.STFT_LIMIT) P4.STFT_LIMIT)
              (P4.ltft_integrate st.g_ltft stft)
              (P4.ltft_can_update st.window rpm load now_ms).2 st.g_last_map_save_ms
              st.g_map_dirty) rpm load).g_maps) := by
  refine ⟨fun checksum st rpm load => ?_, fun checksum st stft rpm load now_ms save_ok hc ht => ?_⟩
  · obtain ⟨h1, h2, h3, h4, h5, h6, h7, _⟩ := apply_ltft_frame checksum st rpm load
    exact ⟨apply_ltft_cell checksum st rpm load, h1, h2, h3, h4, h5, h6, h7⟩
  · have e := closed_loop_update_writeback checksum st stft rpm load now_ms save_ok hc ht
    refine ⟨e, ?_, ?_⟩
    · rw [e, (maybe_persist_keeps_trims _ now_ms save_ok).2.1]
    · rw [e, maybe_persist_keeps_maps]

theorem ltft_writeback_frame_witness :
    (P4.ltft_can_update example_trim_near_threshold.window 3000 500 1500).1 = true ∧
    |P4.ltft_integrate example_trim_near_threshold.g_ltft (1 / 4)| ≥ 3 / 100 ∧
    (P4.closed_loop_update spec_table_16x16_checksum example_trim_near_threshold (1 / 4) 3000
      500 1500 false).2.g_ltft = 0 :=
  ⟨example_near_threshold_stable, example_near_threshold_trigger,
    (ltft_writeback_frame.2 spec_table_16x16_checksum example_trim_near_threshold (1 / 4) 3000
      500 1500 false example_near_threshold_stable example_near_threshold_trigger).2.1⟩


/-! ## Steps from a constant short-term trim to the write-back (P4) -/

theorem ltft_after_succ (s : ℚ) (k : ℕ) :
    P4.spec_ltft_after s k + 1 / 100 * (s - P4.spec_ltft_after s k)
      = P4.spec_ltft_after s (k + 1) := by
  unfold P4.spec_ltft_after
  rw [pow_succ]
  ring

theorem pow_ratio_le_one (k : ℕ) : ((99 : ℚ) / 100) ^ k ≤ 1 :=
  pow_le_one₀ (by norm_num) (by norm_num)

theorem pow_ratio_pos (k : ℕ) : (0 : ℚ) < ((99 : ℚ) / 100) ^ k :=
  pow_pos (by norm_num) k

theorem abs_ltft_after (s : ℚ) (k : ℕ) :
    |P4.spec_ltft_after s k| = |s| * (1 - (99 / 100) ^ k) := by
  unfold P4.spec_ltft_after
  rw [abs_mul, abs_of_nonneg (sub_nonneg.mpr (pow_ratio_le_one k))]

theorem abs_ltft_after_mono (s : ℚ) (k m : ℕ) (h : k ≤ m) :
    |P4.spec_ltft_after s k| ≤ |P4.spec_ltft_after s m| := by
  rw [abs_ltft_after, abs_ltft_after]
  have hp : ((99 : ℚ) / 100) ^ m ≤ ((99 : ℚ) / 100) ^ k :=
    pow_le_pow_of_le_one (by norm_num) (by norm_num) h
  exact mul_le_mul_of_nonneg_left (by linarith) (abs_nonneg s)

theorem abs_ltft_after_lt (s : ℚ) (k : ℕ) (hs : s ≠ 0) : |P4.spec_ltft_after s k| < |s| := by
  rw [abs_ltft_after]
  have hp := pow_ratio_pos k
  have ha : 0 < |s| := abs_pos.mpr hs
  nlinarith

theorem one_sub_pow_ratio_lt (k : ℕ) (hk : 2 ≤ k) :
    1 - ((99 : ℚ) / 100) ^ k < (k : ℚ) / 100 := by
  induction k with
  | zero => omega
  | succ n ih =>
    by_cases h2 : n = 1
    · subst h2
      norm_num
    · have ih2 := ih (by omega)
      have hp := pow_ratio_le_one n
      rw [pow_succ]
      push_cast
      linarith

theorem ltft_integrate_small (s l : ℚ) (hs : |s| ≤ 1 / 4) (hl : |l| < 3 / 100) :
    P4.ltft_integrate l s = l + 1 / 100 * (s - l) := by
  obtain ⟨hs1, hs2⟩ := abs_le.mp hs
  obtain ⟨hl1, hl2⟩ := abs_lt.mp hl
  have e1 : P4.clamp_float s (-P4.STFT_LIMIT) P4.STFT_LIMIT = s := by
    unfold P4.clamp_float P4.STFT_LIMIT
    rw [if_neg (by linarith), if_neg (by linarith)]
  unfold P4.ltft_integrate
  rw [e1]
  unfold P4.clamp_float P4.LTFT_LIMIT P4.LTFT_ALPHA
  rw [if_neg (by linarith), if_neg (by linarith)]

theorem can_update_same_point (rpm load t0 t : ℕ) (h0 : t0 ≠ 0) (h1 : t0 + 500 ≤ t)
    (h2 : t < 4294967296) :
    P4.ltft_can_update (P4.ltft_window_t.mk rpm load t0) rpm load t
      = (true, P4.ltft_window_t.mk rpm load t0) := by
  have hs : P4.spec_stable_step
      ((P4.ltft_window_t.mk rpm load t0).g_last_rpm,
        (P4.ltft_window_t.mk rpm load t0).g_last_load) (rpm, load) := by
    unfold P4.spec_stable_step
    simp
  rw [can_update_of_stable _ rpm load t hs]
  dsimp only
  rw [if_neg h0]
  have hd : (t + 4294967296 - t0) % 4294967296 ≥ P4.LTFT_STABLE_MS := by
    unfold P4.LTFT_STABLE_MS
    omega
  rw [decide_eq_true hd]

theorem stable_step_quiet (checksum : table_16x16_t → ℕ) (st : P4.trim_state_t) (s : ℚ)
    (rpm load t0 k t : ℕ) (save_ok : Bool) (hs : |s| ≤ 1 / 4)
    (hi : P4.stable_trim_inv st s rpm load t0 k) (h0 : t0 ≠ 0) (h1 : t0 + 500 ≤ t)
    (h2 : t < 4294967296) (hq : |P4.spec_ltft_after s (k + 1)| < 3 / 100) :
    P4.writeback_triggered st s rpm load t = false ∧
    P4.stable_trim_inv (P4.closed_loop_update checksum st s rpm load t save_ok).2 s rpm load t0
      (k + 1) ∧
    (P4.closed_loop_update checksum st s rpm load t save_ok).2.g_maps = st.g_maps := by
  obtain ⟨hl, hb, hw⟩ := hi
  have hc := can_update_same_point rpm load t0 t h0 h1 h2
  have hint : P4.ltft_integrate st.g_ltft s = P4.spec_ltft_after s (k + 1) := by
    rw [hl, ltft_integrate_small s _ hs hb, ltft_after_succ]
  have hq2 : |P4.ltft_integrate st.g_ltft s| < 3 / 100 := by
    rw [hint]
    exact hq
  obtain ⟨hm, hg⟩ := closed_loop_update_no_writeback checksum st s rpm load t save_ok
    (Or.inr hq2)
  refine ⟨?_, ⟨?_, hq, ?_⟩, hm⟩
  · unfold P4.writeback_triggered P4.LTFT_APPLY_THRESHOLD
    rw [decide_eq_false (not_le.mpr hq2), Bool.and_false]
  · rw [hg, hw, hc, if_pos rfl, hint]
  · rw [closed_loop_update_window, hw, hc]

theorem stable_step_trigger (checksum : table_16x16_t → ℕ) (st : P4.trim_state_t) (s : ℚ)
    (rpm load t0 k t : ℕ) (save_ok : Bool) (hs : |s| ≤ 1 / 4)
    (hi : P4.stable_trim_inv st s rpm load t0 k) (h0 : t0 ≠ 0) (h1 : t0 + 500 ≤ t)
    (h2 : t < 4294967296) (hq : 3 / 100 ≤ |P4.spec_ltft_after s (k + 1)|) :
    P4.writeback_triggered st s rpm load t = true ∧
    (P4.closed_loop_update checksum st s rpm load t save_ok).2.g_ltft = 0 := by
  obtain ⟨hl, hb, hw⟩ := hi
  have hc := can_update_same_point rpm load t0 t h0 h1 h2
  have hint : P4.ltft_integrate st.g_ltft s = P4.spec_ltft_after s (k + 1) := by
    rw [hl, ltft_integrate_small s _ hs hb, ltft_after_succ]
  have hq2 : |P4.ltft_integrate st.g_ltft s| ≥ 3 / 100 := by
    rw [hint]
    exact hq
  have hc1 : (P4.ltft_can_update st.window rpm load t).1 = true := by
    rw [hw, hc]
  refine ⟨?_, ?_⟩
  · unfold P4.writeback_triggered P4.LTFT_APPLY_THRESHOLD
    rw [hc1, decide_eq_true hq2]
    rfl
  · rw [closed_loop_update_writeback checksum st s rpm load t save_ok hc1 hq2,
      (maybe_persist_keeps_trims _ t save_ok).2.1]

theorem stable_run_quiet (checksum : table_16x16_t → ℕ) (s : ℚ) (rpm load t0 : ℕ)
    (hs : |s| ≤ 1 / 4) (h0 : t0 ≠ 0) (es : List (ℕ × Bool)) :
    ∀ (st : P4.trim_state_t) (k : ℕ), P4.stable_trim_inv st s rpm load t0 k →
      (∀ e ∈ es, t0 + 500 ≤ e.1 ∧ e.1 < 4294967296) →
      |P4.spec_ltft_after s (k + es.length)| < 3 / 100 →
      P4.first_writeback checksum st s rpm load es = none ∧
      P4.stable_trim_inv (P4.closed_loop_run checksum st s rpm load es) s rpm load t0
        (k + es.length) ∧
      (P4.closed_loop_run checksum st s rpm load es).g_maps = st.g_maps := by
  induction es with
  | nil =>
    intro st k hi _ _
    exact ⟨rfl, hi, rfl⟩
  | cons e es ih =>
    intro st k hi ht hq
    have hlen : k + (e :: es).length = k + 1 + es.length := by
      rw [List.length_cons]
      omega
    rw [hlen] at hq ⊢
    have hq1 : |P4.spec_ltft_after s (k + 1)| < 3 / 100 :=
      lt_of_le_of_lt (abs_ltft_after_mono s (k + 1) (k + 1 + es.length) (by omega)) hq
    obtain ⟨ht1, ht2⟩ := ht e (List.mem_cons_self e es)
    obtain ⟨hn, hi2, hm⟩ := stable_step_quiet checksum st s rpm load t0 k e.1 e.2 hs hi h0
      ht1 ht2 hq1
    obtain ⟨r1, r2, r3⟩ := ih _ (k + 1) hi2
      (fun x hx => ht x (List.mem_cons_of_mem e hx)) hq
    refine ⟨?_, r2, ?_⟩
    · show (if P4.writeback_triggered st s rpm load e.1 = true then some 1
        else (P4.first_writeback checksum
          (P4.closed_loop_update checksum st s rpm load e.1 e.2).2 s rpm load es).map
            fun j => j + 1) = none
      rw [hn, r1]
      rfl
    · show (P4.closed_loop_run checksum
        (P4.closed_loop_update checksum st s rpm load e.1 e.2).2 s rpm load es).g_maps
          = st.g_maps
      rw [r3, hm]

theorem stable_run_trigger (checksum : table_16x16_t → ℕ) (s : ℚ) (rpm load t0 : ℕ)
    (hs : |s| ≤ 1 / 4) (h0 : t0 ≠ 0) (last : ℕ × Bool) (es : List (ℕ × Bool)) :
    ∀ (st : P4.trim_state_t) (k : ℕ), P4.stable_trim_inv st s rpm load t0 k →
      (∀ e ∈ es ++ [last], t0 + 500 ≤ e.1 ∧ e.1 < 4294967296) →
      |P4.spec_ltft_after s (k + es.length)| < 3 / 100 →
      3 / 100 ≤ |P4.spec_ltft_after s (k + es.length + 1)| →
      P4.first_writeback checksum st s rpm load (es ++ [last]) = some (es.length + 1) ∧
      (P4.closed_loop_run checksum st s rpm load (es ++ [last])).g_ltft = 0 := by
  induction es with
  | nil =>
    intro st k hi ht _ hq
    obtain ⟨ht1, ht2⟩ := ht last (by simp)
    obtain ⟨hn, hz⟩ := stable_step_trigger checksum st s rpm load t0 k last.1 last.2 hs hi
      h0 ht1 ht2 hq
    refine ⟨?_, hz⟩
    show (if P4.writeback_triggered st s rpm load last.1 = true then some 1
      else (P4.first_writeback checksum
        (P4.closed_loop_update checksum st s rpm load last.1 last.2).2 s rpm load []).map
          fun j => j + 1) = some 1
    rw [if_pos hn]
  | cons e es ih =>
    intro st k hi ht hlt hq
    have hlen : k + (e :: es).length = k + 1 + es.length := by
      rw [List.length_cons]
      omega
    rw [hlen] at hlt hq
    have hq1 : |P4.spec_ltft_after s (k + 1)| < 3 / 100 :=
      lt_of_le_of_lt (abs_ltft_after_mono s (k + 1) (k + 1 + es.length) (by omega)) hlt
    obtain ⟨ht1, ht2⟩ := ht e (by simp)
    obtain ⟨hn, hi2, _⟩ := stable_step_quiet checksum st s rpm load t0 k e.1 e.2 hs hi h0
      ht1 ht2 hq1
    obtain ⟨r1, r2⟩ := ih _ (k + 1) hi2
      (fun x hx => ht x (by rw [List.cons_append]; exact List.mem_cons_of_mem e hx)) hlt hq
    refine ⟨?_, r2⟩
    show (if P4.writeback_triggered st s rpm load e.1 = true then some 1
      else (P4.first_writeback checksum
        (P4.closed_loop_update checksum st s rpm load e.1 e.2).2 s rpm load
          (es ++ [last])).map fun j => j + 1) = some ((e :: es).length + 1)
    rw [hn, r1]
    rfl

theorem stable_run_first (checksum : table_16x16_t → ℕ) (s : ℚ) (rpm load t0 : ℕ)
    (hs : |s| ≤ 1 / 4) (h0 : t0 ≠ 0) (es : List (ℕ × Bool)) :
    ∀ (st : P4.trim_state_t) (k j : ℕ), P4.stable_trim_inv st s rpm load t0 k →
      (∀ e ∈ es, t0 + 500 ≤ e.1 ∧ e.1 < 4294967296) →
      P4.first_writeback checksum st s rpm load es = some j →
      1 ≤ j ∧ j ≤ es.length ∧ 3 / 100 ≤ |P4.spec_ltft_after s (k + j)| := by
  induction es with
  | nil =>
    intro st k j _ _ hf
    exact Option.noConfusion hf
  | cons e es ih =>
    intro st k j hi ht hf
    obtain ⟨ht1, ht2⟩ := ht e (List.mem_cons_self e es)
    have hf2 : (if P4.writeback_triggered st s rpm load e.1 = true then some 1
        else (P4.first_writeback checksum
          (P4.closed_loop_update checksum st s rpm load e.1 e.2).2 s rpm load es).map
            fun j => j + 1) = some j := hf
    by_cases hq : |P4.spec_ltft_after s (k + 1)| < 3 / 100
    · obtain ⟨hn, hi2, _⟩ := stable_step_quiet checksum st s rpm load t0 k e.1 e.2 hs hi h0
        ht1 ht2 hq
      rw [hn] at hf2
      obtain ⟨i, hfi, hij⟩ := Option.map_eq_some'.mp hf2
      obtain ⟨a, b, c⟩ := ih _ (k + 1) i hi2 (fun x hx => ht x (List.mem_cons_of_mem e hx)) hfi
      have e1 : k + j = k + 1 + i := by omega
      rw [List.length_cons, e1]
      exact ⟨by omega, by omega, c⟩
    · obtain ⟨hn, _⟩ := stable_step_trigger checksum st s rpm load t0 k e.1 e.2 hs hi h0
        ht1 ht2 (not_lt.mp hq)
      rw [if_pos hn] at hf2
      have hj : j = 1 := (Option.some.inj hf2).symm
      rw [hj, List.length_cons]
      exact ⟨le_refl 1, by omega, not_lt.mp hq⟩

theorem stable_inv_start (st : P4.trim_state_t) (s : ℚ) (rpm load t0 : ℕ)
    (hl : st.g_ltft = 0) (hw : st.window = P4.ltft_window_t.mk rpm load t0) :
    P4.stable_trim_inv st s rpm load t0 0 := by
  have e : P4.spec_ltft_after s 0 = 0 := by
    unfold P4.spec_ltft_after
    norm_num
  refine ⟨by rw [hl, e], ?_, hw⟩
  rw [e]
  norm_num

theorem example_stable_times_ok :
    ∀ e ∈ example_stable_times 12 ++ [(7500, false)],
      1000 + 500 ≤ e.1 ∧ e.1 < 4294967296 := by
  decide

theorem example_quarter_12 : |P4.spec_ltft_after (1 / 4) 12| < 3 / 100 := by
  rw [abs_ltft_after]
  norm_num [abs_of_pos]

theorem example_quarter_13 : 3 / 100 ≤ |P4.spec_ltft_after (1 / 4) 13| := by
  rw [abs_ltft_after]
  norm_num [abs_of_pos]

/-- C22 as stated fails: with the constant short-term trim 0.25 the bound of the
claim is 12 steps, and 12 stable updates from `g_ltft = 0` trigger no write-back
and leave `g_ltft` different from 0. -/
theorem writeback_bound_claim_fails :
    P4.spec_writeback_bound (1 / 4) = 12 ∧
    P4.first_writeback spec_table_16x16_checksum example_trim_stable (1 / 4) 3000 500
      (example_stable_times 12) = none ∧
    (P4.closed_loop_run spec_table_16x16_checksum example_trim_stable (1 / 4) 3000 500
      (example_stable_times 12)).g_ltft ≠ 0 := by
  have hb : P4.spec_writeback_bound (1 / 4) = 12 := by
    unfold P4.spec_writeback_bound
    have e : (3 / 100 : ℚ) / (1 / 100 * |(1 / 4 : ℚ)|) = ((12 : ℕ) : ℚ) := by
      norm_num [abs_of_pos]
    rw [e, Nat.ceil_natCast]
  have hlen : (example_stable_times 12).length = 12 := by
    simp [example_stable_times]
  obtain ⟨h1, h2, _⟩ := stable_run_quiet spec_table_16x16_checksum (1 / 4) 3000 500 1000
    (by norm_num [abs_of_pos]) (by decide) (example_stable_times 12) example_trim_stable 0
    (stable_inv_start _ _ 3000 500 1000 rfl rfl)
    (fun e he => example_stable_times_ok e (List.mem_append_left _ he))
    (by rw [hlen]; exact example_quarter_12)
  refine ⟨hb, h1, ?_⟩
  rw [h2.1, hlen]
  unfold P4.spec_ltft_after
  norm_num

theorem trigger_step_late (s : ℚ) (j : ℕ) (hs : |s| ≤ 1 / 4)
    (h : 3 / 100 ≤ |P4.spec_ltft_after s j|) :
    (3 / 100 : ℚ) / (1 / 100 * |s|) < (j : ℚ) := by
  rw [abs_ltft_after] at h
  have ha : 0 ≤ |s| := abs_nonneg s
  have hp1 := pow_ratio_le_one j
  have hp0 := pow_ratio_pos j
  have hpos : 0 < |s| := by
    by_contra hc
    have : |s| = 0 := le_antisymm (not_lt.mp hc) ha
    rw [this] at h
    norm_num at h
  have hj : 3 < (j : ℚ) * |s| := by
    by_cases h2 : 2 ≤ j
    · have hb := one_sub_pow_ratio_lt j h2
      nlinarith
    · have hj01 : j = 0 ∨ j = 1 := by omega
      rcases hj01 with hj0 | hj1
      · subst hj0
        norm_num at h
      · subst hj1
        norm_num at h
        linarith
  rw [div_lt_iff₀ (by positivity)]
  linarith

/-- C22, amended. For a constant short-term trim `s` with `|s| <= 0.25`, from
`g_ltft = 0` at an operating point that stays stable: as long as
`|s| * (1 - 0.99^n) < 0.03`, the first `n` updates trigger no write-back and
leave `g_ltft = s * (1 - 0.99^n)` and the tables as they were; the write-back
is triggered by the first update `n + 1` with `|s| * (1 - 0.99^(n+1)) >= 0.03`,
and `g_ltft` is then 0. Every triggering update comes later than
`0.03 / (0.01 * |s|)` updates, and for `|s| <= 0.03` no update triggers. -/
theorem writeback_steps_amended (checksum : table_16x16_t → ℕ) (s : ℚ) (rpm load t0 : ℕ)
    (st : P4.trim_state_t) (hs : |s| ≤ 1 / 4) (h0 : t0 ≠ 0) (hl : st.g_ltft = 0)
    (hw : st.window = P4.ltft_window_t.mk rpm load t0) :
    (∀ es : List (ℕ × Bool), (∀ e ∈ es, t0 + 500 ≤ e.1 ∧ e.1 < 4294967296) →
      |P4.spec_ltft_after s es.length| < 3 / 100 →
      P4.first_writeback checksum st s rpm load es = none ∧
      (P4.closed_loop_run checksum st s rpm load es).g_ltft = P4.spec_ltft_after s es.length ∧
      (P4.closed_loop_run checksum st s rpm load es).g_maps = st.g_maps) ∧
    (∀ (es : List (ℕ × Bool)) (last : ℕ × Bool),
      (∀ e ∈ es ++ [last], t0 + 500 ≤ e.1 ∧ e.1 < 4294967296) →
      |P4.spec_ltft_after s es.length| < 3 / 100 →
      3 / 100 ≤ |P4.spec_ltft_after s (es.length + 1)| →
      P4.first_writeback checksum st s rpm load (es ++ [last]) = some (es.length + 1) ∧
      (P4.closed_loop_run checksum st s rpm load (es ++ [last])).g_ltft = 0) ∧
    (∀ (es : List (ℕ × Bool)) (j : ℕ), (∀ e ∈ es, t0 + 500 ≤ e.1 ∧ e.1 < 4294967296) →
      P4.first_writeback checksum st s rpm load es = some j →
      3 / 100 ≤ |P4.spec_ltft_after s j| ∧ (3 / 100 : ℚ) / (1 / 100 * |s|) < (j : ℚ)) ∧
    (|s| ≤ 3 / 100 → ∀ es : List (ℕ × Bool),
      (∀ e ∈ es, t0 + 500 ≤ e.1 ∧ e.1 < 4294967296) →
      P4.first_writeback checksum st s rpm load es = none) := by
  have hi := stable_inv_start st s rpm load t0 hl hw
  refine ⟨fun es ht hq => ?_, fun es last ht hq1 hq2 => ?_, fun es j ht hf => ?_,
    fun hsmall es ht => ?_⟩
  · obtain ⟨r1, r2, r3⟩ := stable_run_quiet checksum s rpm load t0 hs h0 es st 0 hi ht
      (by rw [Nat.zero_add]; exact hq)
    rw [Nat.zero_add] at r2
    exact ⟨r1, r2.1, r3⟩
  · exact stable_run_trigger checksum s rpm load t0 hs h0 last es st 0 hi ht
      (by rw [Nat.zero_add]; exact hq1) (by rw [Nat.zero_add]; exact hq2)
  · obtain ⟨_, _, c⟩ := stable_run_first checksum s rpm load t0 hs h0 es st 0 j hi ht hf
    rw [Nat.zero_add] at c
    exact ⟨c, trigger_step_late s j hs c⟩
  · have hq : |P4.spec_ltft_after s (0 + es.length)| < 3 / 100 := by
      by_cases hz : s = 0
      · rw [abs_ltft_after, hz]
        norm_num
      · exact lt_of_lt_of_le (abs_ltft_after_lt s _ hz) hsmall
    exact (stable_run_quiet checksum s rpm load t0 hs h0 es st 0 hi ht hq).1

theorem writeback_steps_amended_witness :
    |(1 / 4 : ℚ)| ≤ 1 / 4 ∧
    |P4.spec_ltft_after (1 / 4) (example_stable_times 12).length| < 3 / 100 ∧
    3 / 100 ≤ |P4.spec_ltft_after (1 / 4) ((example_stable_times 12).length + 1)| ∧
    P4.first_writeback spec_table_16x16_checksum example_trim_stable (1 / 4) 3000 500
        (example_stable_times 12 ++ [(7500, false)])
      = some ((example_stable_times 12).length + 1) ∧
    (P4.closed_loop_run spec_table_16x16_checksum example_trim_stable (1 / 4) 3000 500
      (example_stable_times 12 ++ [(7500, false)])).g_ltft = 0 :=
  have hlen : (example_stable_times 12).length = 12 := by
    simp [example_stable_times]
  have hs : |(1 / 4 : ℚ)| ≤ 1 / 4 := by
    norm_num [abs_of_pos]
  have h12 : |P4.spec_ltft_after (1 / 4) (example_stable_times 12).length| < 3 / 100 := by
    rw [hlen]
    exact example_quarter_12
  have h13 : 3 / 100 ≤ |P4.spec_ltft_after (1 / 4) ((example_stable_times 12).length + 1)| := by
    rw [hlen]
    exact example_quarter_13
  ⟨hs, h12, h13,
    (writeback_steps_amended spec_table_16x16_checksum (1 / 4) 3000 500 1000
      example_trim_stable hs (by decide) rfl rfl).2.1 (example_stable_times 12) (7500, false)
      example_stable_times_ok h12 h13⟩


/-! ## Persistence of the maps (P4) -/

theorem persist_calls_iff (st : P4.trim_state_t) (now_ms : ℕ) :
    P4.maybe_persist_calls_save st now_ms = true ↔
      st.g_map_dirty = true ∧
        5000 ≤ (now_ms + 4294967296 - st.g_last_map_save_ms) % 4294967296 := by
  unfold P4.maybe_persist_calls_save P4.MAP_SAVE_INTERVAL_MS
  cases hd : st.g_map_dirty
  · simp
  · by_cases h : (now_ms + 4294967296 - st.g_last_map_save_ms) % 4294967296 < 5000
    · rw [if_neg (by decide), if_pos h]
      simp only [Bool.false_eq_true, true_and, false_iff, not_le]
      exact h
    · rw [if_neg (by decide), if_neg h]
      simp only [true_and, true_iff]
      exact not_lt.mp h

theorem persist_saved (st : P4.trim_state_t) (now_ms : ℕ) (save_ok : Bool)
    (hc : P4.maybe_persist_calls_save st now_ms = true) (hs : save_ok = true) :
    P4.maybe_persist_maps st now_ms save_ok
      = P4.trim_state_t.mk st.g_maps st.g_stft st.g_ltft st.window now_ms false := by
  obtain ⟨hd, ht⟩ := (persist_calls_iff st now_ms).mp hc
  unfold P4.maybe_persist_maps P4.MAP_SAVE_INTERVAL_MS
  rw [if_neg (by rw [hd]; decide), if_neg (not_lt.mpr ht), if_pos hs]

theorem persist_not_saved (st : P4.trim_state_t) (now_ms : ℕ) (save_ok : Bool)
    (h : P4.maybe_persist_calls_save st now_ms = false ∨ save_ok = false) :
    P4.maybe_persist_maps st now_ms save_ok = st := by
  unfold P4.maybe_persist_maps
  unfold P4.maybe_persist_calls_save at h
  split_ifs with h1 h2 h3
  · rfl
  · rfl
  · rcases h with h | h
    · rw [if_neg h1, if_neg h2] at h
      exact Bool.noConfusion h
    · rw [h3] at h
      exact Bool.noConfusion h
  · rfl

theorem persist_elapsed (last now_ms : ℕ) (h1 : last ≤ now_ms) (h2 : now_ms < 4294967296) :
    (now_ms + 4294967296 - last) % 4294967296 = now_ms - last := by
  omega

theorem persist_run_spaced (es : List P4.persist_event_t) :
    ∀ st : P4.trim_state_t,
      List.Pairwise (fun a b : P4.persist_event_t => a.now_ms ≤ b.now_ms) es →
      (∀ e ∈ es, st.g_last_map_save_ms ≤ e.now_ms ∧ e.now_ms < 4294967296) →
      List.Pairwise (fun a b : ℕ => a + 5000 ≤ b) (P4.persist_run st es).2 ∧
      ∀ t ∈ (P4.persist_run st es).2, st.g_last_map_save_ms + 5000 ≤ t := by
  induction es with
  | nil =>
    intro st _ _
    exact ⟨List.Pairwise.nil, fun t ht => absurd ht (List.not_mem_nil t)⟩
  | cons e es ih =>
    intro st hp hb
    obtain ⟨hhead, htail⟩ := List.pairwise_cons.mp hp
    obtain ⟨hb1, hb2⟩ := hb e (List.mem_cons_self e es)
    unfold P4.persist_run
    dsimp only
    generalize hst1 : (if e.dirty_set = true then
        P4.trim_state_t.mk st.g_maps st.g_stft st.g_ltft st.window st.g_last_map_save_ms true
      else st) = st1
    have hl1 : st1.g_last_map_save_ms = st.g_last_map_save_ms := by
      rw [← hst1]
      split_ifs <;> rfl
    by_cases hsv : (P4.maybe_persist_calls_save st1 e.now_ms && e.save_ok) = true
    · obtain ⟨hc, hs⟩ := Bool.and_eq_true_iff.mp hsv
      rw [if_pos hsv, persist_saved st1 e.now_ms e.save_ok hc hs]
      obtain ⟨r1, r2⟩ := ih (P4.trim_state_t.mk st1.g_maps st1.g_stft st1.g_ltft st1.window
        e.now_ms false) htail (fun x hx => ⟨hhead x hx, (hb x (List.mem_cons_of_mem e hx)).2⟩)
      have ht := ((persist_calls_iff st1 e.now_ms).mp hc).2
      rw [hl1, persist_elapsed _ _ hb1 hb2] at ht
      refine ⟨List.pairwise_cons.mpr ⟨fun t ht2 => r2 t ht2, r1⟩, fun t ht2 => ?_⟩
      rcases List.mem_cons.mp ht2 with h | h
      · rw [h]
        omega
      · have := r2 t h
        simp only at this
        omega
    · rw [if_neg hsv]
      have hns : P4.maybe_persist_calls_save st1 e.now_ms = false ∨ e.save_ok = false := by
        cases h1 : P4.maybe_persist_calls_save st1 e.now_ms
        · exact Or.inl rfl
        · cases h2 : e.save_ok
          · exact Or.inr rfl
          · rw [h1, h2] at hsv
            exact absurd rfl hsv
      rw [persist_not_saved st1 e.now_ms e.save_ok hns]
      obtain ⟨r1, r2⟩ := ih st1 htail
        (fun x hx => ⟨by rw [hl1]; exact (hb x (List.mem_cons_of_mem e hx)).1,
          (hb x (List.mem_cons_of_mem e hx)).2⟩)
      refine ⟨r1, fun t ht2 => ?_⟩
      have := r2 t ht2
      rw [hl1] at this
      exact this

/-- C23. `maybe_persist_maps` reaches `map_storage_save` exactly when the dirty
flag is set and the 32-bit difference `now_ms - g_last_map_save_ms` is at least
5000, which for a clock that has not gone back and is below `2^32` is the time
since the last successful save; a successful save clears the flag and records
`now_ms`, a failed save or no call leaves every variable as it was; hence in
any history with a non-decreasing clock the successful saves are pairwise at
least 5000 ms apart, the first at least 5000 ms after the recorded time. -/
theorem persist_interval :
    (∀ (st : P4.trim_state_t) (now_ms : ℕ),
      (P4.maybe_persist_calls_save st now_ms = true ↔
        st.g_map_dirty = true ∧
          5000 ≤ (now_ms + 4294967296 - st.g_last_map_save_ms) % 4294967296) ∧
      (st.g_last_map_save_ms ≤ now_ms → now_ms < 4294967296 →
        (now_ms + 4294967296 - st.g_last_map_save_ms) % 4294967296
          = now_ms - st.g_last_map_save_ms)) ∧
    (∀ (st : P4.trim_state_t) (now_ms : ℕ) (save_ok : Bool),
      (P4.maybe_persist_calls_save st now_ms = true → save_ok = true →
        P4.maybe_persist_maps st now_ms save_ok
          = P4.trim_state_t.mk st.g_maps st.g_stft st.g_ltft st.window now_ms false) ∧
      (P4.maybe_persist_calls_save st now_ms = false ∨ save_ok = false →
        P4.maybe_persist_maps st now_ms save_ok = st)) ∧
    (∀ (st : P4.trim_state_t) (es : List P4.persist_event_t),
      List.Pairwise (fun a b : P4.persist_event_t => a.now_ms ≤ b.now_ms) es →
      (∀ e ∈ es, st.g_last_map_save_ms ≤ e.now_ms ∧ e.now_ms < 4294967296) →
      List.Pairwise (fun a b : ℕ => a + 5000 ≤ b) (P4.persist_run st es).2 ∧
      ∀ t ∈ (P4.persist_run st es).2, st.g_last_map_save_ms + 5000 ≤ t) :=
  ⟨fun st now_ms => ⟨persist_calls_iff st now_ms, persist_elapsed _ _⟩,
    fun st now_ms save_ok =>
      ⟨persist_saved st now_ms save_ok, persist_not_saved st now_ms save_ok⟩,
    fun st es => persist_run_spaced es st⟩

theorem example_persist_run :
    (P4.persist_run (P4.trim_state_init example_maps) example_persist_events).2
      = [6000, 12000] := by
  decide

theorem persist_interval_witness :
    List.Pairwise (fun a b : P4.persist_event_t => a.now_ms ≤ b.now_ms)
      example_persist_events ∧
    (∀ e ∈ example_persist_events,
      (P4.trim_state_init example_maps).g_last_map_save_ms ≤ e.now_ms ∧
        e.now_ms < 4294967296) ∧
    (P4.persist_run (P4.trim_state_init example_maps) example_persist_events).2
      = [6000, 12000] ∧
    List.Pairwise (fun a b : ℕ => a + 5000 ≤ b)
      (P4.persist_run (P4.trim_state_init example_maps) example_persist_events).2 :=
  have hp : List.Pairwise (fun a b : P4.persist_event_t => a.now_ms ≤ b.now_ms)
      example_persist_events := by
    decide
  have hb : ∀ e ∈ example_persist_events,
      (P4.trim_state_init example_maps).g_last_map_save_ms ≤ e.now_ms ∧
        e.now_ms < 4294967296 := by
    decide
  ⟨hp, hb, example_persist_run,
    (persist_interval.2.2 (P4.trim_state_init example_maps) example_persist_events hp hb).1⟩


/-! ## Cranking rpm (`lp_core.c`) -/

theorem calculate_rpm_quotient (t : ℕ) (h0 : 0 < t) (h1 : t < 4294967296) :
    P4.calculate_rpm t = if 1000000 / t > 15000 then 0 else 1000000 / t := by
  have e1 : (t * 60) % 18446744073709551616 = t * 60 := Nat.mod_eq_of_lt (by omega)
  have e2 : 60000000 / (t * 60) = 1000000 / t := by
    rw [Nat.mul_comm, ← Nat.div_div_eq_div_mul]
  have e3 : 1000000 / t ≤ 1000000 := Nat.div_le_self _ _
  have e4 : 1000000 / t % 4294967296 = 1000000 / t := Nat.mod_eq_of_lt (by omega)
  have ht : ¬ t = 0 := by omega
  unfold P4.calculate_rpm
  rw [if_neg ht]
  dsimp only
  rw [e1, e2, e4]
  split_ifs with h
  · rfl
  · exact Nat.mod_eq_of_lt (by omega)

theorem calculate_rpm_slow (t : ℕ) (h0 : 67 ≤ t) (h1 : t < 4294967296) :
    P4.calculate_rpm t = 1000000 / t ∧ P4.calculate_rpm t ≤ 14925 := by
  have hq : 1000000 / t ≤ 14925 := by
    have := Nat.div_le_div_left (a := 1000000) h0 (by decide)
    omega
  rw [calculate_rpm_quotient t (by omega) h1, if_neg (by omega)]
  exact ⟨rfl, hq⟩

theorem calculate_rpm_fast (t : ℕ) (h0 : 0 < t) (h1 : t ≤ 66) : P4.calculate_rpm t = 0 := by
  have hq : 15151 ≤ 1000000 / t := by
    have := Nat.div_le_div_left (a := 1000000) h1 h0
    omega
  rw [calculate_rpm_quotient t h0 (by omega), if_pos (by omega)]

theorem nat_div_within_one (t : ℕ) (h0 : 0 < t) :
    |((1000000 / t : ℕ) : ℚ) - (60000000 : ℚ) / ((t : ℚ) * 60)| ≤ 1 := by
  have ht : (0 : ℚ) < (t : ℚ) := by exact_mod_cast h0
  have e : (60000000 : ℚ) / ((t : ℚ) * 60) = 1000000 / (t : ℚ) := by
    field_simp
    ring
  have hm := Nat.div_add_mod 1000000 t
  have hr := Nat.mod_lt 1000000 h0
  have hq : ((1000000 / t : ℕ) : ℚ) * (t : ℚ) + ((1000000 % t : ℕ) : ℚ) = 1000000 := by
    have : (t * (1000000 / t) + 1000000 % t : ℕ) = 1000000 := hm
    have h2 : (((t * (1000000 / t) + 1000000 % t : ℕ)) : ℚ) = 1000000 := by
      rw [this]
      norm_num
    push_cast at h2
    linarith
  have hr2 : ((1000000 % t : ℕ) : ℚ) < (t : ℚ) := by exact_mod_cast hr
  have hr0 : (0 : ℚ) ≤ ((1000000 % t : ℕ) : ℚ) := Nat.cast_nonneg _
  have hx : ((1000000 / t : ℕ) : ℚ) - 1000000 / (t : ℚ)
      = -(((1000000 % t : ℕ) : ℚ) / (t : ℚ)) := by
    field_simp
    linarith
  rw [e, hx, abs_neg, abs_of_nonneg (div_nonneg hr0 ht.le)]
  exact (div_le_one ht).mpr hr2.le

theorem rpm_floor_eq (t : ℕ) (h0 : 0 < t) :
    ⌊(60000000 : ℚ) / ((t : ℚ) * 60)⌋₊ = 1000000 / t := by
  have ht : (0 : ℚ) < (t : ℚ) := by exact_mod_cast h0
  have e : (60000000 : ℚ) / ((t : ℚ) * 60) = ((1000000 : ℕ) : ℚ) / (t : ℚ) := by
    field_simp
    ring
  rw [e, Nat.floor_div_eq_div]

/-- C24 as stated fails: a tooth period of 80 us gives 12500 rpm, above 12000
and 500 rpm away from the clamped value of the specification. -/
theorem rpm_clamp_claim_fails :
    P4.calculate_rpm 80 = 12500 ∧ P4.spec_rpm 80 = 12000 ∧ ¬ P4.calculate_rpm 80 ≤ 12000 ∧
    ¬ |((P4.calculate_rpm 80 : ℕ) : ℚ) - P4.spec_rpm 80| ≤ 1 := by
  have e1 : P4.calculate_rpm 80 = 12500 := by decide
  have e2 : P4.spec_rpm 80 = 12000 := by
    norm_num [P4.spec_rpm, spec_clamp]
  refine ⟨e1, e2, ?_, ?_⟩
  · rw [e1]
    decide
  · rw [e1, e2]
    norm_num [abs_of_pos]

/-- C24, amended. For every 32-bit tooth period `T > 0` on a 60-2 wheel,
`calculate_rpm(T)` is `floor(60 * 10^6 / (T * 60))` when `T >= 67` (the quotient
is then at most 15000), hence within 1 rpm of `60 * 10^6 / (T * 60)`, and 0 when
`T <= 66` (the quotient exceeds 15000). It never returns a value above 15000;
there is no clamp to 12000. -/
theorem rpm_floor_amended (t : ℕ) (h0 : 0 < t) (h1 : t < 4294967296) :
    (67 ≤ t →
      P4.calculate_rpm t = ⌊(60000000 : ℚ) / ((t : ℚ) * 60)⌋₊ ∧
      |((P4.calculate_rpm t : ℕ) : ℚ) - (60000000 : ℚ) / ((t : ℚ) * 60)| ≤ 1) ∧
    (t ≤ 66 → P4.calculate_rpm t = 0) ∧
    P4.calculate_rpm t ≤ 15000 := by
  refine ⟨fun h => ?_, fun h => calculate_rpm_fast t h0 h, ?_⟩
  · obtain ⟨e, _⟩ := calculate_rpm_slow t h h1
    rw [e]
    exact ⟨(rpm_floor_eq t h0).symm, nat_div_within_one t h0⟩
  · by_cases h : 67 ≤ t
    · have := (calculate_rpm_slow t h h1).2
      omega
    · rw [calculate_rpm_fast t h0 (by omega)]
      omega

theorem rpm_floor_amended_witness :
    0 < 80 ∧ 80 < 4294967296 ∧ P4.calculate_rpm 80 = 12500 ∧
    P4.calculate_rpm 80 = ⌊(60000000 : ℚ) / (((80 : ℕ) : ℚ) * 60)⌋₊ ∧
    P4.calculate_rpm 80 ≤ 15000 :=
  ⟨by decide, by decide, by decide,
    ((rpm_floor_amended 80 (by decide) (by decide)).1 (by decide)).1,
    (rpm_floor_amended 80 (by decide) (by decide)).2.2⟩


/-! ## Bin search (`find_bin_index`) -/

theorem find_range_some (p : ℕ → Bool) (n : ℕ) :
    ∀ (s i : ℕ), (List.range' s n).find? p = some i →
      s ≤ i ∧ i < s + n ∧ p i = true ∧ ∀ j, s ≤ j → j < i → p j = false := by
  induction n with
  | zero =>
    intro s i h
    exact Option.noConfusion h
  | succ n ih =>
    intro s i h
    rw [List.range'_succ, List.find?_cons] at h
    cases hp : p s
    · rw [hp] at h
      obtain ⟨a, b, c, d⟩ := ih (s + 1) i h
      refine ⟨by omega, by omega, c, fun j hj1 hj2 => ?_⟩
      by_cases hjs : j = s
      · rw [hjs]
        exact hp
      · exact d j (by omega) hj2
    · rw [hp] at h
      have e : s = i := Option.some.inj h
      rw [← e]
      exact ⟨le_refl s, by omega, hp, fun j hj1 hj2 => by omega⟩

theorem find_range_none (p : ℕ → Bool) (n : ℕ) :
    ∀ s : ℕ, (List.range' s n).find? p = none → ∀ j, s ≤ j → j < s + n → p j = false := by
  induction n with
  | zero =>
    intro s _ j hj1 hj2
    omega
  | succ n ih =>
    intro s h j hj1 hj2
    rw [List.range'_succ, List.find?_cons] at h
    cases hp : p s
    · rw [hp] at h
      by_cases hjs : j = s
      · rw [hjs]
        exact hp
      · exact ih (s + 1) h j (by omega) (by omega)
    · rw [hp] at h
      exact Option.noConfusion h

theorem find_bin_index_char (bins : ℕ → ℕ) (v : ℕ) :
    find_bin_index bins v ≤ 14 ∧
    (∀ j, j < find_bin_index bins v → bins (j + 1) ≤ v) ∧
    (find_bin_index bins v < 14 → v < bins (find_bin_index bins v + 1)) := by
  unfold find_bin_index
  rw [List.range_eq_range']
  cases h : (List.range' 0 15).find? fun i => decide (v < bins (i + 1)) with
  | none =>
    have hn := find_range_none _ 15 0 h
    refine ⟨le_refl 14, fun j hj => ?_, fun hlt => absurd hlt (lt_irrefl 14)⟩
    have hj2 : j < 14 := hj
    have := hn j (Nat.zero_le j) (by omega)
    exact not_lt.mp (of_decide_eq_false this)
  | some i =>
    obtain ⟨_, hi, hp, hb⟩ := find_range_some _ 15 0 i h
    refine ⟨?_, fun j hj => ?_, fun _ => ?_⟩
    · show i ≤ 14
      omega
    · have hj2 : j < i := hj
      exact not_lt.mp (of_decide_eq_false (hb j (Nat.zero_le j) hj2))
    · exact of_decide_eq_true hp

theorem bins_mono (bins : ℕ → ℕ) (h : ∀ i, i < 15 → bins i < bins (i + 1)) :
    ∀ (d i : ℕ), i + d ≤ 15 → bins i ≤ bins (i + d) := by
  intro d
  induction d with
  | zero =>
    intro i _
    exact le_refl _
  | succ d ih =>
    intro i hi
    have h1 := ih i (by omega)
    have h2 := h (i + d) (by omega)
    have e : i + (d + 1) = i + d + 1 := by omega
    rw [e]
    omega

theorem bins_le (bins : ℕ → ℕ) (h : ∀ i, i < 15 → bins i < bins (i + 1)) (i j : ℕ)
    (hij : i ≤ j) (hj : j ≤ 15) : bins i ≤ bins j := by
  have := bins_mono bins h (j - i) i (by omega)
  have e : i + (j - i) = j := by omega
  rw [e] at this
  exact this

/-- C26. For a strictly increasing 16-entry bin array and any value `v`,
`find_bin_index(bins, v)` is the largest `i` with `bins[i] <= v`, clamped to
`0..14`: it is at most 14 (so `i` and `i + 1` are valid indices), 0 when
`v < bins[1]`, 14 when `v >= bins[14]`, and otherwise the unique `i` with
`bins[i] <= v < bins[i+1]`. -/
theorem find_bin_index_spec (bins : ℕ → ℕ) (v : ℕ)
    (hmono : ∀ i, i < 15 → bins i < bins (i + 1)) :
    (find_bin_index bins v ≤ 14 ∧ find_bin_index bins v + 1 ≤ 15) ∧
    (v < bins 1 → find_bin_index bins v = 0) ∧
    (bins 14 ≤ v → find_bin_index bins v = 14) ∧
    (bins 1 ≤ v → v < bins 14 →
      bins (find_bin_index bins v) ≤ v ∧ v < bins (find_bin_index bins v + 1)) ∧
    (∀ i, i ≤ 14 → bins i ≤ v → v < bins (i + 1) → find_bin_index bins v = i) ∧
    (bins 0 ≤ v → bins (find_bin_index bins v) ≤ v) ∧
    (∀ i, i ≤ 15 → bins i ≤ v → min i 14 ≤ find_bin_index bins v) := by
  obtain ⟨h14, hbelow, habove⟩ := find_bin_index_char bins v
  generalize find_bin_index bins v = r at h14 hbelow habove
  have hle := bins_le bins hmono
  have hlow : bins 0 ≤ v → bins r ≤ v := by
    intro h0
    by_cases hr : r = 0
    · rw [hr]
      exact h0
    · have := hbelow (r - 1) (by omega)
      have e : r - 1 + 1 = r := by omega
      rw [e] at this
      exact this
  have hmax : ∀ i, i ≤ 15 → bins i ≤ v → min i 14 ≤ r := by
    intro i hi hv
    by_contra hc
    have hr : r < min i 14 := not_le.mp hc
    have hr14 : r < 14 := lt_of_lt_of_le hr (min_le_right i 14)
    have hri : r < i := lt_of_lt_of_le hr (min_le_left i 14)
    have h1 := habove hr14
    have h2 := hle (r + 1) i (by omega) hi
    omega
  refine ⟨⟨h14, by omega⟩, fun h => ?_, fun h => ?_, fun h1 h2 => ?_, fun i hi h1 h2 => ?_, hlow,
    hmax⟩
  · by_contra hc
    have hb1 : bins 1 ≤ v := hbelow 0 (by omega)
    omega
  · have := hmax 14 (by omega) h
    have e : min 14 14 = 14 := min_self 14
    omega
  · have hr : r < 14 := by
      by_contra hc
      have hr14 : r = 14 := by omega
      have hb14 : bins 14 ≤ v := hbelow 13 (by omega)
      omega
    have h0 : bins 0 < bins 1 := hmono 0 (by omega)
    exact ⟨hlow (by omega), habove hr⟩
  · have h3 := hmax i (by omega) h1
    have e : min i 14 = i := min_eq_left hi
    by_contra hc
    have hlt : i < r := by omega
    have := hbelow i hlt
    omega

theorem find_bin_index_spec_witness :
    (∀ i, i < 15 → example_table.rpm_bins i < example_table.rpm_bins (i + 1)) ∧
    find_bin_index example_table.rpm_bins 3200 = 6 ∧
    (example_table.rpm_bins 1 ≤ 3200 → 3200 < example_table.rpm_bins 14 →
      example_table.rpm_bins (find_bin_index example_table.rpm_bins 3200) ≤ 3200 ∧
        3200 < example_table.rpm_bins (find_bin_index example_table.rpm_bins 3200 + 1)) :=
  have hm : ∀ i, i < 15 → example_table.rpm_bins i < example_table.rpm_bins (i + 1) := by
    decide
  ⟨hm, by decide, (find_bin_index_spec example_table.rpm_bins 3200 hm).2.2.2.1⟩


/-! ## The early return of `engine_control_get_engine_parameters` (P4) -/

theorem get_params_early_return (interp : table_16x16_t → ℕ → ℕ → ℕ)
    (checksum : table_16x16_t → ℕ) (st : P4.engine_state_t) (env : P4.params_env_t)
    (p : P4.engine_params_t) (sensp : sensor_data_t) (sdp : sync_data_t)
    (hs : env.sensor_read = some sensp) (hy : env.sync_read = some sdp)
    (hm : st.g_engine_math_ready = true)
    (hv : (P4.lambda_source env.lam sensp.o2_mv).2 = true)
    (hc : P4.refresh_closed_loop_from_sdio st.g_closed_loop_enabled env.sdio_closed_loop
      = false) :
    (P4.engine_control_get_engine_parameters interp checksum st env (some p)).err
      = P4.esp_err_t.ESP_OK ∧
    (P4.engine_control_get_engine_parameters interp checksum st env (some p)).params = some p ∧
    (P4.engine_control_get_engine_parameters interp checksum st env (some p)).state.trim
      = st.trim ∧
    (P4.engine_control_get_engine_parameters interp checksum st env (some p)).state.g_limp_mode
      = st.g_limp_mode := by
  unfold P4.engine_control_get_engine_parameters
  rw [hs, hy]
  dsimp only
  rw [if_pos ⟨hm, hv, hc⟩]
  exact ⟨rfl, rfl, rfl, rfl⟩

theorem example_lambda_valid (now_ms : ℕ) :
    (P4.lambda_source (example_lambda_env now_ms) example_sensors_o2.o2_mv).2 = true := by
  simp [P4.lambda_source, example_lambda_env, example_sensors_o2]

theorem run_cycle_blind_over_rev (interp : table_16x16_t → ℕ → ℕ → ℕ)
    (checksum : table_16x16_t → ℕ) (st : P4.engine_state_t) (env : P4.cycle_env_t)
    (sensp sensor : sensor_data_t) (sdp sd : sync_data_t)
    (hs : env.params_env.sensor_read = some sensp) (hy : env.params_env.sync_read = some sdp)
    (hm : st.g_engine_math_ready = true)
    (hv : (P4.lambda_source env.params_env.lam sensp.o2_mv).2 = true)
    (hc : P4.refresh_closed_loop_from_sdio st.g_closed_loop_enabled
      env.params_env.sdio_closed_loop = false)
    (hsd : env.sync_read = some sd) (hvalid : sd.sync_valid = true)
    (hse : env.sensor_read = some sensor) (hclt : sensor.clt_c ≤ 120)
    (hv1 : 70 ≤ sensor.vbat_dv) (hv2 : sensor.vbat_dv ≤ 170) :
    (P4.engine_control_run_cycle interp checksum st env).err = P4.esp_err_t.ESP_OK ∧
    (P4.engine_control_run_cycle interp checksum st env).state.g_limp_mode = st.g_limp_mode := by
  obtain ⟨he, hp, _, hl⟩ := get_params_early_return interp checksum st env.params_env
    P4.engine_params_zero sensp sdp hs hy hm hv hc
  have h0 : (P4.engine_params_zero.rpm % 65536) < 7500 := by decide
  unfold P4.engine_control_run_cycle
  dsimp only
  rw [if_neg (by rw [he]; decide), hsd]
  dsimp only
  rw [if_neg (by rw [hvalid]; decide), hse]
  dsimp only
  rw [hp, Option.getD_some, safety_checks_pass _ _ _ _ _ h0 hclt hv1 hv2]
  dsimp only
  rw [if_neg (by decide)]
  exact ⟨rfl, hl⟩

/-- C27 fails on the code: with the engine math ready, the closed loop disabled
and a valid lambda reading, `engine_control_get_engine_parameters` returns
`ESP_OK` and leaves the zero-initialised `*params` untouched although the crank
reports 7000 rpm; `engine_control_run_cycle` then checks rpm 0, so a cycle at
7600 rpm returns `ESP_OK` without activating limp mode. -/
theorem params_early_return_bug :
    (P4.engine_control_get_engine_parameters example_interpolate spec_table_16x16_checksum
      example_state_open_loop (example_params_env_o2 example_sync_7000)
      (some P4.engine_params_zero)).err = P4.esp_err_t.ESP_OK ∧
    (P4.engine_control_get_engine_parameters example_interpolate spec_table_16x16_checksum
      example_state_open_loop (example_params_env_o2 example_sync_7000)
      (some P4.engine_params_zero)).params = some P4.engine_params_zero ∧
    P4.engine_params_zero.rpm = 0 ∧ example_sync_7000.rpm = 7000 ∧
    (P4.engine_control_run_cycle example_interpolate spec_table_16x16_checksum
      example_state_open_loop (example_cycle_env_o2 example_sync_7600)).err
      = P4.esp_err_t.ESP_OK ∧
    (P4.engine_control_run_cycle example_interpolate spec_table_16x16_checksum
      example_state_open_loop
      (example_cycle_env_o2 example_sync_7600)).state.g_limp_mode.active = false := by
  obtain ⟨h1, h2, _, _⟩ := get_params_early_return example_interpolate
    spec_table_16x16_checksum example_state_open_loop (example_params_env_o2 example_sync_7000)
    P4.engine_params_zero example_sensors_o2 example_sync_7000 rfl rfl rfl
    (example_lambda_valid 1000) rfl
  obtain ⟨h3, h4⟩ := run_cycle_blind_over_rev example_interpolate spec_table_16x16_checksum
    example_state_open_loop (example_cycle_env_o2 example_sync_7600) example_sensors_o2
    example_sensors_o2 example_sync_7600 example_sync_7600 rfl rfl rfl
    (example_lambda_valid 1000) rfl rfl rfl rfl (by decide) (by decide) (by decide)
  refine ⟨h1, h2, rfl, rfl, h3, ?_⟩
  rw [h4]
  rfl


/-! ## One-shot injector arming (S3 `mcpwm_injection.c`) -/

theorem injection_one_shot_exact (g_initialized : Bool) (g_cfg : mcpwm_injection_config_t)
    (drv : inj_drv_env_t) (cylinder_id delay_us pulsewidth_us : ℕ)
    (hpw : clamp_u32 pulsewidth_us g_cfg.min_pulsewidth_us g_cfg.max_pulsewidth_us + 2
      ≤ 4294967295)
    (h : (mcpwm_injection_schedule_one_shot g_initialized g_cfg drv cylinder_id delay_us
      pulsewidth_us).ret = true) :
    mcpwm_injection_schedule_one_shot g_initialized g_cfg drv cylinder_id delay_us pulsewidth_us
      = inj_one_shot_t.mk true
          [inj_drv_call.timer_set_period
              (delay_us + clamp_u32 pulsewidth_us g_cfg.min_pulsewidth_us
                g_cfg.max_pulsewidth_us + 1),
            inj_drv_call.set_compare_start delay_us,
            inj_drv_call.set_compare_end
              (delay_us + clamp_u32 pulsewidth_us g_cfg.min_pulsewidth_us
                g_cfg.max_pulsewidth_us),
            inj_drv_call.generator_set_force_level, inj_drv_call.timer_start_stop]
          (some (clamp_u32 pulsewidth_us g_cfg.min_pulsewidth_us g_cfg.max_pulsewidth_us)) ∧
    delay_us + clamp_u32 pulsewidth_us g_cfg.min_pulsewidth_us g_cfg.max_pulsewidth_us + 1
      < 4294967296 := by
  generalize hpwd : clamp_u32 pulsewidth_us g_cfg.min_pulsewidth_us g_cfg.max_pulsewidth_us
    = pw at hpw
  unfold mcpwm_injection_schedule_one_shot at h ⊢
  rw [hpwd] at h ⊢
  dsimp only at h ⊢
  have hg : (4294967295 + 4294967296 - pw - 2) % 4294967296
      = 4294967295 - pw - 2 := by
    omega
  rw [hg] at h ⊢
  split_ifs at h ⊢ with h1 h2 h3 h4 h5 h6 h7
  have h8 : delay_us + pw + 1 < 4294967296 := by omega
  have e1 : (delay_us + pw) % 4294967296 = delay_us + pw := Nat.mod_eq_of_lt (by omega)
  rw [e1, Nat.mod_eq_of_lt h8]
  exact ⟨rfl, h8⟩

theorem injection_one_shot_rejects (g_initialized : Bool) (g_cfg : mcpwm_injection_config_t)
    (drv : inj_drv_env_t) (cylinder_id delay_us pulsewidth_us : ℕ)
    (hpw : clamp_u32 pulsewidth_us g_cfg.min_pulsewidth_us g_cfg.max_pulsewidth_us + 2
      ≤ 4294967295)
    (h : g_initialized = false ∨ cylinder_id ≥ 4 ∨
      delay_us > 4294967295
        - clamp_u32 pulsewidth_us g_cfg.min_pulsewidth_us g_cfg.max_pulsewidth_us - 2) :
    mcpwm_injection_schedule_one_shot g_initialized g_cfg drv cylinder_id delay_us pulsewidth_us
      = inj_one_shot_t.mk false [] none := by
  generalize hpwd : clamp_u32 pulsewidth_us g_cfg.min_pulsewidth_us g_cfg.max_pulsewidth_us
    = pw at hpw h
  unfold mcpwm_injection_schedule_one_shot
  rw [hpwd]
  dsimp only
  have hg : (4294967295 + 4294967296 - pw - 2) % 4294967296
      = 4294967295 - pw - 2 := by
    omega
  rw [hg]
  by_cases h1 : g_initialized = false ∨ cylinder_id ≥ 4
  · rw [if_pos h1]
  · rw [if_neg h1]
    have h2 : delay_us > 4294967295 - pw - 2 := by
      rcases h with h | h | h
      · exact absurd (Or.inl h) h1
      · exact absurd (Or.inr h) h1
      · exact h
    rw [if_pos h2]

/-- C28 fails on the code: with a configured maximum pulse width of
`UINT32_MAX`, `mcpwm_injection_schedule_one_shot(0, 5, UINT32_MAX)` returns true
after programming start 5, end 4 and period 5: the guard `UINT32_MAX - pw - 2`
has wrapped to `UINT32_MAX - 1`, and so has `delay_us + pw`. -/
theorem injection_one_shot_wrap_bug :
    mcpwm_injection_schedule_one_shot true example_cfg_wide inj_drv_ok 0 5 4294967295
      = inj_one_shot_t.mk true
          [inj_drv_call.timer_set_period 5, inj_drv_call.set_compare_start 5,
            inj_drv_call.set_compare_end 4, inj_drv_call.generator_set_force_level,
            inj_drv_call.timer_start_stop]
          (some 4294967295) ∧
    clamp_u32 4294967295 example_cfg_wide.min_pulsewidth_us example_cfg_wide.max_pulsewidth_us
      = 4294967295 ∧
    (4294967295 + 4294967296 - 4294967295 - 2) % 4294967296 = 4294967294 := by
  decide


/-! ## Knock retard (P4 `safety_handle_knock`) -/

theorem knock_step_bound (k : P4.knock_protection_t) (b : Bool)
    (h : k.timing_retard ≤ 105 ∧ k.timing_retard % 5 = 0) :
    ((P4.safety_handle_knock
        (some (P4.knock_protection_t.mk b k.knock_count k.timing_retard))).getD k).timing_retard
        ≤ 105 ∧
    ((P4.safety_handle_knock
        (some (P4.knock_protection_t.mk b k.knock_count k.timing_retard))).getD k).timing_retard
        % 5 = 0 := by
  obtain ⟨h1, h2⟩ := h
  have e1 : 0 < k.timing_retard → (k.timing_retard + 65536 - 5) % 65536 = k.timing_retard - 5 := by
    intro h0
    omega
  have e2 : (k.timing_retard + 10) % 65536 = k.timing_retard + 10 := by
    omega
  unfold P4.safety_handle_knock
  cases b
  · dsimp only
    rw [if_neg (by decide), Option.getD_some]
    dsimp only
    split_ifs with h3
    · rw [e1 h3]
      omega
    · omega
  · dsimp only
    rw [if_pos rfl, Option.getD_some]
    dsimp only
    split_ifs with h3
    · rw [e2]
      omega
    · omega

theorem knock_run_bound (bs : List Bool) :
    ∀ k : P4.knock_protection_t, k.timing_retard ≤ 105 ∧ k.timing_retard % 5 = 0 →
      (P4.knock_run k bs).timing_retard ≤ 105 ∧ (P4.knock_run k bs).timing_retard % 5 = 0 := by
  induction bs with
  | nil =>
    intro k h
    exact h
  | cons b bs ih =>
    intro k h
    exact ih _ (knock_step_bound k b h)

/-- C29 fails on the code: from `timing_retard = 0` and `knock_count = 0`, one
knock, one quiet call and ten more knocks take `timing_retard` through
10, 5, 15, ..., 95 to 105, above 100. -/
theorem knock_retard_overshoot :
    (P4.knock_run P4.knock_protection_zero example_knock_calls).timing_retard = 105 ∧
    (P4.knock_run P4.knock_protection_zero (example_knock_calls.take 11)).timing_retard = 95 ∧
    ¬ (P4.knock_run P4.knock_protection_zero example_knock_calls).timing_retard ≤ 100 := by
  decide


/-! ## The cranking state machine (`lp_core.c`) -/

theorem lp_core_init_inv (v : P4.lp_core_vars_t) (c : P4.lp_core_config_t)
    (mutex_created : Bool) (wakeup_err : P4.esp_err_t) :
    (P4.lp_core_init v (some c) mutex_created wakeup_err).2.g_lp_state
      = P4.lp_core_state_reset := by
  unfold P4.lp_core_init
  dsimp only
  split_ifs <;> rfl

theorem lp_core_reset_inv : P4.spec_lp_core_inv P4.lp_core_state_reset := by
  unfold P4.spec_lp_core_inv P4.lp_core_state_reset
  simp

theorem start_cranking_inv (v : P4.lp_core_vars_t) (take_ok : Bool) (now_ms : ℕ)
    (h : P4.spec_lp_core_inv v.g_lp_state) :
    P4.spec_lp_core_inv (P4.lp_core_start_cranking v take_ok now_ms).2.g_lp_state := by
  unfold P4.lp_core_start_cranking
  by_cases ht : take_ok = true
  · rw [if_pos ht]
    by_cases hc : v.g_lp_state.is_cranking = true
    · rw [if_pos hc]
      exact h
    · rw [if_neg hc]
      unfold P4.spec_lp_core_inv
      simp
  · rw [if_neg ht]
    exact h

theorem stop_cranking_inv (v : P4.lp_core_vars_t) (take_ok : Bool)
    (h : P4.spec_lp_core_inv v.g_lp_state) :
    P4.spec_lp_core_inv (P4.lp_core_stop_cranking v take_ok).2.g_lp_state := by
  unfold P4.lp_core_stop_cranking
  by_cases ht : take_ok = true
  · rw [if_pos ht]
    by_cases hc : v.g_lp_state.is_cranking = false
    · rw [if_pos hc]
      exact h
    · rw [if_neg hc]
      exact lp_core_reset_inv
  · rw [if_neg ht]
    exact h

theorem handle_sync_event_inv (v : P4.lp_core_vars_t) (take_ok : Bool) (tooth_period_us : ℕ)
    (is_gap is_phase : Bool) (now_ms : ℕ) (h : P4.spec_lp_core_inv v.g_lp_state) :
    P4.spec_lp_core_inv
      (P4.lp_core_handle_sync_event v take_ok tooth_period_us is_gap is_phase
        now_ms).2.g_lp_state := by
  obtain ⟨h1, h2⟩ := h
  unfold P4.lp_core_handle_sync_event
  by_cases ht : take_ok = true
  · rw [if_pos ht]
    by_cases hc : v.g_lp_state.is_cranking = false
    · rw [if_pos hc]
      exact ⟨h1, h2⟩
    · rw [if_neg hc]
      unfold P4.spec_lp_core_inv
      dsimp only
      have hG : v.g_lp_state.gap_detected ≠ 0 →
          (if is_gap = true then 1 else v.g_lp_state.gap_detected) ≠ 0 := by
        intro hg
        split_ifs
        · exact Nat.one_ne_zero
        · exact hg
      have hP : v.g_lp_state.phase_detected ≠ 0 →
          (if is_phase = true then 1 else v.g_lp_state.phase_detected) ≠ 0 := by
        intro hp
        split_ifs
        · exact Nat.one_ne_zero
        · exact hp
      generalize (if is_gap = true then 1 else v.g_lp_state.gap_detected) = G at hG ⊢
      generalize (if is_phase = true then 1 else v.g_lp_state.phase_detected) = P at hP ⊢
      generalize (if is_gap = true then 0
        else (v.g_lp_state.tooth_counter + 1) % 4294967296) = T
      refine ⟨fun hs => ?_, h2⟩
      by_cases hq : T ≥ 10 ∧ G ≠ 0 ∧ P ≠ 0
      · exact ⟨hq.2.1, hq.2.2⟩
      · rw [if_neg hq] at hs
        obtain ⟨hg, hp⟩ := h1 hs
        exact ⟨hG hg, hP hp⟩
  · rw [if_neg ht]
    exact ⟨h1, h2⟩

theorem perform_handover_inv (crc : P4.lp_core_handover_data_t → ℕ) (v : P4.lp_core_vars_t)
    (take_ok : Bool) (h : P4.spec_lp_core_inv v.g_lp_state) :
    P4.spec_lp_core_inv (P4.lp_core_perform_handover crc v take_ok).2.g_lp_state := by
  obtain ⟨h1, h2⟩ := h
  unfold P4.lp_core_perform_handover
  by_cases ht : take_ok = true
  · rw [if_pos ht]
    by_cases hc : v.g_lp_state.is_cranking = false ∨ v.g_lp_state.is_sync_acquired = false
    · rw [if_pos hc]
      exact ⟨h1, h2⟩
    · rw [if_neg hc]
      unfold P4.spec_lp_core_inv
      dsimp only
      exact ⟨h1, fun hb => Bool.noConfusion hb.1⟩
  · rw [if_neg ht]
    exact ⟨h1, h2⟩

theorem reset_state_inv (v : P4.lp_core_vars_t) (take_ok : Bool)
    (h : P4.spec_lp_core_inv v.g_lp_state) :
    P4.spec_lp_core_inv (P4.lp_core_reset_state v take_ok).2.g_lp_state := by
  unfold P4.lp_core_reset_state
  by_cases ht : take_ok = true
  · rw [if_pos ht]
    exact lp_core_reset_inv
  · rw [if_neg ht]
    exact h

theorem lp_core_step_inv (crc : P4.lp_core_handover_data_t → ℕ) (v : P4.lp_core_vars_t)
    (op : P4.lp_core_op) (h : P4.spec_lp_core_inv v.g_lp_state) :
    P4.spec_lp_core_inv (P4.lp_core_step crc v op).2.g_lp_state := by
  cases op with
  | start_cranking take_ok now_ms => exact start_cranking_inv v take_ok now_ms h
  | stop_cranking take_ok => exact stop_cranking_inv v take_ok h
  | handle_sync_event take_ok tooth_period_us is_gap is_phase now_ms =>
    exact handle_sync_event_inv v take_ok tooth_period_us is_gap is_phase now_ms h
  | perform_handover take_ok => exact perform_handover_inv crc v take_ok h
  | reset_state take_ok => exact reset_state_inv v take_ok h

theorem lp_core_run_inv (crc : P4.lp_core_handover_data_t → ℕ) (ops : List P4.lp_core_op) :
    ∀ v : P4.lp_core_vars_t, P4.spec_lp_core_inv v.g_lp_state →
      P4.spec_lp_core_inv (P4.lp_core_run crc v ops).g_lp_state := by
  induction ops with
  | nil =>
    intro v h
    exact h
  | cons op ops ih =>
    intro v h
    exact ih _ (lp_core_step_inv crc v op h)

theorem ite_err_unchanged (c : Prop) [Decidable c] (e1 e2 : P4.esp_err_t)
    (v w : P4.lp_core_vars_t) (hne : e2 ≠ P4.esp_err_t.ESP_ERR_INVALID_STATE ∧
      e2 ≠ P4.esp_err_t.ESP_FAIL)
    (h : (if c then (e1, v) else (e2, w)).1 = P4.esp_err_t.ESP_ERR_INVALID_STATE ∨
      (if c then (e1, v) else (e2, w)).1 = P4.esp_err_t.ESP_FAIL) :
    (if c then (e1, v) else (e2, w)).2 = v := by
  by_cases hc : c
  · rw [if_pos hc]
  · rw [if_neg hc] at h
    rcases h with h | h
    · exact absurd h hne.1
    · exact absurd h hne.2

theorem lp_core_step_unchanged (crc : P4.lp_core_handover_data_t → ℕ)
    (v : P4.lp_core_vars_t) (op : P4.lp_core_op)
    (h : (P4.lp_core_step crc v op).1 = P4.esp_err_t.ESP_ERR_INVALID_STATE ∨
      (P4.lp_core_step crc v op).1 = P4.esp_err_t.ESP_FAIL) :
    (P4.lp_core_step crc v op).2 = v := by
  have ok : P4.esp_err_t.ESP_OK ≠ P4.esp_err_t.ESP_ERR_INVALID_STATE ∧
      P4.esp_err_t.ESP_OK ≠ P4.esp_err_t.ESP_FAIL := ⟨by decide, by decide⟩
  cases op with
  | start_cranking take_ok now_ms =>
    have h2 : (P4.lp_core_start_cranking v take_ok now_ms).1
        = P4.esp_err_t.ESP_ERR_INVALID_STATE ∨
      (P4.lp_core_start_cranking v take_ok now_ms).1 = P4.esp_err_t.ESP_FAIL := h
    show (P4.lp_core_start_cranking v take_ok now_ms).2 = v
    unfold P4.lp_core_start_cranking at h2 ⊢
    by_cases ht : take_ok = true
    · rw [if_pos ht] at h2 ⊢
      exact ite_err_unchanged _ _ _ v _ ok h2
    · rw [if_neg ht]
  | stop_cranking take_ok =>
    have h2 : (P4.lp_core_stop_cranking v take_ok).1 = P4.esp_err_t.ESP_ERR_INVALID_STATE ∨
      (P4.lp_core_stop_cranking v take_ok).1 = P4.esp_err_t.ESP_FAIL := h
    show (P4.lp_core_stop_cranking v take_ok).2 = v
    unfold P4.lp_core_stop_cranking at h2 ⊢
    by_cases ht : take_ok = true
    · rw [if_pos ht] at h2 ⊢
      exact ite_err_unchanged _ _ _ v _ ok h2
    · rw [if_neg ht]
  | handle_sync_event take_ok tooth_period_us is_gap is_phase now_ms =>
    have h2 : (P4.lp_core_handle_sync_event v take_ok tooth_period_us is_gap is_phase now_ms).1
        = P4.esp_err_t.ESP_ERR_INVALID_STATE ∨
      (P4.lp_core_handle_sync_event v take_ok tooth_period_us is_gap is_phase now_ms).1
        = P4.esp_err_t.ESP_FAIL := h
    show (P4.lp_core_handle_sync_event v take_ok tooth_period_us is_gap is_phase now_ms).2 = v
    unfold P4.lp_core_handle_sync_event at h2 ⊢
    by_cases ht : take_ok = true
    · rw [if_pos ht] at h2 ⊢
      exact ite_err_unchanged _ _ _ v _ ok h2
    · rw [if_neg ht]
  | perform_handover take_ok =>
    have h2 : (P4.lp_core_perform_handover crc v take_ok).1
        = P4.esp_err_t.ESP_ERR_INVALID_STATE ∨
      (P4.lp_core_perform_handover crc v take_ok).1 = P4.esp_err_t.ESP_FAIL := h
    show (P4.lp_core_perform_handover crc v take_ok).2 = v
    unfold P4.lp_core_perform_handover at h2 ⊢
    by_cases ht : take_ok = true
    · rw [if_pos ht] at h2 ⊢
      exact ite_err_unchanged _ _ _ v _ ok h2
    · rw [if_neg ht]
  | reset_state take_ok =>
    have h2 : (P4.lp_core_reset_state v take_ok).1 = P4.esp_err_t.ESP_ERR_INVALID_STATE ∨
      (P4.lp_core_reset_state v take_ok).1 = P4.esp_err_t.ESP_FAIL := h
    show (P4.lp_core_reset_state v take_ok).2 = v
    unfold P4.lp_core_reset_state at h2 ⊢
    by_cases ht : take_ok = true
    · rw [if_pos ht] at h2
      rcases h2 with h3 | h3
      · exact absurd h3 ok.1
      · exact absurd h3 ok.2
    · rw [if_neg ht]

/-- C30. In every state reached from `lp_core_init` (with a configuration)
through any sequence of `lp_core_start_cranking`, `lp_core_stop_cranking`,
`lp_core_handle_sync_event`, `lp_core_perform_handover` and
`lp_core_reset_state`, `is_sync_acquired` implies that `gap_detected` and
`phase_detected` are both set, and `is_cranking` and `is_handover_complete` are
not both true; a call that returns `ESP_ERR_INVALID_STATE` leaves every
variable as it was. -/
theorem lp_core_invariant :
    (∀ (crc : P4.lp_core_handover_data_t → ℕ) (v0 : P4.lp_core_vars_t)
        (c : P4.lp_core_config_t) (mutex_created : Bool) (wakeup_err : P4.esp_err_t)
        (ops : List P4.lp_core_op),
      P4.spec_lp_core_inv
        (P4.lp_core_run crc (P4.lp_core_init v0 (some c) mutex_created wakeup_err).2
          ops).g_lp_state) ∧
    (∀ (crc : P4.lp_core_handover_data_t → ℕ) (v : P4.lp_core_vars_t) (op : P4.lp_core_op),
      (P4.lp_core_step crc v op).1 = P4.esp_err_t.ESP_ERR_INVALID_STATE →
        (P4.lp_core_step crc v op).2 = v) := by
  refine ⟨fun crc v0 c mutex_created wakeup_err ops => ?_, fun crc v op h =>
    lp_core_step_unchanged crc v op (Or.inl h)⟩
  apply lp_core_run_inv
  rw [lp_core_init_inv]
  exact lp_core_reset_inv

theorem lp_core_invariant_witness :
    (P4.lp_core_step example_crc32
        (P4.lp_core_init example_lp_vars_zero (some example_lp_config) true
          P4.esp_err_t.ESP_OK).2 (P4.lp_core_op.perform_handover true)).1
      = P4.esp_err_t.ESP_ERR_INVALID_STATE ∧
    (P4.lp_core_step example_crc32
        (P4.lp_core_init example_lp_vars_zero (some example_lp_config) true
          P4.esp_err_t.ESP_OK).2 (P4.lp_core_op.perform_handover true)).2
      = (P4.lp_core_init example_lp_vars_zero (some example_lp_config) true
          P4.esp_err_t.ESP_OK).2 :=
  have h : (P4.lp_core_step example_crc32
        (P4.lp_core_init example_lp_vars_zero (some example_lp_config) true
          P4.esp_err_t.ESP_OK).2 (P4.lp_core_op.perform_handover true)).1
      = P4.esp_err_t.ESP_ERR_INVALID_STATE := by
    decide
  ⟨h, lp_core_invariant.2 example_crc32 _ _ h⟩

theorem lp_core_example_handover :
    (P4.lp_core_run example_crc32
        (P4.lp_core_init example_lp_vars_zero (some example_lp_config) true
          P4.esp_err_t.ESP_OK).2
        ([P4.lp_core_op.start_cranking true 100,
            P4.lp_core_op.handle_sync_event true 5000 true true 110]
          ++ List.replicate 10 (P4.lp_core_op.handle_sync_event true 5000 false false 120)
          ++ [P4.lp_core_op.perform_handover true])).g_lp_state
      = P4.lp_core_state_t.mk false true true true 200 0 100 120 10 1 1 := by
  decide


/-! ## The 700 us verdict of the jitter simulator -/

theorem perf_run_counters (ss : List perf_sample) :
    ∀ (g : sim_perf_t) (n : ℕ), n + ss.length < 4294967296 →
      g.planner_miss_700 ≤ n → g.executor_miss_700 ≤ n → g.queue_age_miss_700 ≤ n →
      ((perf_run g ss).planner_miss_700 ≤ n + ss.length ∧
        (perf_run g ss).executor_miss_700 ≤ n + ss.length ∧
        (perf_run g ss).queue_age_miss_700 ≤ n + ss.length) ∧
      g.planner_miss_700 ≤ (perf_run g ss).planner_miss_700 ∧
      g.executor_miss_700 ≤ (perf_run g ss).executor_miss_700 ∧
      g.queue_age_miss_700 ≤ (perf_run g ss).queue_age_miss_700 ∧
      ((perf_run g ss).planner_miss_700 = g.planner_miss_700 ∧
        (perf_run g ss).executor_miss_700 = g.executor_miss_700 ∧
        (perf_run g ss).queue_age_miss_700 = g.queue_age_miss_700 ↔
          ∀ s ∈ ss, s.within_700) := by
  induction ss with
  | nil =>
    intro g n _ h1 h2 h3
    refine ⟨⟨h1, h2, h3⟩, le_refl _, le_refl _, le_refl _, ?_⟩
    simp [perf_run]
  | cons s ss ih =>
    intro g n hn h1 h2 h3
    rw [List.length_cons] at hn ⊢
    cases s with
    | planner us =>
      have hstep : (perf_record_planner g us).planner_miss_700
          = if us > 700 then g.planner_miss_700 + 1 else g.planner_miss_700 := by
        unfold perf_record_planner DEADLINE_US
        dsimp only
        split_ifs
        · exact Nat.mod_eq_of_lt (by omega)
        · rfl
      obtain ⟨⟨a1, a2, a3⟩, b1, b2, b3, c⟩ := ih (perf_record_planner g us) (n + 1) (by omega)
        (by rw [hstep]; split_ifs <;> omega) (by show g.executor_miss_700 ≤ n + 1; omega)
        (by show g.queue_age_miss_700 ≤ n + 1; omega)
      have b2a : g.executor_miss_700 ≤ (perf_run (perf_record_planner g us) ss).executor_miss_700 :=
        b2
      have b3a : g.queue_age_miss_700
          ≤ (perf_run (perf_record_planner g us) ss).queue_age_miss_700 := b3
      have c2 : (perf_run (perf_record_planner g us) ss).planner_miss_700
            = (perf_record_planner g us).planner_miss_700 ∧
          (perf_run (perf_record_planner g us) ss).executor_miss_700 = g.executor_miss_700 ∧
          (perf_run (perf_record_planner g us) ss).queue_age_miss_700 = g.queue_age_miss_700 ↔
            ∀ s ∈ ss, s.within_700 := c
      rw [hstep] at b1 c2
      show ((perf_run (perf_record_planner g us) ss).planner_miss_700 ≤ n + (ss.length + 1) ∧
        (perf_run (perf_record_planner g us) ss).executor_miss_700 ≤ n + (ss.length + 1) ∧
        (perf_run (perf_record_planner g us) ss).queue_age_miss_700 ≤ n + (ss.length + 1)) ∧
        g.planner_miss_700 ≤ (perf_run (perf_record_planner g us) ss).planner_miss_700 ∧
        g.executor_miss_700 ≤ (perf_run (perf_record_planner g us) ss).executor_miss_700 ∧
        g.queue_age_miss_700 ≤ (perf_run (perf_record_planner g us) ss).queue_age_miss_700 ∧
        ((perf_run (perf_record_planner g us) ss).planner_miss_700 = g.planner_miss_700 ∧
          (perf_run (perf_record_planner g us) ss).executor_miss_700 = g.executor_miss_700 ∧
          (perf_run (perf_record_planner g us) ss).queue_age_miss_700 = g.queue_age_miss_700 ↔
            ∀ s ∈ perf_sample.planner us :: ss, s.within_700)
      refine ⟨⟨by omega, by omega, by omega⟩, by split_ifs at b1 <;> omega, b2a, b3a, ?_⟩
      rw [List.forall_mem_cons]
      by_cases hu : us > 700
      · rw [if_pos hu] at b1 c2
        constructor
        · intro hh
          omega
        · intro hh
          have : us ≤ 700 := hh.1
          omega
      · rw [if_neg hu] at c2
        rw [c2]
        constructor
        · intro hh
          exact ⟨not_lt.mp hu, hh⟩
        · intro hh
          exact hh.2
    | executor exec_us queue_age_us =>
      have hs1 : (perf_record_executor g exec_us queue_age_us).executor_miss_700
          = if exec_us > 700 then g.executor_miss_700 + 1 else g.executor_miss_700 := by
        unfold perf_record_executor DEADLINE_US
        dsimp only
        split_ifs
        · exact Nat.mod_eq_of_lt (by omega)
        · rfl
      have hs2 : (perf_record_executor g exec_us queue_age_us).queue_age_miss_700
          = if queue_age_us > 700 then g.queue_age_miss_700 + 1
            else g.queue_age_miss_700 := by
        unfold perf_record_executor DEADLINE_US
        dsimp only
        split_ifs
        · exact Nat.mod_eq_of_lt (by omega)
        · rfl
      obtain ⟨⟨a1, a2, a3⟩, b1, b2, b3, c⟩ := ih (perf_record_executor g exec_us queue_age_us)
        (n + 1) (by omega) (by show g.planner_miss_700 ≤ n + 1; omega)
        (by rw [hs1]; split_ifs <;> omega) (by rw [hs2]; split_ifs <;> omega)
      have b1a : g.planner_miss_700
          ≤ (perf_run (perf_record_executor g exec_us queue_age_us) ss).planner_miss_700 := b1
      have c2 : (perf_run (perf_record_executor g exec_us queue_age_us) ss).planner_miss_700
            = g.planner_miss_700 ∧
          (perf_run (perf_record_executor g exec_us queue_age_us) ss).executor_miss_700
            = (perf_record_executor g exec_us queue_age_us).executor_miss_700 ∧
          (perf_run (perf_record_executor g exec_us queue_age_us) ss).queue_age_miss_700
            = (perf_record_executor g exec_us queue_age_us).queue_age_miss_700 ↔
            ∀ s ∈ ss, s.within_700 := c
      rw [hs1] at b2
      rw [hs2] at b3
      rw [hs1, hs2] at c2
      show ((perf_run (perf_record_executor g exec_us queue_age_us) ss).planner_miss_700
            ≤ n + (ss.length + 1) ∧
          (perf_run (perf_record_executor g exec_us queue_age_us) ss).executor_miss_700
            ≤ n + (ss.length + 1) ∧
          (perf_run (perf_record_executor g exec_us queue_age_us) ss).queue_age_miss_700
            ≤ n + (ss.length + 1)) ∧
        g.planner_miss_700
          ≤ (perf_run (perf_record_executor g exec_us queue_age_us) ss).planner_miss_700 ∧
        g.executor_miss_700
          ≤ (perf_run (perf_record_executor g exec_us queue_age_us) ss).executor_miss_700 ∧
        g.queue_age_miss_700
          ≤ (perf_run (perf_record_executor g exec_us queue_age_us) ss).queue_age_miss_700 ∧
        ((perf_run (perf_record_executor g exec_us queue_age_us) ss).planner_miss_700
            = g.planner_miss_700 ∧
          (perf_run (perf_record_executor g exec_us queue_age_us) ss).executor_miss_700
            = g.executor_miss_700 ∧
          (perf_run (perf_record_executor g exec_us queue_age_us) ss).queue_age_miss_700
            = g.queue_age_miss_700 ↔
            ∀ s ∈ perf_sample.executor exec_us queue_age_us :: ss, s.within_700)
      refine ⟨⟨by omega, by omega, by omega⟩, b1a, by split_ifs at b2 <;> omega,
        by split_ifs at b3 <;> omega, ?_⟩
      rw [List.forall_mem_cons]
      by_cases hu : exec_us > 700
      · rw [if_pos hu] at b2
        constructor
        · intro hh
          omega
        · intro hh
          have : exec_us ≤ 700 := hh.1.1
          omega
      · rw [if_neg hu] at c2
        by_cases hq : queue_age_us > 700
        · rw [if_pos hq] at b3
          constructor
          · intro hh
            omega
          · intro hh
            have : queue_age_us ≤ 700 := hh.1.2
            omega
        · rw [if_neg hq] at c2
          rw [c2]
          constructor
          · intro hh
            exact ⟨⟨not_lt.mp hu, not_lt.mp hq⟩, hh⟩
          · intro hh
            exact hh.2

/-- In a sequential reading of the simulator, for fewer than `2^32` recorded
measurements, the `<=700us` verdict of `report_task` is PASS exactly when no
recorded planner, executor or queue-age measurement exceeded 700 us. -/
theorem verdict_700_iff (ss : List perf_sample) (h : ss.length < 4294967296) :
    pass_700 (perf_run g_perf_init ss) = true ↔ ∀ s ∈ ss, s.within_700 := by
  obtain ⟨_, b1, b2, b3, c⟩ := perf_run_counters ss g_perf_init 0 (by omega) (le_refl 0)
    (le_refl 0) (le_refl 0)
  have e1 : g_perf_init.planner_miss_700 = 0 := rfl
  have e2 : g_perf_init.executor_miss_700 = 0 := rfl
  have e3 : g_perf_init.queue_age_miss_700 = 0 := rfl
  rw [e1, e2, e3] at c
  rw [← c]
  unfold pass_700
  simp only [Bool.and_eq_true, decide_eq_true_eq]
  tauto

theorem verdict_700_iff_witness :
    [perf_sample.planner 310, perf_sample.executor 62 705].length < 4294967296 ∧
    pass_700 (perf_run g_perf_init [perf_sample.planner 310, perf_sample.executor 62 705])
      = false ∧
    ¬ ∀ s ∈ [perf_sample.planner 310, perf_sample.executor 62 705], s.within_700 :=
  have hp : pass_700 (perf_run g_perf_init [perf_sample.planner 310, perf_sample.executor 62 705])
      = false := by
    decide
  ⟨by decide, hp, fun hall =>
    absurd ((verdict_700_iff [perf_sample.planner 310, perf_sample.executor 62 705]
      (by decide)).mpr hall) (by rw [hp]; decide)⟩

end EMS
